import Mathlib

/-!
# The SVG text property store of `KoSvgTextProperties.cpp`

A shallow embedding of `src/libs/flake/text/KoSvgTextProperties.cpp`.

* `qreal` is modelled by exact rationals.
* `QVariant` is a tagged union; `canConvert<T>()` is a test on the tag, `value<T>()` returns
  the payload when the tag is `T` and a default-constructed `T` otherwise, and `operator==`
  is equality of the tagged value.
* `QMap<PropertyId, QVariant>` is a finite map `PropertyId → Option QVariant`; the loops of the
  source that walk the map are folds over its key list.
* Declarations of `KoSvgText.h` (enumerators, helper parsers) are not part of the sources at
  hand. Enumerators are fields of `KoSvgText.Enumerators`, font metrics are a function
  parameter, and the value structs are modelled from the data model of the specification.
-/

namespace KoSvgText

/-- Modelled from the spec: the unit tag of `CssLengthPercentage` (declared in the absent
`KoSvgText.h`): an absolute length, a percentage, or a font-relative `em` / `ex` length. -/
inductive UnitType where
  | Absolute
  | Percentage
  | Em
  | Ex
deriving DecidableEq, Repr

/-- Modelled from the spec: `CssLengthPercentage{value, unit}` of the absent `KoSvgText.h`.
The default-constructed value is the absolute length 0; `CssLengthPercentage(12.0)` is
`{ value := 12 }`. -/
structure CssLengthPercentage where
  value : ℚ := 0
  unit : UnitType := UnitType.Absolute
deriving DecidableEq, Repr

/-- Modelled from the spec: `CssLengthPercentage::convertToAbsolute(fontSize, xHeight)` of the
absent `KoSvgText.cpp`, the "absolute-unit conversion" of the spec: a font-relative length is
multiplied by the metric it refers to (`em` and `%` by the font size, `ex` by the x-height) and
the result is tagged absolute; an absolute length keeps its value. -/
def CssLengthPercentage.convertToAbsolute (l : CssLengthPercentage) (fontSize xHeight : ℚ) :
    CssLengthPercentage :=
  match l.unit with
  | UnitType.Absolute => { value := l.value, unit := UnitType.Absolute }
  | UnitType.Percentage => { value := l.value * fontSize, unit := UnitType.Absolute }
  | UnitType.Em => { value := l.value * fontSize, unit := UnitType.Absolute }
  | UnitType.Ex => { value := l.value * xHeight, unit := UnitType.Absolute }

/-- Modelled from the spec: `AutoValue{isAuto, customValue}` of the absent `KoSvgText.h`;
default-constructed it is `auto`. -/
structure AutoValue where
  isAuto : Bool := true
  customValue : ℚ := 0
deriving DecidableEq, Repr

/-- Modelled from the spec: `AutoLengthPercentage{isAuto, length}` of the absent
`KoSvgText.h`; default-constructed it is `auto`. -/
structure AutoLengthPercentage where
  length : CssLengthPercentage := {}
  isAuto : Bool := true
deriving DecidableEq, Repr

/-- Modelled from the spec: `LineHeightInfo{isNormal, isNumber, length}` of the absent
`KoSvgText.h` (`value` carries the plain number); default-constructed it is `normal`. -/
structure LineHeightInfo where
  value : ℚ := 1
  length : CssLengthPercentage := {}
  isNumber : Bool := false
  isNormal : Bool := true
deriving DecidableEq, Repr

/-- Modelled from the spec: `TabSizeInfo` of the absent `KoSvgText.h`: a plain number or a
length; default-constructed it is the number 8. -/
structure TabSizeInfo where
  value : ℚ := 8
  length : CssLengthPercentage := {}
  isNumber : Bool := true
deriving DecidableEq, Repr

/-- Modelled from the spec: `TextIndentInfo{length, hanging, eachLine}` of the absent
`KoSvgText.h`. -/
structure TextIndentInfo where
  length : CssLengthPercentage := {}
  hanging : Bool := false
  eachLine : Bool := false
deriving DecidableEq, Repr

/-- Modelled from the spec: `CssFontStyleData{style, slant}` of the absent `KoSvgText.h`;
`style` is the integer value of a `QFont::Style`. -/
structure CssFontStyleData where
  style : Int := 0
  slantValue : AutoValue := {}
deriving DecidableEq, Repr

/-- Modelled from the spec: the bitflag set `TextDecorations` (a `QFlags`), one Boolean per
flag `DecorationUnderline`, `DecorationOverline`, `DecorationLineThrough`; `DecorationNone`
is the empty set. -/
structure TextDecorations where
  underline : Bool := false
  overline : Bool := false
  lineThrough : Bool := false
deriving DecidableEq, Repr

/-- Modelled from the spec: the bitflag set `TextSpaceTrims` (a `QFlags`), one Boolean per
flag; `TrimNone` is the empty set. -/
structure TextSpaceTrims where
  trimInner : Bool := false
  discardBefore : Bool := false
  discardAfter : Bool := false
deriving DecidableEq, Repr

/-- Modelled from the spec: the bitflag set `HangingPunctuations` (a `QFlags`), one Boolean
per flag `HangFirst`, `HangLast`, `HangEnd`, `HangForce`; `HangNone` is the empty set. -/
structure HangingPunctuations where
  hangFirst : Bool := false
  hangLast : Bool := false
  hangEnd : Bool := false
  hangForce : Bool := false
deriving DecidableEq, Repr

/-- Modelled from the spec: `TextTransformInfo` of the absent `KoSvgText.h`: the
capitalisation mode with the full-width and full-size-kana switches. -/
structure TextTransformInfo where
  capitals : Int := 0
  fullWidth : Bool := false
  fullSizeKana : Bool := false
deriving DecidableEq, Repr

end KoSvgText

/-- The Qt colour type: `QColor()` is the invalid colour. -/
structure QColor where
  valid : Bool := false
  rgba : Nat := 0
deriving DecidableEq, Repr

/-- The Qt value holder `QVariant`, as a tagged union over the types this file stores.
`invalid` is the default-constructed `QVariant()`. An unscoped enumerator passed to
`setProperty` is stored as `int`. -/
inductive QVariant where
  | invalid
  | int (n : Int)
  | bool (b : Bool)
  | real (x : ℚ)
  | string (s : String)
  | stringList (l : List String)
  | hash (h : List (String × ℚ))
  | color (c : QColor)
  | globalColor (c : Int)
  | lengthPercentage (l : KoSvgText.CssLengthPercentage)
  | autoValue (a : KoSvgText.AutoValue)
  | autoLengthPercentage (a : KoSvgText.AutoLengthPercentage)
  | lineHeight (l : KoSvgText.LineHeightInfo)
  | tabSize (t : KoSvgText.TabSizeInfo)
  | textIndent (t : KoSvgText.TextIndentInfo)
  | fontStyle (f : KoSvgText.CssFontStyleData)
  | textDecorations (d : KoSvgText.TextDecorations)
  | textSpaceTrims (t : KoSvgText.TextSpaceTrims)
  | hangingPunctuations (h : KoSvgText.HangingPunctuations)
  | textTransform (t : KoSvgText.TextTransformInfo)
  | userType (typeId : Nat) (data : Nat)
deriving DecidableEq, Repr

namespace QVariant

/-- `QVariant::isNull()`: true for the default-constructed variant. A stored value counts as
not null (a `QString` is not told apart from a null `QString()`, which Qt 5 also reports as
null). -/
def isNull : QVariant → Bool
  | invalid => true
  | _ => false

/-- `canConvert<KoSvgText::CssLengthPercentage>()`. -/
def canConvertCssLengthPercentage : QVariant → Bool
  | lengthPercentage _ => true
  | _ => false

/-- `canConvert<KoSvgText::AutoLengthPercentage>()`. -/
def canConvertAutoLengthPercentage : QVariant → Bool
  | autoLengthPercentage _ => true
  | _ => false

/-- `value<KoSvgText::CssLengthPercentage>()`. -/
def valueCssLengthPercentage : QVariant → KoSvgText.CssLengthPercentage
  | lengthPercentage l => l
  | _ => {}

/-- `value<KoSvgText::AutoLengthPercentage>()`. -/
def valueAutoLengthPercentage : QVariant → KoSvgText.AutoLengthPercentage
  | autoLengthPercentage a => a
  | _ => {}

/-- `value<KoSvgText::LineHeightInfo>()`. -/
def valueLineHeightInfo : QVariant → KoSvgText.LineHeightInfo
  | lineHeight l => l
  | _ => {}

/-- `value<KoSvgText::TabSizeInfo>()`. -/
def valueTabSizeInfo : QVariant → KoSvgText.TabSizeInfo
  | tabSize t => t
  | _ => {}

/-- `value<KoSvgText::TextIndentInfo>()`. -/
def valueTextIndentInfo : QVariant → KoSvgText.TextIndentInfo
  | textIndent t => t
  | _ => {}

/-- `toStringList()`: a string list reads as itself, a string as the one-element list. -/
def toStringList : QVariant → List String
  | stringList l => l
  | string s => [s]
  | _ => []

end QVariant

/-- The property identifiers `KoSvgTextProperties::PropertyId`. The enumeration is declared in
the absent `KoSvgTextProperties.h`; these are the identifiers the sources name. -/
inductive PropertyId where
  | WritingModeId
  | DirectionId
  | UnicodeBidiId
  | TextAnchorId
  | DominantBaselineId
  | AlignmentBaselineId
  | BaselineShiftModeId
  | BaselineShiftValueId
  | KerningId
  | TextOrientationId
  | LetterSpacingId
  | WordSpacingId
  | FontFamiliesId
  | FontStyleId
  | FontStretchId
  | FontWeightId
  | FontSizeId
  | FontSizeAdjustId
  | FontSynthesisBoldId
  | FontSynthesisItalicId
  | FontSynthesisSmallCapsId
  | FontSynthesisSuperSubId
  | FontOpticalSizingId
  | TextDecorationLineId
  | TextDecorationPositionHorizontalId
  | TextDecorationPositionVerticalId
  | TextDecorationColorId
  | TextDecorationStyleId
  | TextCollapseId
  | TextWrapId
  | TextTrimId
  | LineBreakId
  | WordBreakId
  | TextAlignAllId
  | TextAlignLastId
  | TextTransformId
  | LineHeightId
  | TabSizeId
  | HangingPunctuationId
  | FontVariantCommonLigId
  | FontVariantDiscretionaryLigId
  | FontVariantHistoricalLigId
  | FontVariantContextualAltId
  | FontVariantPositionId
  | FontVariantCapsId
  | FontVariantNumFigureId
  | FontVariantNumSpacingId
  | FontVariantNumFractId
  | FontVariantNumOrdinalId
  | FontVariantNumSlashedZeroId
  | FontVariantEastAsianVarId
  | FontVariantEastAsianWidthId
  | FontVariantRubyId
  | FontVariantHistoricalFormsId
  | FontFeatureSettingsId
  | FontVariationSettingsId
  | TextLanguage
  | TextIndentId
  | InlineSizeId
  | TextOverFlowId
  | OverflowWrapId
  | ShapePaddingId
  | ShapeMarginId
  | FillId
  | StrokeId
deriving DecidableEq, Repr

namespace PropertyId

/-- Every identifier once, in the key order in which a `QMap<PropertyId, _>` is walked. The
numeric order of the enumeration is declared in the absent header; each loop of the source
that walks a store reads and writes only the entry of the key it visits. -/
def all : List PropertyId :=
  [WritingModeId, DirectionId, UnicodeBidiId, TextAnchorId, DominantBaselineId,
   AlignmentBaselineId, BaselineShiftModeId, BaselineShiftValueId, KerningId,
   TextOrientationId, LetterSpacingId, WordSpacingId, FontFamiliesId, FontStyleId,
   FontStretchId, FontWeightId, FontSizeId, FontSizeAdjustId, FontSynthesisBoldId,
   FontSynthesisItalicId, FontSynthesisSmallCapsId, FontSynthesisSuperSubId,
   FontOpticalSizingId, TextDecorationLineId, TextDecorationPositionHorizontalId,
   TextDecorationPositionVerticalId, TextDecorationColorId, TextDecorationStyleId,
   TextCollapseId, TextWrapId, TextTrimId, LineBreakId, WordBreakId, TextAlignAllId,
   TextAlignLastId, TextTransformId, LineHeightId, TabSizeId, HangingPunctuationId,
   FontVariantCommonLigId, FontVariantDiscretionaryLigId, FontVariantHistoricalLigId,
   FontVariantContextualAltId, FontVariantPositionId, FontVariantCapsId,
   FontVariantNumFigureId, FontVariantNumSpacingId, FontVariantNumFractId,
   FontVariantNumOrdinalId, FontVariantNumSlashedZeroId, FontVariantEastAsianVarId,
   FontVariantEastAsianWidthId, FontVariantRubyId, FontVariantHistoricalFormsId,
   FontFeatureSettingsId, FontVariationSettingsId, TextLanguage, TextIndentId, InlineSizeId,
   TextOverFlowId, OverflowWrapId, ShapePaddingId, ShapeMarginId, FillId, StrokeId]

end PropertyId

namespace KoSvgText

/-- The enumerators of the absent `KoSvgText.h` that the source names, by their integer
value. -/
structure Enumerators where
  HorizontalTB : Int
  DirectionLeftToRight : Int
  BidiNormal : Int
  AnchorStart : Int
  BaselineAuto : Int
  ShiftNone : Int
  OrientationMixed : Int
  UnderlineAuto : Int
  Solid : Int
  Collapse : Int
  Wrap : Int
  LineBreakAuto : Int
  WordBreakNormal : Int
  AlignStart : Int
  AlignLastAuto : Int
  TextTransformNone : Int
  ShiftLengthPercentage : Int
  Double : Int
  Dotted : Int
  Dashed : Int
  Wavy : Int
  UnderlineUnder : Int
  UnderlineLeft : Int
  UnderlineRight : Int
  OverFlowVisible : Int
  OverFlowClip : Int
  OverFlowEllipse : Int
  OverflowWrapNormal : Int
  OverflowWrapBreakWord : Int
  OverflowWrapAnywhere : Int
  FontVariantNormal : Int
  FontVariantNone : Int
  CommonLigatures : Int
  NoCommonLigatures : Int
  DiscretionaryLigatures : Int
  NoDiscretionaryLigatures : Int
  HistoricalLigatures : Int
  NoHistoricalLigatures : Int
  ContextualAlternates : Int
  NoContextualAlternates : Int
  PositionSub : Int
  PositionSuper : Int
  SmallCaps : Int
  TitlingCaps : Int
  LiningNums : Int
  OldStyleNums : Int
  ProportionalNums : Int
  TabularNums : Int
  DiagonalFractions : Int
  StackedFractions : Int
  Ordinal : Int
  SlashedZero : Int
  HistoricalForms : Int
  EastAsianJis78 : Int
  EastAsianTraditional : Int
  EastAsianFullWidth : Int
  EastAsianProportionalWidth : Int
  EastAsianRuby : Int
  OrientationUpright : Int
  OrientationSideWays : Int
  PreserveSpaces : Int

/-- Modelled from the spec: `KoSvgText::fromAutoValue` of the absent `KoSvgText.h` wraps the
auto-value as it is (the source reads it back with `value<AutoValue>()`). -/
def fromAutoValue (a : AutoValue) : QVariant := QVariant.autoValue a

end KoSvgText

/-- `Qt::transparent`, an enumerator of `Qt::GlobalColor`. -/
def Qt.transparent : Int := 19

/-- The store `KoSvgTextProperties`: its private member `QMap<PropertyId, QVariant> properties`.
An absent key is `none`. -/
@[ext]
structure KoSvgTextProperties where
  properties : PropertyId → Option QVariant

namespace KoSvgTextProperties

open PropertyId

/-- The default constructor: an empty store. -/
def empty : KoSvgTextProperties := ⟨fun _ => none⟩

/-- `setProperty(id, value)`: `properties.insert(id, value)`. -/
def setProperty (s : KoSvgTextProperties) (id : PropertyId) (value : QVariant) :
    KoSvgTextProperties :=
  ⟨fun k => if k = id then some value else s.properties k⟩

/-- `hasProperty(id)`: `properties.contains(id)`. -/
def hasProperty (s : KoSvgTextProperties) (id : PropertyId) : Bool :=
  (s.properties id).isSome

/-- `property(id, defaultValue)`: `properties.value(id, defaultValue)`. The one-argument call
`property(id)` of the source is `property id QVariant.invalid`. -/
def property (s : KoSvgTextProperties) (id : PropertyId) (defaultValue : QVariant) : QVariant :=
  (s.properties id).getD defaultValue

/-- `removeProperty(id)`: `properties.remove(id)`. -/
def removeProperty (s : KoSvgTextProperties) (id : PropertyId) : KoSvgTextProperties :=
  ⟨fun k => if k = id then none else s.properties k⟩

/-- `properties()`: the keys of the map, in key order. -/
def keys (s : KoSvgTextProperties) : List PropertyId :=
  PropertyId.all.filter (fun k => s.hasProperty k)

/-- `isEmpty()`. -/
def isEmpty (s : KoSvgTextProperties) : Bool := s.keys.isEmpty

/-- `Private::isInheritable(id)`. -/
def isInheritable (id : PropertyId) : Bool :=
  id != UnicodeBidiId && id != AlignmentBaselineId && id != BaselineShiftModeId
    && id != BaselineShiftValueId && id != TextDecorationLineId
    && id != TextDecorationColorId && id != TextDecorationStyleId && id != InlineSizeId
    && id != TextTrimId

/-- `propertyIsInheritable(id)`. -/
def propertyIsInheritable (id : PropertyId) : Bool := isInheritable id

/-- `propertyIsBlockOnly(id)`. -/
def propertyIsBlockOnly (id : PropertyId) : Bool :=
  id == WritingModeId || id == TextAlignAllId || id == TextAlignLastId || id == TextIndentId
    || id == HangingPunctuationId

/-- The calls `s_defaultProperties->setProperty(id, value)` of `defaultProperties()`, in source
order. -/
def defaultEntries (E : KoSvgText.Enumerators) : List (PropertyId × QVariant) :=
  [(WritingModeId, QVariant.int E.HorizontalTB),
   (DirectionId, QVariant.int E.DirectionLeftToRight),
   (UnicodeBidiId, QVariant.int E.BidiNormal),
   (TextAnchorId, QVariant.int E.AnchorStart),
   (DominantBaselineId, QVariant.int E.BaselineAuto),
   (AlignmentBaselineId, QVariant.int E.BaselineAuto),
   (BaselineShiftModeId, QVariant.int E.ShiftNone),
   (BaselineShiftValueId, QVariant.lengthPercentage {}),
   (KerningId, KoSvgText.fromAutoValue {}),
   (TextOrientationId, QVariant.int E.OrientationMixed),
   (LetterSpacingId, QVariant.autoLengthPercentage {}),
   (WordSpacingId, QVariant.autoLengthPercentage {}),
   (FontFamiliesId, QVariant.string "sans-serif"),
   (FontStyleId, QVariant.fontStyle {}),
   (FontStretchId, QVariant.int 100),
   (FontWeightId, QVariant.int 400),
   (FontSizeId, QVariant.lengthPercentage { value := 12 }),
   (FontSizeAdjustId, KoSvgText.fromAutoValue {}),
   (FontSynthesisBoldId, QVariant.bool true),
   (FontSynthesisItalicId, QVariant.bool true),
   (FontSynthesisSmallCapsId, QVariant.bool true),
   (FontSynthesisSuperSubId, QVariant.bool true),
   (FontOpticalSizingId, QVariant.bool true),
   (TextDecorationLineId, QVariant.textDecorations {}),
   (TextDecorationPositionHorizontalId, QVariant.int E.UnderlineAuto),
   (TextDecorationPositionVerticalId, QVariant.int E.UnderlineAuto),
   (TextDecorationColorId, QVariant.globalColor Qt.transparent),
   (TextDecorationStyleId, QVariant.int E.Solid),
   (TextCollapseId, QVariant.int E.Collapse),
   (TextWrapId, QVariant.int E.Wrap),
   (TextTrimId, QVariant.textSpaceTrims {}),
   (LineBreakId, QVariant.int E.LineBreakAuto),
   (WordBreakId, QVariant.int E.WordBreakNormal),
   (TextAlignAllId, QVariant.int E.AlignStart),
   (TextAlignLastId, QVariant.int E.AlignLastAuto),
   (TextTransformId, QVariant.int E.TextTransformNone),
   (LineHeightId, QVariant.lineHeight {}),
   (TabSizeId, QVariant.tabSize {}),
   (HangingPunctuationId, QVariant.hangingPunctuations {})]

/-- `defaultProperties()`: the store built, once, by the calls of `defaultEntries`. -/
def defaultProperties (E : KoSvgText.Enumerators) : KoSvgTextProperties :=
  (defaultEntries E).foldl (fun s p => s.setProperty p.1 p.2) empty

/-- `propertyOrDefault(id)`: the stored value, or the default store's when that is null. -/
def propertyOrDefault (E : KoSvgText.Enumerators) (s : KoSvgTextProperties) (id : PropertyId) :
    QVariant :=
  let value := s.property id QVariant.invalid
  if value.isNull then (defaultProperties E).property id QVariant.invalid else value

/-- `fontSize()`. -/
def fontSize (E : KoSvgText.Enumerators) (s : KoSvgTextProperties) :
    KoSvgText.CssLengthPercentage :=
  (s.propertyOrDefault E FontSizeId).valueCssLengthPercentage

/-- `setFontSize(length)`. -/
def setFontSize (s : KoSvgTextProperties) (length : KoSvgText.CssLengthPercentage) :
    KoSvgTextProperties :=
  s.setProperty FontSizeId (QVariant.lengthPercentage length)

/-- One turn of the loop of `resetNonInheritableToDefault`, at the entry of key `key`. -/
def resetStep (E : KoSvgText.Enumerators) (acc : KoSvgTextProperties) (key : PropertyId) :
    KoSvgTextProperties :=
  if !isInheritable key then
    acc.setProperty key ((defaultProperties E).property key QVariant.invalid)
  else acc

/-- `resetNonInheritableToDefault()`. -/
def resetNonInheritableToDefault (E : KoSvgText.Enumerators) (s : KoSvgTextProperties) :
    KoSvgTextProperties :=
  s.keys.foldl (resetStep E) s

/-- One turn of the loop of `resolveRelativeValues`, at the entry of key `key`; `value` is
`it.value()`. -/
def resolveStep (usedSize usedXHeight : ℚ) (acc : KoSvgTextProperties) (key : PropertyId) :
    KoSvgTextProperties :=
  let value := acc.property key QVariant.invalid
  if value.canConvertCssLengthPercentage && key != FontSizeId then
    let length := value.valueCssLengthPercentage
    acc.setProperty key (QVariant.lengthPercentage (length.convertToAbsolute usedSize usedXHeight))
  else if value.canConvertAutoLengthPercentage then
    let val := value.valueAutoLengthPercentage
    if !val.isAuto then
      acc.setProperty key (QVariant.autoLengthPercentage
        { val with length := val.length.convertToAbsolute usedSize usedXHeight })
    else acc
  else if key == LineHeightId then
    let lineHeight := value.valueLineHeightInfo
    if !lineHeight.isNormal && !lineHeight.isNumber then
      acc.setProperty key (QVariant.lineHeight
        { lineHeight with length := lineHeight.length.convertToAbsolute usedSize usedXHeight })
    else acc
  else if key == TabSizeId then
    let tabSize := value.valueTabSizeInfo
    if !tabSize.isNumber then
      acc.setProperty key (QVariant.tabSize
        { tabSize with length := tabSize.length.convertToAbsolute usedSize usedXHeight })
    else acc
  else if key == TextIndentId then
    let indent := value.valueTextIndentInfo
    let indent :=
      if indent.length.unit != KoSvgText.UnitType.Percentage then
        { indent with length := indent.length.convertToAbsolute usedSize usedXHeight }
      else indent
    acc.setProperty key (QVariant.textIndent indent)
  else acc

/-- `resolveRelativeValues(fontSize, xHeight)`. The member `xHeight()` of the source reads the
metrics of the font generated from the store (`QFontMetrics`); it is the parameter `metrics`. -/
def resolveRelativeValues (E : KoSvgText.Enumerators) (metrics : KoSvgTextProperties → ℚ)
    (s : KoSvgTextProperties) (fontSize xHeight : ℚ) : KoSvgTextProperties :=
  let size := (s.fontSize E).convertToAbsolute fontSize xHeight
  let s := s.setFontSize size
  let usedSize := size.value
  let usedXHeight := metrics s
  s.keys.foldl (resolveStep usedSize usedXHeight) s

/-- One turn of the loop of `inheritFrom`, at the parent's entry of key `key`. -/
def inheritStep (parentProperties : KoSvgTextProperties) (acc : KoSvgTextProperties)
    (key : PropertyId) : KoSvgTextProperties :=
  if !acc.hasProperty key && isInheritable key then
    acc.setProperty key (parentProperties.property key QVariant.invalid)
  else acc

/-- `inheritFrom(parentProperties, resolve)`. -/
def inheritFrom (E : KoSvgText.Enumerators) (metrics : KoSvgTextProperties → ℚ)
    (s parentProperties : KoSvgTextProperties) (resolve : Bool) : KoSvgTextProperties :=
  let s := parentProperties.keys.foldl (inheritStep parentProperties) s
  if resolve then
    resolveRelativeValues E metrics s (parentProperties.fontSize E).value
      (metrics parentProperties)
  else s

/-- `inheritsProperty(id, parentProperties)`. The comparison `operator==` of two `QVariant`
is Qt's, defined outside the sources; it is the parameter `equals`, of which nothing is
assumed here (Qt compares a string list of one element equal to its string, and numbers of
different types by value, so it is not the equality of the tagged values). -/
def inheritsProperty (equals : QVariant → QVariant → Bool) (s : KoSvgTextProperties)
    (id : PropertyId) (parentProperties : KoSvgTextProperties) : Bool :=
  !s.hasProperty id
    || equals (parentProperties.property id QVariant.invalid) (s.property id QVariant.invalid)

/-- `hasNonInheritableProperties()`. -/
def hasNonInheritableProperties (s : KoSvgTextProperties) : Bool :=
  s.keys.any (fun k => !isInheritable k)

/-- `setAllButNonInheritableProperties(properties)`. -/
def setAllButNonInheritableProperties (s properties : KoSvgTextProperties) :
    KoSvgTextProperties :=
  properties.keys.foldl
    (fun acc key =>
      if isInheritable key then acc.setProperty key (properties.property key QVariant.invalid)
      else acc) s

/-- One turn of the loop of `ownProperties`, at this store's entry of key `key`. The test
`parentProperties.property(it.key()) != it.value()` is the negation of Qt's `operator==` of
two `QVariant`, the parameter `equals`. -/
def ownStep (equals : QVariant → QVariant → Bool) (s parentProperties : KoSvgTextProperties)
    (keepFontSize : Bool) (result : KoSvgTextProperties) (key : PropertyId) :
    KoSvgTextProperties :=
  if (keepFontSize && key == FontSizeId) || !parentProperties.hasProperty key
      || !equals (parentProperties.property key QVariant.invalid)
          (s.property key QVariant.invalid) then
    result.setProperty key (s.property key QVariant.invalid)
  else result

/-- `ownProperties(parentProperties, keepFontSize)`, with Qt's comparison of two `QVariant`
as the parameter `equals`. -/
def ownProperties (equals : QVariant → QVariant → Bool) (s parentProperties : KoSvgTextProperties)
    (keepFontSize : Bool) : KoSvgTextProperties :=
  s.keys.foldl (ownStep equals s parentProperties keepFontSize) empty

end KoSvgTextProperties

namespace KoSvgText

/-- A concrete numbering of the enumerators, for evaluating the definitions on concrete
inputs: each enumeration is counted upwards from 0 (`Solid` from 1), with a gap where an
enumeration has enumerators the source does not name; the font-variant features are one
enumeration (`FontVariantNormal`, `FontVariantNone`, ligatures, position, caps, numeric,
alternates, east-asian). -/
def Enumerators.sample : Enumerators where
  HorizontalTB := 0
  DirectionLeftToRight := 0
  BidiNormal := 0
  AnchorStart := 0
  BaselineAuto := 0
  ShiftNone := 0
  OrientationMixed := 0
  UnderlineAuto := 0
  Solid := 1
  Collapse := 0
  Wrap := 0
  LineBreakAuto := 0
  WordBreakNormal := 0
  AlignStart := 1
  AlignLastAuto := 0
  TextTransformNone := 0
  ShiftLengthPercentage := 3
  Double := 2
  Dotted := 3
  Dashed := 4
  Wavy := 5
  UnderlineUnder := 1
  UnderlineLeft := 2
  UnderlineRight := 3
  OverFlowVisible := 0
  OverFlowClip := 1
  OverFlowEllipse := 2
  OverflowWrapNormal := 0
  OverflowWrapBreakWord := 1
  OverflowWrapAnywhere := 2
  FontVariantNormal := 0
  FontVariantNone := 1
  CommonLigatures := 2
  NoCommonLigatures := 3
  DiscretionaryLigatures := 4
  NoDiscretionaryLigatures := 5
  HistoricalLigatures := 6
  NoHistoricalLigatures := 7
  ContextualAlternates := 8
  NoContextualAlternates := 9
  PositionSub := 10
  PositionSuper := 11
  SmallCaps := 12
  TitlingCaps := 17
  LiningNums := 18
  OldStyleNums := 19
  ProportionalNums := 20
  TabularNums := 21
  DiagonalFractions := 22
  StackedFractions := 23
  Ordinal := 24
  SlashedZero := 25
  HistoricalForms := 26
  EastAsianJis78 := 33
  EastAsianTraditional := 38
  EastAsianFullWidth := 39
  EastAsianProportionalWidth := 40
  EastAsianRuby := 41
  OrientationUpright := 1
  OrientationSideWays := 2
  PreserveSpaces := 4

end KoSvgText

/-- A concrete font-metrics lookup for evaluating the definitions on concrete inputs: the
x-height of every generated font is 8. -/
def sampleMetrics : KoSvgTextProperties → ℚ := fun _ => 8

/-! ## Strings (`QString`, `QStringList`) -/

namespace QString

/-- `QChar::isSpace()`: the ASCII white space, NEL, NBSP and the Unicode separators. -/
def isSpace (c : Char) : Bool :=
  c.toNat == 0x20 || (0x09 ≤ c.toNat && c.toNat ≤ 0x0d) || c.toNat == 0x85 || c.toNat == 0xa0
    || c.toNat == 0x1680 || (0x2000 ≤ c.toNat && c.toNat ≤ 0x200a) || c.toNat == 0x2028
    || c.toNat == 0x2029 || c.toNat == 0x202f || c.toNat == 0x205f || c.toNat == 0x3000

/-- `QString::trimmed()`: white space removed from both ends. -/
def trimmed (s : String) : String :=
  String.mk (((s.toList.dropWhile isSpace).reverse.dropWhile isSpace).reverse)

/-- The scan of `QString::split(sep)`: `cur` is the piece being read (reversed), `skip` the
number of characters of a matched separator still to pass over. -/
def splitScan (sep : List Char) : List Char → List Char → Nat → List String
  | [], cur, _ => [String.mk cur.reverse]
  | _ :: cs, cur, k + 1 => splitScan sep cs cur k
  | c :: cs, cur, 0 =>
    if sep.isPrefixOf (c :: cs) then String.mk cur.reverse :: splitScan sep cs [] (sep.length - 1)
    else splitScan sep cs (c :: cur) 0

/-- `QString::split(sep)` with the default `Qt::KeepEmptyParts`, for a non-empty separator. -/
def split (s : String) (sep : String) : List String :=
  splitScan sep.toList s.toList [] 0

/-- `QString::split(sep, Qt::SkipEmptyParts)`. -/
def splitSkipEmptyParts (s : String) (sep : String) : List String :=
  (split s sep).filter (fun piece => piece != "")

/-- The UTF-16 code units of a character: one unit for a character of the basic plane, a
high and a low surrogate otherwise. -/
def utf16Char (c : Char) : List Nat :=
  if c.toNat < 0x10000 then [c.toNat]
  else [0xD800 + (c.toNat - 0x10000) / 0x400, 0xDC00 + (c.toNat - 0x10000) % 0x400]

/-- The UTF-16 code units of a string: the `QChar`s a `QString` of this text is made of.
Sizes and positions of a `QString` count these units. -/
def utf16 (s : String) : List Nat := s.toList.flatMap utf16Char

/-- `QChar::isHighSurrogate()`. -/
def isHighSurrogate (u : Nat) : Bool := 0xD800 ≤ u && u ≤ 0xDBFF

/-- `QChar::isLowSurrogate()`. -/
def isLowSurrogate (u : Nat) : Bool := 0xDC00 ≤ u && u ≤ 0xDFFF

/-- The character of a code unit that stands alone; a surrogate without its partner has no
character and reads as U+FFFD, the replacement character. -/
def unitChar (u : Nat) : Char :=
  if isHighSurrogate u || isLowSurrogate u then Char.ofNat 0xFFFD else Char.ofNat u

/-- The characters of a list of code units: a high surrogate with the low surrogate behind it
is one character. -/
def fromUtf16Chars : List Nat → List Char
  | [] => []
  | [u] => [unitChar u]
  | u :: v :: rest =>
    if isHighSurrogate u && isLowSurrogate v then
      Char.ofNat (0x10000 + (u - 0xD800) * 0x400 + (v - 0xDC00)) :: fromUtf16Chars rest
    else unitChar u :: fromUtf16Chars (v :: rest)

/-- The text of a list of code units. It is exact, `utf16 (fromUtf16 u) = u`, unless the list
holds a surrogate without its partner, which a cut through a surrogate pair leaves behind. -/
def fromUtf16 (u : List Nat) : String := String.mk (fromUtf16Chars u)

namespace Units

/-- `QChar::isSpace()` of a code unit: the ASCII white space, NEL, NBSP and the Unicode
separators (all in the basic plane; a surrogate is no space). -/
def isSpace (u : Nat) : Bool :=
  u == 0x20 || (0x09 ≤ u && u ≤ 0x0d) || u == 0x85 || u == 0xa0
    || u == 0x1680 || (0x2000 ≤ u && u ≤ 0x200a) || u == 0x2028
    || u == 0x2029 || u == 0x202f || u == 0x205f || u == 0x3000

/-- `QString::trimmed()` on the code units. -/
def trimmed (u : List Nat) : List Nat :=
  ((u.dropWhile isSpace).reverse.dropWhile isSpace).reverse

/-- `QString::size()`: the number of code units. -/
def size (u : List Nat) : Int := u.length

/-- `QString::isEmpty()`. -/
def isEmpty (u : List Nat) : Bool := u.isEmpty

/-- `QString::startsWith(QChar)`. -/
def startsWith (u : List Nat) (c : Nat) : Bool := u.head? == some c

/-- `QString::mid(position, n)` for `0 ≤ position`: `n` code units from the unit at
`position` on, as far as there are; a negative `n` takes the whole rest. -/
def mid (u : List Nat) (position : Nat) (n : Int) : List Nat :=
  if n < 0 then u.drop position else (u.drop position).take n.toNat

/-- `QString::remove(position, n)`: the string without the `n` code units from the unit at
`position` on, as far as there are. -/
def remove (u : List Nat) (position n : Nat) : List Nat :=
  u.take position ++ u.drop (position + n)

end Units

/-- `QString::mid(position, n)` for `0 ≤ position`, counted in code units; a negative `n`
takes the whole rest. Where a cut goes through a surrogate pair the `QString` keeps the lone
surrogate, which reads as U+FFFD here. -/
def mid (s : String) (position : Nat) (n : Int) : String :=
  fromUtf16 (Units.mid (utf16 s) position n)

/-- `QString::startsWith(QChar)`. -/
def startsWith (s : String) (c : Char) : Bool :=
  s.toList.head? == some c

/-- `QString::endsWith(QChar)`. -/
def endsWith (s : String) (c : Char) : Bool :=
  s.toList.getLast? == some c

/-- `QString::size()`: the number of UTF-16 code units, two for a character outside the basic
plane. -/
def size (s : String) : Int := Units.size (utf16 s)

/-- `QString::toLower()` as far as ASCII results go: the letters `A` to `Z`, the Kelvin sign
and the dotted capital I are the characters whose lower case is an ASCII letter; any other
character is left as it is (its lower case is not ASCII either). -/
def toLower (s : String) : String :=
  String.mk (s.toList.map (fun c =>
    if 65 ≤ c.toNat && c.toNat ≤ 90 then Char.ofNat (c.toNat + 32)
    else if c.toNat == 0x212a then Char.ofNat 107
    else if c.toNat == 0x130 then Char.ofNat 105
    else c))

/-- `QStringList::join(sep)`. -/
def join (l : List String) (sep : String) : String := sep.intercalate l

end QString

/-! ## The parser's surroundings -/

/-- `QRectF`. -/
structure QRectF where
  x : ℚ := 0
  y : ℚ := 0
  width : ℚ := 0
  height : ℚ := 0
deriving DecidableEq, Repr

/-- `SvgGraphicsContext`: the member the source reads; `rest` stands for the remaining state,
which only the helper parsers read. -/
structure SvgGraphicsContext where
  currentBoundingBox : QRectF := {}
  rest : Nat := 0

/-- `SvgLoadingContext`: `currentGC()` and `resolvedProperties()`; `rest` stands for the
remaining state, which only the helper parsers read. -/
structure SvgLoadingContext where
  currentGC : SvgGraphicsContext := {}
  resolvedProperties : KoSvgTextProperties := KoSvgTextProperties.empty
  rest : Nat := 0

/-- The functions the parser calls that are defined outside the sources at hand: the helper
parsers of `KoSvgText` and `SvgUtil`, the angle helpers of `kis_global.h`, and conversions of
Qt. Each is a parameter. `qtVersionMajor` is the major version of Qt the file is compiled
against. -/
structure ParseHelpers where
  fontVariantStrings : List (String × Int)
  parseWritingMode : String → Int
  parseAutoValueAngular : String → SvgLoadingContext → KoSvgText.AutoValue
  parseTextOrientationFromGlyphOrientation : KoSvgText.AutoValue → Int
  parseTextOrientation : String → Int
  parseDirection : String → Int
  parseUnicodeBidi : String → Int
  parseTextAnchor : String → Int
  parseBaseline : String → Int
  parseBaselineShiftMode : String → Int
  parseAutoValueXY : String → SvgLoadingContext → Option String → KoSvgText.AutoValue
  parseAutoValueY : String → SvgLoadingContext → String → KoSvgText.AutoValue
  parseAutoLengthPercentageXY :
    String → SvgLoadingContext → String → QRectF → Bool → KoSvgText.AutoLengthPercentage
  parseFontStyle : String → KoSvgText.CssFontStyleData
  parseCSSFontStretch : String → Int → Int
  parseCSSFontWeight : String → Int → Int
  parseTextTransform : String → KoSvgText.TextTransformInfo
  whiteSpaceValueToLongHands :
    String → Int → Int → KoSvgText.TextSpaceTrims → Int × Int × KoSvgText.TextSpaceTrims
  xmlSpaceToLongHands : String → Int → Int
  parseWordBreak : String → Int
  parseLineBreak : String → Int
  parseTextAlign : String → Int
  parseLineHeight : String → SvgLoadingContext → KoSvgText.LineHeightInfo
  parseTextIndent : String → SvgLoadingContext → KoSvgText.TextIndentInfo
  parseTabSize : String → SvgLoadingContext → KoSvgText.TabSizeInfo
  parseTextUnitStruct : SvgGraphicsContext → String → KoSvgText.CssLengthPercentage
  parseUnitXY : SvgGraphicsContext → KoSvgTextProperties → String → ℚ
  normalizeAngle : ℚ → ℚ
  kisRadiansToDegrees : ℚ → ℚ
  M_PI_2 : ℚ
  M_PI_4 : ℚ
  isValidColor : String → Bool
  colorFromName : String → QColor
  stringToDouble : String → Option ℚ
  stringToInt : String → Int
  stringToIntOk : String → Bool
  isDigit : Char → Bool
  qtVersionMajor : Nat

namespace QVariant

/-- `qRound64`: rounding to the nearest integer, halves away from zero. -/
def qRound64 (x : ℚ) : Int :=
  if 0 ≤ x then Rat.floor (x + 1 / 2) else - Rat.floor (- x + 1 / 2)

/-- `toInt()`: an integer, a Boolean, an enumerator, a rounded number, a parsed string; 0 for
every other type. -/
def toInt (H : ParseHelpers) : QVariant → Int
  | int n => n
  | bool b => if b then 1 else 0
  | globalColor c => c
  | real x => qRound64 x
  | string s => H.stringToInt s
  | _ => 0

/-- `value<QColor>()`: a colour, a colour parsed from a string; the invalid colour for every
other type. -/
def valueQColor (H : ParseHelpers) : QVariant → QColor
  | color c => c
  | string s => H.colorFromName s
  | _ => {}

/-- `value<KoSvgText::TextDecorations>()`. -/
def valueTextDecorations : QVariant → KoSvgText.TextDecorations
  | textDecorations d => d
  | _ => {}

/-- `value<KoSvgText::TextSpaceTrims>()`. -/
def valueTextSpaceTrims : QVariant → KoSvgText.TextSpaceTrims
  | textSpaceTrims t => t
  | _ => {}

end QVariant

/-! ## The attribute parser -/

namespace KoSvgTextProperties

open PropertyId

/-- The conversion `int(x)` of a `qreal`: truncation towards zero. -/
def truncToInt (x : ℚ) : Int :=
  if 0 ≤ x then Rat.floor x else - Rat.floor (- x)

/-- `roundToStraightAngle(value)`. -/
def roundToStraightAngle (H : ParseHelpers) (value : ℚ) : ℚ :=
  H.normalizeAngle ((truncToInt ((value + H.M_PI_4) / H.M_PI_2) : ℚ) * H.M_PI_2)

/-- `QVariantHash::insert(key, value)`: the value of an existing key is replaced. -/
def hashInsert (h : List (String × ℚ)) (key : String) (value : ℚ) : List (String × ℚ) :=
  if h.any (fun p => p.1 == key) then h.map (fun p => if p.1 == key then (key, value) else p)
  else h ++ [(key, value)]

/-- One turn of the loop of `parseVariantStringList`; the state is `(settings, tag)`. -/
def parseVariantStringListStep (H : ParseHelpers) (st : List (String × ℚ) × String)
    (item : String) : List (String × ℚ) × String :=
  let feature := QString.trimmed item
  let tag :=
    if (QString.startsWith feature (Char.ofNat 39) || QString.startsWith feature (Char.ofNat 34))
        && QString.size feature == 6 then QString.mid feature 1 4
    else st.2
  match H.stringToDouble feature with
  | some featureVal => if tag != "" then (hashInsert st.1 tag featureVal, "") else (st.1, tag)
  | none => (st.1, tag)

/-- `parseVariantStringList(features)`. -/
def parseVariantStringList (H : ParseHelpers) (features : List String) : List (String × ℚ) :=
  (features.foldl (parseVariantStringListStep H) ([], "")).1

/-- The branch `command == "baseline-shift"` of `parseSvgTextAttribute`. -/
def parseBaselineShift (E : KoSvgText.Enumerators) (H : ParseHelpers)
    (context : SvgLoadingContext) (s : KoSvgTextProperties) (value : String) :
    KoSvgTextProperties :=
  let mode := H.parseBaselineShiftMode value
  let s := s.setProperty BaselineShiftModeId (QVariant.int mode)
  if mode == E.ShiftLengthPercentage then
    let shift := H.parseTextUnitStruct context.currentGC value
    s.setProperty BaselineShiftValueId (QVariant.lengthPercentage shift)
  else s

/-- The branch `command == "alignment-baseline"` of `parseSvgTextAttribute`. -/
def parseAlignmentBaseline (H : ParseHelpers) (s : KoSvgTextProperties) (value : String) :
    KoSvgTextProperties :=
  s.setProperty AlignmentBaselineId (QVariant.int (H.parseBaseline value))

/-- `digits.indexIn(param)` for the pattern `\\d`: the index of the first digit, or -1. -/
def indexOfDigit (H : ParseHelpers) (param : String) : Int :=
  match param.toList.findIdx? H.isDigit with
  | some i => i
  | none => -1

/-- One turn of the loop of the branch `command == "vertical-align"`: the recursive call is
the `baseline-shift` or the `alignment-baseline` branch. -/
def parseVerticalAlignStep (E : KoSvgText.Enumerators) (H : ParseHelpers)
    (context : SvgLoadingContext) (s : KoSvgTextProperties) (param : String) :
    KoSvgTextProperties :=
  let paramContains :=
    if H.qtVersionMajor < 6 then param.toList.any H.isDigit else decide (indexOfDigit H param > 0)
  if param == "sub" || param == "super" || paramContains then
    parseBaselineShift E H context s param
  else parseAlignmentBaseline H s param

/-- One turn of the loop of the `font-variant` branch, first part: the tests of `feature`
against the single features. -/
def parseFontVariantKeyword (E : KoSvgText.Enumerators) (s : KoSvgTextProperties)
    (feature : Int) : KoSvgTextProperties :=
  let s :=
    if feature == E.CommonLigatures || feature == E.NoCommonLigatures then
      s.setProperty FontVariantCommonLigId (QVariant.int feature)
    else if feature == E.DiscretionaryLigatures || feature == E.NoDiscretionaryLigatures then
      s.setProperty FontVariantDiscretionaryLigId (QVariant.int feature)
    else if feature == E.HistoricalLigatures || feature == E.NoHistoricalLigatures then
      s.setProperty FontVariantHistoricalLigId (QVariant.int feature)
    else if feature == E.ContextualAlternates || feature == E.NoContextualAlternates then
      s.setProperty FontVariantContextualAltId (QVariant.int feature)
    else s
  let s :=
    if feature == E.PositionSub || feature == E.PositionSuper then
      s.setProperty FontVariantPositionId (QVariant.int feature)
    else s
  let s :=
    if decide (feature ≥ E.SmallCaps) && decide (feature ≤ E.TitlingCaps) then
      s.setProperty FontVariantCapsId (QVariant.int feature)
    else s
  let s :=
    if feature == E.LiningNums || feature == E.OldStyleNums then
      s.setProperty FontVariantNumFigureId (QVariant.int feature)
    else s
  let s :=
    if feature == E.ProportionalNums || feature == E.TabularNums then
      s.setProperty FontVariantNumSpacingId (QVariant.int feature)
    else s
  let s :=
    if feature == E.DiagonalFractions || feature == E.StackedFractions then
      s.setProperty FontVariantNumFractId (QVariant.int feature)
    else s
  let s :=
    if feature == E.Ordinal then s.setProperty FontVariantNumOrdinalId (QVariant.int feature)
    else s
  let s :=
    if feature == E.SlashedZero then
      s.setProperty FontVariantNumSlashedZeroId (QVariant.int feature)
    else s
  let s :=
    if decide (feature ≥ E.EastAsianJis78) && decide (feature ≤ E.EastAsianTraditional) then
      s.setProperty FontVariantEastAsianVarId (QVariant.int feature)
    else s
  let s :=
    if feature == E.EastAsianFullWidth || feature == E.EastAsianProportionalWidth then
      s.setProperty FontVariantEastAsianWidthId (QVariant.int feature)
    else s
  let s :=
    if feature == E.EastAsianRuby then s.setProperty FontVariantRubyId (QVariant.int feature)
    else s
  if feature == E.HistoricalForms then
    s.setProperty FontVariantHistoricalFormsId (QVariant.int feature)
  else s

/-- One turn of the loop of the `font-variant` branch, second part: the fan-out of
`FontVariantNone` and `FontVariantNormal`, scoped by the command. -/
def parseFontVariantFanOut (E : KoSvgText.Enumerators) (command : String)
    (s : KoSvgTextProperties) (feature : Int) : KoSvgTextProperties :=
  let commandFontVariant := command == "font-variant"
  if feature == E.FontVariantNone || feature == E.FontVariantNormal then
    let s :=
      if commandFontVariant || command == "font-variant-ligatures" then
        let s :=
          if feature == E.FontVariantNone then
            (s.setProperty FontVariantCommonLigId (QVariant.int E.NoCommonLigatures)).setProperty
              FontVariantContextualAltId (QVariant.int E.NoContextualAlternates)
          else
            (s.setProperty FontVariantCommonLigId (QVariant.int E.CommonLigatures)).setProperty
              FontVariantContextualAltId (QVariant.int E.ContextualAlternates)
        (s.setProperty FontVariantDiscretionaryLigId
          (QVariant.int E.NoDiscretionaryLigatures)).setProperty
          FontVariantHistoricalLigId (QVariant.int E.NoHistoricalLigatures)
      else s
    let s :=
      if commandFontVariant || command == "font-variant-position" then
        s.setProperty FontVariantPositionId (QVariant.int feature)
      else s
    let s :=
      if commandFontVariant || command == "font-variant-caps" then
        s.setProperty FontVariantCapsId (QVariant.int feature)
      else s
    let s :=
      if commandFontVariant || command == "font-variant-numeric" then
        ((((s.setProperty FontVariantNumFigureId (QVariant.int feature)).setProperty
          FontVariantNumSpacingId (QVariant.int feature)).setProperty
          FontVariantNumFractId (QVariant.int feature)).setProperty
          FontVariantNumOrdinalId (QVariant.int feature)).setProperty
          FontVariantNumSlashedZeroId (QVariant.int feature)
      else s
    let s :=
      if commandFontVariant || command == "font-variant-east-asian" then
        ((s.setProperty FontVariantEastAsianVarId (QVariant.int feature)).setProperty
          FontVariantEastAsianWidthId (QVariant.int feature)).setProperty
          FontVariantRubyId (QVariant.int feature)
      else s
    if commandFontVariant || command == "font-variant-alternates" then
      s.setProperty FontVariantHistoricalFormsId (QVariant.int feature)
    else s
  else s

/-- One turn of the loop of the `font-variant` branch, for the feature `feature` looked up in
the feature-name table: the two parts in sequence. -/
def parseFontVariantFeature (E : KoSvgText.Enumerators) (command : String)
    (s : KoSvgTextProperties) (feature : Int) : KoSvgTextProperties :=
  parseFontVariantFanOut E command (parseFontVariantKeyword E s feature) feature

/-- `featureMap.value(key)`: the feature of a key of the table, the zero enumerator
otherwise. -/
def featureMapValue (H : ParseHelpers) (key : String) : Int :=
  (H.fontVariantStrings.lookup key).getD 0

/-- One turn of the loop of the `font-variant` branch, for the token `f`. -/
def parseFontVariantStep (E : KoSvgText.Enumerators) (H : ParseHelpers) (command : String)
    (s : KoSvgTextProperties) (f : String) : KoSvgTextProperties :=
  parseFontVariantFeature E command s (featureMapValue H ((QString.split f "(").headD ""))

end KoSvgTextProperties

namespace KoSvgTextProperties

open PropertyId

/-- The local variables of the `text-decoration` branch. -/
structure TextDecorationLocals where
  deco : KoSvgText.TextDecorations
  style : Int
  underlinePosH : Int
  underlinePosV : Int
  textDecorationColor : QColor
  setPosition : Bool

/-- One turn of the loop of the `text-decoration` branch, for the token `param`. -/
def parseTextDecorationStep (E : KoSvgText.Enumerators) (H : ParseHelpers)
    (v : TextDecorationLocals) (param : String) : TextDecorationLocals :=
  if param == "line-through" then { v with deco := { v.deco with lineThrough := true } }
  else if param == "underline" then { v with deco := { v.deco with underline := true } }
  else if param == "overline" then { v with deco := { v.deco with overline := true } }
  else if param == "solid" then { v with style := E.Solid }
  else if param == "double" then { v with style := E.Double }
  else if param == "dotted" then { v with style := E.Dotted }
  else if param == "dashed" then { v with style := E.Dashed }
  else if param == "wavy" then { v with style := E.Wavy }
  else if param == "auto" then { v with underlinePosH := E.UnderlineAuto, setPosition := true }
  else if param == "under" then { v with underlinePosH := E.UnderlineUnder, setPosition := true }
  else if param == "left" then { v with underlinePosV := E.UnderlineLeft, setPosition := true }
  else if param == "right" then { v with underlinePosV := E.UnderlineRight, setPosition := true }
  else if H.isValidColor param then { v with textDecorationColor := H.colorFromName param }
  else v

/-- The branch of `parseSvgTextAttribute` for `text-decoration` and its longhands. -/
def parseTextDecoration (E : KoSvgText.Enumerators) (H : ParseHelpers) (s : KoSvgTextProperties)
    (command value : String) : KoSvgTextProperties :=
  let deco := (s.propertyOrDefault E TextDecorationLineId).valueTextDecorations
  let deco : KoSvgText.TextDecorations :=
    if command == "text-decoration" || command == "text-decoration-line" then {} else deco
  let init : TextDecorationLocals :=
    { deco := deco
      style := (s.propertyOrDefault E TextDecorationStyleId).toInt H
      underlinePosH := (s.propertyOrDefault E TextDecorationPositionHorizontalId).toInt H
      underlinePosV := (s.propertyOrDefault E TextDecorationPositionVerticalId).toInt H
      textDecorationColor := (s.propertyOrDefault E TextDecorationStyleId).valueQColor H
      setPosition := false }
  let v := (QString.splitSkipEmptyParts value " ").foldl (parseTextDecorationStep E H) init
  let s :=
    if command == "text-decoration" || command == "text-decoration-line" then
      s.setProperty TextDecorationLineId (QVariant.textDecorations v.deco)
    else s
  let s :=
    if command == "text-decoration" || command == "text-decoration-style" then
      s.setProperty TextDecorationStyleId (QVariant.int v.style)
    else s
  let s :=
    if command == "text-decoration" || command == "text-decoration-color" then
      s.setProperty TextDecorationColorId (QVariant.color v.textDecorationColor)
    else s
  if (command == "text-decoration" || command == "text-decoration-position") && v.setPosition then
    (s.setProperty TextDecorationPositionHorizontalId (QVariant.int v.underlinePosH)).setProperty
      TextDecorationPositionVerticalId (QVariant.int v.underlinePosV)
  else s

/-- How a call of `parseSvgTextAttribute` can fail to return: `qFatal` on an unknown command,
or `first()` / `last()` taken of an empty list. -/
inductive ParseFailure where
  | unknownProperty
  | emptyList
deriving DecidableEq, Repr

/-- The branch of `parseSvgTextAttribute` for `text-align`, `text-align-all` and
`text-align-last`. -/
def parseTextAlignBranch (H : ParseHelpers) (s : KoSvgTextProperties) (command value : String) :
    Except ParseFailure KoSvgTextProperties :=
  let params := QString.splitSkipEmptyParts value " "
  let r : Except ParseFailure KoSvgTextProperties :=
    if command == "text-align" || command == "text-align-all" then
      match params.head? with
      | none => Except.error ParseFailure.emptyList
      | some first =>
        let s := s.setProperty TextAlignAllId (QVariant.int (H.parseTextAlign first))
        if value == "justify-all" then
          Except.ok (s.setProperty TextAlignLastId (QVariant.int (H.parseTextAlign value)))
        else Except.ok s
    else Except.ok s
  match r with
  | Except.error e => Except.error e
  | Except.ok s =>
    let r : Except ParseFailure KoSvgTextProperties :=
      if command == "text-align" && decide (params.length > 1) then
        match params.getLast? with
        | none => Except.error ParseFailure.emptyList
        | some last =>
          Except.ok (s.setProperty TextAlignLastId (QVariant.int (H.parseTextAlign last)))
      else Except.ok s
    match r with
    | Except.error e => Except.error e
    | Except.ok s =>
      if command == "text-align-last" then
        Except.ok (s.setProperty TextAlignLastId (QVariant.int (H.parseTextAlign value)))
      else Except.ok s

/-- One turn of the loop of the `hanging-punctuation` branch. -/
def parseHangingPunctuationStep (hang : KoSvgText.HangingPunctuations) (param : String) :
    KoSvgText.HangingPunctuations :=
  if param == "first" then { hang with hangFirst := true }
  else if param == "last" then { hang with hangLast := true }
  else if param == "allow-end" then { hang with hangEnd := true, hangForce := false }
  else if param == "force-end" then { hang with hangEnd := true, hangForce := true }
  else hang

/-- The branch `command == "font-synthesis"` of `parseSvgTextAttribute`. -/
def parseFontSynthesis (s : KoSvgTextProperties) (value : String) : KoSvgTextProperties :=
  let s := s.setProperty FontSynthesisBoldId (QVariant.bool false)
  let s := s.setProperty FontSynthesisItalicId (QVariant.bool false)
  let s := s.setProperty FontSynthesisSuperSubId (QVariant.bool false)
  let s := s.setProperty FontSynthesisSmallCapsId (QVariant.bool false)
  if value != "none" then
    let params := QString.split value " "
    let s :=
      if params.contains "position" then s.setProperty FontSynthesisSuperSubId (QVariant.bool true)
      else s
    let s :=
      if params.contains "weight" then s.setProperty FontSynthesisBoldId (QVariant.bool true)
      else s
    let s :=
      if params.contains "style" then s.setProperty FontSynthesisItalicId (QVariant.bool false)
      else s
    if params.contains "small-caps" then
      s.setProperty FontSynthesisSmallCapsId (QVariant.bool false)
    else s
  else s

/-- The branch `command == "font-family"` of `parseSvgTextAttribute`: one family name. -/
def parseFontFamilyName (fam : String) : String :=
  let family := QString.trimmed fam
  if (QString.startsWith family (Char.ofNat 34) && QString.endsWith family (Char.ofNat 34))
      || (QString.startsWith family (Char.ofNat 39) && QString.endsWith family (Char.ofNat 39))
  then QString.mid family 1 (QString.size family - 2)
  else family

end KoSvgTextProperties

namespace KoSvgTextProperties

open PropertyId

/-- `parseSvgTextAttribute(context, command, value)` on the store `s`: the store after the
call, or the way the call fails to return. -/
def parseSvgTextAttribute (E : KoSvgText.Enumerators) (H : ParseHelpers)
    (context : SvgLoadingContext) (s : KoSvgTextProperties) (command value : String) :
    Except ParseFailure KoSvgTextProperties :=
  if command == "writing-mode" then
    Except.ok (s.setProperty WritingModeId (QVariant.int (H.parseWritingMode value)))
  else if command == "glyph-orientation-vertical" then
    let autoValue := H.parseAutoValueAngular value context
    let acceptedOrientations := ["auto", "0", "0deg", "90", "90deg"]
    if acceptedOrientations.contains (QString.toLower value) then
      let autoValue :=
        if !autoValue.isAuto then
          { autoValue with
            customValue := H.kisRadiansToDegrees (roundToStraightAngle H autoValue.customValue) }
        else autoValue
      let orientation := H.parseTextOrientationFromGlyphOrientation autoValue
      Except.ok (s.setProperty TextOrientationId (QVariant.int orientation))
    else Except.ok s
  else if command == "text-orientation" then
    Except.ok (s.setProperty TextOrientationId (QVariant.int (H.parseTextOrientation value)))
  else if command == "direction" then
    Except.ok (s.setProperty DirectionId (QVariant.int (H.parseDirection value)))
  else if command == "unicode-bidi" then
    Except.ok (s.setProperty UnicodeBidiId (QVariant.int (H.parseUnicodeBidi value)))
  else if command == "text-anchor" then
    Except.ok (s.setProperty TextAnchorId (QVariant.int (H.parseTextAnchor value)))
  else if command == "dominant-baseline" then
    Except.ok (s.setProperty DominantBaselineId (QVariant.int (H.parseBaseline value)))
  else if command == "alignment-baseline" then
    Except.ok (parseAlignmentBaseline H s value)
  else if command == "baseline-shift" then
    Except.ok (parseBaselineShift E H context s value)
  else if command == "vertical-align" then
    Except.ok ((QString.splitSkipEmptyParts value " ").foldl
      (parseVerticalAlignStep E H context) s)
  else if command == "kerning" then
    let kerning : KoSvgText.AutoValue :=
      if value == "none" then { isAuto := false, customValue := 0 }
      else if value == "normal" then { isAuto := false, customValue := 1 }
      else H.parseAutoValueXY value context none
    Except.ok (s.setProperty KerningId (KoSvgText.fromAutoValue kerning))
  else if command == "letter-spacing" then
    Except.ok (s.setProperty LetterSpacingId (QVariant.autoLengthPercentage
      (H.parseAutoLengthPercentageXY value context "normal"
        context.currentGC.currentBoundingBox true)))
  else if command == "word-spacing" then
    Except.ok (s.setProperty WordSpacingId (QVariant.autoLengthPercentage
      (H.parseAutoLengthPercentageXY value context "normal"
        context.currentGC.currentBoundingBox true)))
  else if command == "font-family" then
    let familiesList := (QString.splitSkipEmptyParts value ",").map parseFontFamilyName
    Except.ok (s.setProperty FontFamiliesId (QVariant.stringList familiesList))
  else if command == "font-style" then
    Except.ok (s.setProperty FontStyleId (QVariant.fontStyle (H.parseFontStyle value)))
  else if command == "font-variant" || command == "font-variant-ligatures"
      || command == "font-variant-position" || command == "font-variant-caps"
      || command == "font-variant-numeric" || command == "font-variant-east-asian"
      || command == "font-variant-alternates" then
    let features := QString.split value " "
    Except.ok (features.foldl (parseFontVariantStep E H command) s)
  else if command == "font-feature-settings" then
    Except.ok (s.setProperty FontFeatureSettingsId (QVariant.stringList (QString.split value ",")))
  else if command == "font-stretch" then
    let newStretch := H.parseCSSFontStretch value
      ((context.resolvedProperties.propertyOrDefault E FontStretchId).toInt H)
    Except.ok (s.setProperty FontStretchId (QVariant.int newStretch))
  else if command == "font-weight" then
    let weight := H.parseCSSFontWeight value
      ((context.resolvedProperties.propertyOrDefault E FontWeightId).toInt H)
    Except.ok (s.setProperty FontWeightId (QVariant.int weight))
  else if command == "font-size" then
    let pointSize := H.parseTextUnitStruct context.currentGC value
    if pointSize.value > 0 then
      Except.ok (s.setProperty FontSizeId (QVariant.lengthPercentage pointSize))
    else Except.ok s
  else if command == "font-size-adjust" then
    Except.ok (s.setProperty FontSizeAdjustId
      (KoSvgText.fromAutoValue (H.parseAutoValueY value context "none")))
  else if command == "font-optical-sizing" then
    Except.ok (s.setProperty FontOpticalSizingId (QVariant.bool (value == "auto")))
  else if command == "font-variation-settings" then
    Except.ok (s.setProperty FontVariationSettingsId
      (QVariant.hash (parseVariantStringList H (QString.split value ", "))))
  else if command == "text-decoration" || command == "text-decoration-line"
      || command == "text-decoration-style" || command == "text-decoration-color"
      || command == "text-decoration-position" then
    Except.ok (parseTextDecoration E H s command value)
  else if command == "xml:lang" then
    Except.ok (s.setProperty TextLanguage (QVariant.string value))
  else if command == "text-transform" then
    Except.ok (s.setProperty TextTransformId (QVariant.textTransform (H.parseTextTransform value)))
  else if command == "white-space" then
    let trims := (s.propertyOrDefault E TextTrimId).valueTextSpaceTrims
    let wrap := (s.propertyOrDefault E TextWrapId).toInt H
    let collapse := (s.propertyOrDefault E TextCollapseId).toInt H
    let r := H.whiteSpaceValueToLongHands value collapse wrap trims
    let s := s.setProperty TextTrimId (QVariant.textSpaceTrims r.2.2)
    let s := s.setProperty TextWrapId (QVariant.int r.2.1)
    Except.ok (s.setProperty TextCollapseId (QVariant.int r.1))
  else if command == "xml:space" then
    let collapse := (s.propertyOrDefault E TextCollapseId).toInt H
    Except.ok (s.setProperty TextCollapseId (QVariant.int (H.xmlSpaceToLongHands value collapse)))
  else if command == "word-break" then
    Except.ok (s.setProperty WordBreakId (QVariant.int (H.parseWordBreak value)))
  else if command == "line-break" then
    Except.ok (s.setProperty LineBreakId (QVariant.int (H.parseLineBreak value)))
  else if command == "text-align" || command == "text-align-all"
      || command == "text-align-last" then
    parseTextAlignBranch H s command value
  else if command == "line-height" then
    Except.ok (s.setProperty LineHeightId (QVariant.lineHeight (H.parseLineHeight value context)))
  else if command == "text-indent" then
    Except.ok (s.setProperty TextIndentId (QVariant.textIndent (H.parseTextIndent value context)))
  else if command == "hanging-punctuation" then
    let hang := (QString.splitSkipEmptyParts value " ").foldl parseHangingPunctuationStep {}
    Except.ok (s.setProperty HangingPunctuationId (QVariant.hangingPunctuations hang))
  else if command == "inline-size" then
    Except.ok (s.setProperty InlineSizeId
      (KoSvgText.fromAutoValue (H.parseAutoValueXY value context (some "auto"))))
  else if command == "overflow" then
    Except.ok (s.setProperty TextOverFlowId
      (QVariant.int (if value == "visible" then E.OverFlowVisible else E.OverFlowClip)))
  else if command == "text-overflow" then
    Except.ok (s.setProperty TextOverFlowId
      (QVariant.int (if value == "ellipse" then E.OverFlowEllipse else E.OverFlowClip)))
  else if command == "overflow-wrap" || command == "word-wrap" then
    Except.ok (s.setProperty OverflowWrapId
      (QVariant.int
        (if value == "break-word" then E.OverflowWrapBreakWord
         else if value == "anywhere" then E.OverflowWrapAnywhere
         else E.OverflowWrapNormal)))
  else if command == "tab-size" then
    Except.ok (s.setProperty TabSizeId (QVariant.tabSize (H.parseTabSize value context)))
  else if command == "shape-padding" then
    Except.ok (s.setProperty ShapePaddingId
      (QVariant.real (H.parseUnitXY context.currentGC context.resolvedProperties value)))
  else if command == "shape-margin" then
    Except.ok (s.setProperty ShapeMarginId
      (QVariant.real (H.parseUnitXY context.currentGC context.resolvedProperties value)))
  else if command == "font-synthesis" then
    Except.ok (parseFontSynthesis s value)
  else if command == "font-synthesis-weight" then
    Except.ok (s.setProperty FontSynthesisBoldId (QVariant.bool (value == "auto")))
  else if command == "font-synthesis-style" then
    Except.ok (s.setProperty FontSynthesisItalicId (QVariant.bool (value == "auto")))
  else if command == "font-synthesis-small-caps" then
    Except.ok (s.setProperty FontSynthesisSmallCapsId (QVariant.bool (value == "auto")))
  else if command == "font-synthesis-position" then
    Except.ok (s.setProperty FontSynthesisSuperSubId (QVariant.bool (value == "auto")))
  else Except.error ParseFailure.unknownProperty

end KoSvgTextProperties

/-- A stand-in for the helper functions, for evaluating the parser on concrete inputs whose
outcome does not depend on them: a helper returns the default value of its result type, except
that `xml:space` reads `preserve`, and `white-space` reads `nowrap` and `normal`; the
feature-name table has the keywords `no-common-ligatures`, `none`, `normal`, `oldstyle-nums`
and `small-caps`, and Qt is version 5. -/
def ParseHelpers.sample : ParseHelpers where
  fontVariantStrings :=
    [("no-common-ligatures", KoSvgText.Enumerators.sample.NoCommonLigatures),
     ("none", KoSvgText.Enumerators.sample.FontVariantNone),
     ("normal", KoSvgText.Enumerators.sample.FontVariantNormal),
     ("oldstyle-nums", KoSvgText.Enumerators.sample.OldStyleNums),
     ("small-caps", KoSvgText.Enumerators.sample.SmallCaps)]
  parseWritingMode := fun _ => 0
  parseAutoValueAngular := fun _ _ => {}
  parseTextOrientationFromGlyphOrientation := fun _ => 0
  parseTextOrientation := fun _ => 0
  parseDirection := fun _ => 0
  parseUnicodeBidi := fun _ => 0
  parseTextAnchor := fun _ => 0
  parseBaseline := fun _ => 0
  parseBaselineShiftMode := fun _ => 0
  parseAutoValueXY := fun _ _ _ => {}
  parseAutoValueY := fun _ _ _ => {}
  parseAutoLengthPercentageXY := fun _ _ _ _ _ => {}
  parseFontStyle := fun _ => {}
  parseCSSFontStretch := fun _ base => base
  parseCSSFontWeight := fun _ base => base
  parseTextTransform := fun _ => {}
  whiteSpaceValueToLongHands := fun value collapse wrap trims =>
    if value == "nowrap" then (KoSvgText.Enumerators.sample.Collapse, 1, trims)
    else if value == "normal" then
      (KoSvgText.Enumerators.sample.Collapse, KoSvgText.Enumerators.sample.Wrap, trims)
    else (collapse, wrap, trims)
  xmlSpaceToLongHands := fun value collapse =>
    if value == "preserve" then KoSvgText.Enumerators.sample.PreserveSpaces else collapse
  parseWordBreak := fun _ => 0
  parseLineBreak := fun _ => 0
  parseTextAlign := fun _ => 0
  parseLineHeight := fun _ _ => {}
  parseTextIndent := fun _ _ => {}
  parseTabSize := fun _ _ => {}
  parseTextUnitStruct := fun _ _ => {}
  parseUnitXY := fun _ _ _ => 0
  normalizeAngle := fun x => x
  kisRadiansToDegrees := fun x => x
  M_PI_2 := 157 / 100
  M_PI_4 := 157 / 200
  isValidColor := fun _ => false
  colorFromName := fun _ => {}
  stringToDouble := fun _ => none
  stringToInt := fun _ => 0
  stringToIntOk := fun _ => false
  isDigit := Char.isDigit
  qtVersionMajor := 5

/-- The stand-in helpers, compiled against Qt 6. -/
def ParseHelpers.sampleQt6 : ParseHelpers := { ParseHelpers.sample with qtVersionMajor := 6 }

namespace KoSvgTextProperties

open PropertyId

/-- The tests of the first part of the `font-variant` loop, taken together: `feature` is one
of the single features that part stores. -/
def isSingleFeature (E : KoSvgText.Enumerators) (feature : Int) : Bool :=
  feature == E.CommonLigatures || feature == E.NoCommonLigatures
    || feature == E.DiscretionaryLigatures || feature == E.NoDiscretionaryLigatures
    || feature == E.HistoricalLigatures || feature == E.NoHistoricalLigatures
    || feature == E.ContextualAlternates || feature == E.NoContextualAlternates
    || feature == E.PositionSub || feature == E.PositionSuper
    || (decide (feature ≥ E.SmallCaps) && decide (feature ≤ E.TitlingCaps))
    || feature == E.LiningNums || feature == E.OldStyleNums
    || feature == E.ProportionalNums || feature == E.TabularNums
    || feature == E.DiagonalFractions || feature == E.StackedFractions
    || feature == E.Ordinal || feature == E.SlashedZero
    || (decide (feature ≥ E.EastAsianJis78) && decide (feature ≤ E.EastAsianTraditional))
    || feature == E.EastAsianFullWidth || feature == E.EastAsianProportionalWidth
    || feature == E.EastAsianRuby || feature == E.HistoricalForms

/-- A store transformer lays what it writes over the store it is given: an entry it writes
is the one it writes on the empty store, and every other entry is kept. -/
def Overlays (op : KoSvgTextProperties → KoSvgTextProperties) : Prop :=
  ∀ s j, (op s).properties j = ((op empty).properties j).or (s.properties j)

/-- The reading of `vertical-align` in the specification: for each non-empty space-separated
token `t` of the value, in order, `baseline-shift` is parsed with `t` when `t` is `sub`,
`super` or contains a decimal digit, and `alignment-baseline` is parsed with `t` otherwise. -/
def verticalAlignBySpec (E : KoSvgText.Enumerators) (H : ParseHelpers)
    (context : SvgLoadingContext) (s : KoSvgTextProperties) (value : String) :
    Except ParseFailure KoSvgTextProperties :=
  (QString.splitSkipEmptyParts value " ").foldlM
    (fun acc t =>
      if t == "sub" || t == "super" || t.toList.any H.isDigit then
        parseSvgTextAttribute E H context acc "baseline-shift" t
      else parseSvgTextAttribute E H context acc "alignment-baseline" t) s

end KoSvgTextProperties

/-! ## The attribute serializer -/

/-- `QFont::StyleItalic` of Qt. -/
def QFont.StyleItalic : Int := 1

/-- `QFont::StyleOblique` of Qt. -/
def QFont.StyleOblique : Int := 2

/-- `QString::number(int)`, which is also what `QString::arg(int)` puts in place of a marker:
the decimal numeral. -/
def QString.number (n : Int) : String := toString n

/-- The flag `ok` of `QString::toInt(&ok)` for a string given by its code units: the flag of
the parameter for the text of the units; a string that holds a surrogate without its partner
is no number. -/
def QString.Units.toIntOk (H : ParseHelpers) (u : List Nat) : Bool :=
  QString.utf16 (QString.fromUtf16 u) == u && H.stringToIntOk (QString.fromUtf16 u)

/-- `QString::toInt(&ok)` for a string given by its code units; 0 when the conversion fails. -/
def QString.Units.toInt (H : ParseHelpers) (u : List Nat) : Int :=
  if QString.Units.toIntOk H u then H.stringToInt (QString.fromUtf16 u) else 0

/-- `INT_MIN` of a 32-bit `int`. -/
def INT_MIN : Int := -2147483648

/-- `INT_MAX` of a 32-bit `int`. -/
def INT_MAX : Int := 2147483647

/-- The sum `a + b` of two `int`: the sum where it is an `int`, and its value modulo `2^32` in
the range of `int` where the addition overflows (which the language leaves undefined). -/
def intAdd (a b : Int) : Int := (a + b + 2147483648) % 4294967296 - 2147483648

/-- Modelled from the spec: `KisDomUtils::toString(int)` of the absent `kis_dom_utils.h` writes
the decimal numeral (a stretch of 103 "serializes as the literal number" 103). -/
def KisDomUtils.toString (value : Int) : String := QString.number value

namespace QMap

/-- `QMap<QString, T>::insert`: the map is the list of its entries in key order (strings
compared character by character); an entry with the key is replaced. -/
def insert {β : Type} : List (String × β) → String → β → List (String × β)
  | [], key, value => [(key, value)]
  | (k, v) :: rest, key, value =>
    if key.toList < k.toList then (key, value) :: (k, v) :: rest
    else if key = k then (key, value) :: rest
    else (k, v) :: insert rest key value

/-- The entry of a map under `key`, if it has one (`QMap::contains` with `QMap::value`). -/
def value {β : Type} (m : List (String × β)) (key : String) : Option β := m.lookup key

end QMap

/-- The functions and tables the serializer and the font queries use that are defined outside
the sources at hand: the `write...` functions and `fontStretchNames` (nine names) of
`KoSvgText.h`, `fontVariantOpentypeTags`, `QColor::name()`, and `doubleToString`, the text
`QString::arg(double)` puts in place of a marker (and `QString::number(double)` returns). -/
structure WriteHelpers where
  doubleToString : ℚ → String
  writeWritingMode : Int → Bool → String
  writeTextOrientation : Int → String
  writeDirection : Int → String
  writeUnicodeBidi : Int → String
  writeTextAnchor : Int → String
  writeDominantBaseline : Int → String
  writeAlignmentBaseline : Int → String
  writeBaselineShiftMode : Int → KoSvgText.CssLengthPercentage → String
  writeAutoValue : KoSvgText.AutoValue → Option String → String
  writeAutoLengthPercentage : KoSvgText.AutoLengthPercentage → String → Bool → String
  writeFontStyle : KoSvgText.CssFontStyleData → String
  fontStretchNames : Fin 9 → String
  writeLengthPercentage : KoSvgText.CssLengthPercentage → String
  colorName : QColor → String
  writeTextTransform : KoSvgText.TextTransformInfo → String
  writeWordBreak : Int → String
  writeLineBreak : Int → String
  writeXmlSpace : Int → String
  writeWhiteSpaceValue : Int → Int → KoSvgText.TextSpaceTrims → String
  writeLineHeight : KoSvgText.LineHeightInfo → String
  writeTabSize : KoSvgText.TabSizeInfo → String
  writeTextIndent : KoSvgText.TextIndentInfo → String
  writeTextAlign : Int → String
  fontVariantOpentypeTags : Int → List String

/-- A stand-in for the helper functions of the serializer, for evaluating it on concrete
stores: a whole number is written as its decimal numeral, another number as a fraction; the
stretch names are those of CSS; a colour is written as `#` and its number; `white-space` is
written as `nowrap` or `normal` by the wrap alone; every other writer returns one fixed
keyword; the only feature with an OpenType tag is small caps. -/
def WriteHelpers.sample : WriteHelpers where
  doubleToString := fun x =>
    if x.den = 1 then toString x.num else toString x.num ++ "/" ++ toString x.den
  writeWritingMode := fun _ _ => "horizontal-tb"
  writeTextOrientation := fun _ => "mixed"
  writeDirection := fun _ => "ltr"
  writeUnicodeBidi := fun _ => "normal"
  writeTextAnchor := fun _ => "start"
  writeDominantBaseline := fun _ => "auto"
  writeAlignmentBaseline := fun _ => "auto"
  writeBaselineShiftMode := fun _ _ => "baseline"
  writeAutoValue := fun _ _ => "auto"
  writeAutoLengthPercentage := fun _ autoKeyword _ => autoKeyword
  writeFontStyle := fun _ => "normal"
  fontStretchNames := fun i =>
    ["ultra-condensed", "extra-condensed", "condensed", "semi-condensed", "normal",
     "semi-expanded", "expanded", "extra-expanded", "ultra-expanded"].getD i.val ""
  writeLengthPercentage := fun _ => "12"
  colorName := fun c => "#" ++ toString c.rgba
  writeTextTransform := fun _ => "none"
  writeWordBreak := fun _ => "normal"
  writeLineBreak := fun _ => "auto"
  writeXmlSpace := fun _ => "preserve"
  writeWhiteSpaceValue := fun _ wrap _ => if wrap = 1 then "nowrap" else "normal"
  writeLineHeight := fun _ => "normal"
  writeTabSize := fun _ => "8"
  writeTextIndent := fun _ => "0"
  writeTextAlign := fun _ => "start"
  fontVariantOpentypeTags := fun feature =>
    if feature = KoSvgText.Enumerators.sample.SmallCaps then ["smcp"] else []

namespace QVariant

/-- `toHash()`: the map of a `QVariantHash`, the empty map for every other type. -/
def toHash : QVariant → List (String × ℚ)
  | hash h => h
  | _ => []

/-- `toBool()`: a Boolean reads as itself, a number as "not 0", a string as "not empty, not
0, not false"; false for every other type. -/
def toBool : QVariant → Bool
  | bool b => b
  | int n => n != 0
  | globalColor c => c != 0
  | real x => x != 0
  | string s => !(s == "" || QString.toLower s == "0" || QString.toLower s == "false")
  | _ => false

/-- `toReal()`: a number, a Boolean, a parsed string; 0 for every other type. -/
def toReal (H : ParseHelpers) : QVariant → ℚ
  | real x => x
  | int n => n
  | globalColor c => c
  | bool b => if b then 1 else 0
  | string s => (H.stringToDouble s).getD 0
  | _ => 0

/-- `value<KoSvgText::AutoValue>()`. -/
def valueAutoValue : QVariant → KoSvgText.AutoValue
  | autoValue a => a
  | _ => {}

/-- `value<KoSvgText::CssFontStyleData>()`. -/
def valueCssFontStyleData : QVariant → KoSvgText.CssFontStyleData
  | fontStyle f => f
  | _ => {}

/-- `value<KoSvgText::TextTransformInfo>()`. -/
def valueTextTransformInfo : QVariant → KoSvgText.TextTransformInfo
  | textTransform t => t
  | _ => {}

/-- `value<KoSvgText::HangingPunctuations>()`. -/
def valueHangingPunctuations : QVariant → KoSvgText.HangingPunctuations
  | hangingPunctuations h => h
  | _ => {}

end QVariant

/-- `QVariant::toString()`: a string reads as itself, a number as its numeral, a Boolean as
`true` or `false`, a one-element string list as its element; the empty string for every other
value. -/
def QVariant.toString (W : WriteHelpers) : QVariant → String
  | QVariant.string s => s
  | QVariant.int n => QString.number n
  | QVariant.globalColor c => QString.number c
  | QVariant.real x => W.doubleToString x
  | QVariant.bool b => if b then "true" else "false"
  | QVariant.stringList [s] => s
  | _ => ""

namespace KoSvgTextProperties

open PropertyId

/-- The value that `convertToSvgTextAttributes` inserts under `font-variation-settings` for
the map `vals` of `FontVariationSettingsId`: each entry written by
`QString("'%1' %2").arg(key).arg(value)` (key and number in place of the two markers, for a key
that holds no marker itself), the entries joined by `", "`. -/
def writeFontVariationSettings (W : WriteHelpers) (vals : List (String × ℚ)) : String :=
  QString.join (vals.map (fun p => "'" ++ p.1 ++ "' " ++ W.doubleToString p.2)) ", "

/-- `featureMap.key(value)`: the first name of the table (in key order, which is the order of
the list) that stands for the feature, the empty string when there is none. -/
def featureMapKey (H : ParseHelpers) (value : Int) : String :=
  ((H.fontVariantStrings.find? (fun p => p.2 == value)).map Prod.fst).getD ""

/-- What `convertToSvgTextAttributes` inserts under `writing-mode`. -/
def writingModeAttribute (H : ParseHelpers) (W : WriteHelpers) (s : KoSvgTextProperties)
    (svg1_1 : Bool) : Option String :=
  if s.hasProperty WritingModeId then
    some (W.writeWritingMode ((s.property WritingModeId QVariant.invalid).toInt H) svg1_1)
  else none

/-- What `convertToSvgTextAttributes` inserts under `glyph-orientation-vertical`. -/
def glyphOrientationVerticalAttribute (E : KoSvgText.Enumerators) (H : ParseHelpers)
    (s : KoSvgTextProperties) (svg1_1 : Bool) : Option String :=
  if s.hasProperty TextOrientationId && svg1_1 then
    let orientation := (s.property TextOrientationId QVariant.invalid).toInt H
    if orientation = E.OrientationUpright then some "0"
    else if orientation = E.OrientationSideWays then some "90"
    else some "auto"
  else none

/-- What `convertToSvgTextAttributes` inserts under `text-orientation`. -/
def textOrientationAttribute (H : ParseHelpers) (W : WriteHelpers) (s : KoSvgTextProperties)
    (svg1_1 : Bool) : Option String :=
  if s.hasProperty TextOrientationId && !svg1_1 then
    some (W.writeTextOrientation ((s.property TextOrientationId QVariant.invalid).toInt H))
  else none

/-- What `convertToSvgTextAttributes` inserts for an enumeration stored under `id` and written
by `write`: `direction`, `unicode-bidi`, `text-anchor`, `dominant-baseline`, `word-break`,
`line-break`. -/
def enumAttribute (H : ParseHelpers) (s : KoSvgTextProperties) (id : PropertyId)
    (write : Int → String) : Option String :=
  if s.hasProperty id then some (write ((s.property id QVariant.invalid).toInt H)) else none

/-- What `convertToSvgTextAttributes` inserts under `alignment-baseline`. -/
def alignmentBaselineAttribute (H : ParseHelpers) (W : WriteHelpers) (s : KoSvgTextProperties)
    (svg1_1 : Bool) : Option String :=
  if svg1_1 && s.hasProperty AlignmentBaselineId then
    some (W.writeAlignmentBaseline ((s.property AlignmentBaselineId QVariant.invalid).toInt H))
  else none

/-- What `convertToSvgTextAttributes` inserts under `baseline-shift`. -/
def baselineShiftAttribute (H : ParseHelpers) (W : WriteHelpers) (s : KoSvgTextProperties)
    (svg1_1 : Bool) : Option String :=
  if svg1_1 && s.hasProperty BaselineShiftModeId then
    let shift := (s.property BaselineShiftValueId QVariant.invalid).valueCssLengthPercentage
    some (W.writeBaselineShiftMode ((s.property BaselineShiftModeId QVariant.invalid).toInt H)
      shift)
  else none

/-- What `convertToSvgTextAttributes` inserts under `vertical-align`. -/
def verticalAlignAttribute (H : ParseHelpers) (W : WriteHelpers) (s : KoSvgTextProperties)
    (svg1_1 : Bool) : Option String :=
  if svg1_1 then none
  else
    let verticalAlign : List String := []
    let verticalAlign :=
      if s.hasProperty AlignmentBaselineId then
        verticalAlign ++ [W.writeAlignmentBaseline
          ((s.property AlignmentBaselineId QVariant.invalid).toInt H)]
      else verticalAlign
    let verticalAlign :=
      if s.hasProperty BaselineShiftModeId then
        let shift := (s.property BaselineShiftValueId QVariant.invalid).valueCssLengthPercentage
        verticalAlign ++ [W.writeBaselineShiftMode
          ((s.property BaselineShiftModeId QVariant.invalid).toInt H) shift]
      else verticalAlign
    if !verticalAlign.isEmpty then some (QString.join verticalAlign " ") else none

/-- What `convertToSvgTextAttributes` inserts under `kerning`. -/
def kerningAttribute (W : WriteHelpers) (s : KoSvgTextProperties) (svg1_1 : Bool) :
    Option String :=
  if s.hasProperty KerningId then
    if svg1_1 then
      some (W.writeAutoValue (s.property KerningId QVariant.invalid).valueAutoValue none)
    else
      let kerning := (s.property KerningId QVariant.invalid).valueAutoValue
      if kerning.isAuto then some "auto"
      else if kerning.customValue = 0 then some "none"
      else some "normal"
  else none

/-- What `convertToSvgTextAttributes` inserts under `letter-spacing` and `word-spacing`. -/
def spacingAttribute (W : WriteHelpers) (s : KoSvgTextProperties) (id : PropertyId) :
    Option String :=
  if s.hasProperty id then
    some (W.writeAutoLengthPercentage
      (s.property id QVariant.invalid).valueAutoLengthPercentage "normal" true)
  else none

/-- What `convertToSvgTextAttributes` inserts under `font-family`. -/
def fontFamilyAttribute (s : KoSvgTextProperties) : Option String :=
  if s.hasProperty FontFamiliesId then
    some (QString.join (s.property FontFamiliesId QVariant.invalid).toStringList ",")
  else none

/-- What `convertToSvgTextAttributes` inserts under `font-style`. -/
def fontStyleAttribute (W : WriteHelpers) (s : KoSvgTextProperties) : Option String :=
  if s.hasProperty FontStyleId then
    some (W.writeFontStyle (s.property FontStyleId QVariant.invalid).valueCssFontStyleData)
  else none

/-- The list `liga` of `convertToSvgTextAttributes`. -/
def liga : List PropertyId :=
  [FontVariantCommonLigId, FontVariantDiscretionaryLigId, FontVariantHistoricalLigId,
   FontVariantContextualAltId, FontVariantNumFigureId, FontVariantNumSpacingId,
   FontVariantNumFractId, FontVariantNumSlashedZeroId, FontVariantNumOrdinalId,
   FontVariantEastAsianVarId, FontVariantEastAsianWidthId, FontVariantRubyId,
   FontVariantHistoricalFormsId, FontVariantPositionId, FontVariantCapsId]

/-- What `convertToSvgTextAttributes` inserts under `font-variant`: the names of the features
of the sub-properties that are set, in the order of `liga`. -/
def fontVariantAttribute (H : ParseHelpers) (s : KoSvgTextProperties) : Option String :=
  let features := liga.foldl (fun (features : List String) id =>
    if s.hasProperty id then
      features ++ [featureMapKey H ((s.property id QVariant.invalid).toInt H)]
    else features) []
  if !features.isEmpty then some (QString.join features " ") else none

/-- What `convertToSvgTextAttributes` inserts under `font-feature-settings`. -/
def fontFeatureSettingsAttribute (s : KoSvgTextProperties) : Option String :=
  if s.hasProperty FontFeatureSettingsId then
    some (QString.join (s.property FontFeatureSettingsId QVariant.invalid).toStringList ", ")
  else none

/-- What `convertToSvgTextAttributes` inserts under `font-optical-sizing`. -/
def fontOpticalSizingAttribute (s : KoSvgTextProperties) : Option String :=
  if s.hasProperty FontOpticalSizingId then
    if !(s.property FontOpticalSizingId QVariant.invalid).toBool then some "none" else none
  else none

/-- What `convertToSvgTextAttributes` inserts under `font-variation-settings`. -/
def fontVariationSettingsAttribute (W : WriteHelpers) (s : KoSvgTextProperties) :
    Option String :=
  if s.hasProperty FontVariationSettingsId then
    some (writeFontVariationSettings W
      (s.property FontVariationSettingsId QVariant.invalid).toHash)
  else none

/-- The table `fontStretches` of `convertToSvgTextAttributes`. -/
def fontStretches : List Int := [50, 62, 75, 87, 100, 112, 125, 150, 200]

/-- What `convertToSvgTextAttributes` inserts under `font-stretch`: `std::find` is membership
in the table, `std::lower_bound` the position of the first entry that is not below the
value. -/
def fontStretchAttribute (H : ParseHelpers) (W : WriteHelpers) (s : KoSvgTextProperties)
    (svg1_1 : Bool) : Option String :=
  if s.hasProperty FontStretchId then
    let stretch := (s.property FontStretchId QVariant.invalid).toInt H
    if svg1_1 || fontStretches.contains stretch then
      let index := fontStretches.findIdx (fun entry => !decide (entry < stretch))
      if h : index < 9 then some (W.fontStretchNames ⟨index, h⟩) else none
    else some (KisDomUtils.toString stretch)
  else none

/-- What `convertToSvgTextAttributes` inserts under `font-weight`. -/
def fontWeightAttribute (H : ParseHelpers) (s : KoSvgTextProperties) : Option String :=
  if s.hasProperty FontWeightId then
    some (KisDomUtils.toString ((s.property FontWeightId QVariant.invalid).toInt H))
  else none

/-- What `convertToSvgTextAttributes` inserts under `font-size`. -/
def fontSizeAttribute (E : KoSvgText.Enumerators) (W : WriteHelpers) (s : KoSvgTextProperties) :
    Option String :=
  if s.hasProperty FontSizeId then some (W.writeLengthPercentage (fontSize E s)) else none

/-- What `convertToSvgTextAttributes` inserts under `font-size-adjust`. -/
def fontSizeAdjustAttribute (W : WriteHelpers) (s : KoSvgTextProperties) : Option String :=
  if s.hasProperty FontSizeAdjustId then
    some (W.writeAutoValue (s.property FontSizeAdjustId QVariant.invalid).valueAutoValue
      (some "none"))
  else none

/-- The strings the `text-decoration` block appends for the style `style`. -/
def textDecorationStyleStrings (E : KoSvgText.Enumerators) (style : Int) : List String :=
  if style = E.Solid then ["solid"]
  else if style = E.Double then ["double"]
  else if style = E.Dotted then ["dotted"]
  else if style = E.Dashed then ["dashed"]
  else if style = E.Wavy then ["wavy"]
  else []

/-- The list `decoStrings` of `convertToSvgTextAttributes` for a store that has
`TextDecorationLineId`. -/
def decoStrings (E : KoSvgText.Enumerators) (H : ParseHelpers) (W : WriteHelpers)
    (s : KoSvgTextProperties) : List String :=
  let deco := (s.property TextDecorationLineId QVariant.invalid).valueTextDecorations
  let decoStrings : List String := []
  let decoStrings := if deco.underline then decoStrings ++ ["underline"] else decoStrings
  let decoStrings := if deco.overline then decoStrings ++ ["overline"] else decoStrings
  let decoStrings := if deco.lineThrough then decoStrings ++ ["line-through"] else decoStrings
  if deco.underline || deco.overline || deco.lineThrough then
    let decoStrings :=
      if s.hasProperty TextDecorationStyleId then
        decoStrings ++ textDecorationStyleStrings E
          ((s.property TextDecorationStyleId QVariant.invalid).toInt H)
      else decoStrings
    if s.hasProperty TextDecorationColorId then
      let color := (s.property TextDecorationColorId QVariant.invalid).valueQColor H
      if color.valid then decoStrings ++ [W.colorName color] else decoStrings
    else decoStrings
  else decoStrings

/-- What `convertToSvgTextAttributes` inserts under `text-decoration`. -/
def textDecorationAttribute (E : KoSvgText.Enumerators) (H : ParseHelpers) (W : WriteHelpers)
    (s : KoSvgTextProperties) : Option String :=
  if s.hasProperty TextDecorationLineId then
    if !(decoStrings E H W s).isEmpty then some (QString.join (decoStrings E H W s) " ")
    else none
  else none

/-- The strings the `text-decoration-position` block appends for the position `pos`. -/
def decoPositionString (E : KoSvgText.Enumerators) (pos : Int) : List String :=
  if pos = E.UnderlineAuto then ["auto"]
  else if pos = E.UnderlineUnder then ["under"]
  else if pos = E.UnderlineLeft then ["left"]
  else if pos = E.UnderlineRight then ["right"]
  else []

/-- The list `decoPositionStrings` of `convertToSvgTextAttributes`. -/
def decoPositionStrings (E : KoSvgText.Enumerators) (H : ParseHelpers)
    (s : KoSvgTextProperties) : List String :=
  let decoPositionStrings : List String := []
  let decoPositionStrings :=
    if s.hasProperty TextDecorationPositionHorizontalId then
      decoPositionStrings ++ decoPositionString E
        ((s.property TextDecorationPositionHorizontalId QVariant.invalid).toInt H)
    else decoPositionStrings
  if s.hasProperty TextDecorationPositionVerticalId then
    decoPositionStrings ++ decoPositionString E
      ((s.property TextDecorationPositionVerticalId QVariant.invalid).toInt H)
  else decoPositionStrings

/-- What `convertToSvgTextAttributes` inserts under `text-decoration-position`. -/
def textDecorationPositionAttribute (E : KoSvgText.Enumerators) (H : ParseHelpers)
    (s : KoSvgTextProperties) : Option String :=
  if !(decoPositionStrings E H s).isEmpty then
    some (QString.join (decoPositionStrings E H s) " ")
  else none

/-- What `convertToSvgTextAttributes` inserts under `xml:lang`. -/
def xmlLangAttribute (W : WriteHelpers) (s : KoSvgTextProperties) : Option String :=
  if s.hasProperty TextLanguage then
    some ((s.property TextLanguage QVariant.invalid).toString W)
  else none

/-- What `convertToSvgTextAttributes` inserts under `text-transform`. -/
def textTransformAttribute (W : WriteHelpers) (s : KoSvgTextProperties) : Option String :=
  if s.hasProperty TextTransformId then
    some (W.writeTextTransform (s.property TextTransformId QVariant.invalid).valueTextTransformInfo)
  else none

/-- What `convertToSvgTextAttributes` inserts under `xml:space`. -/
def xmlSpaceAttribute (E : KoSvgText.Enumerators) (H : ParseHelpers) (W : WriteHelpers)
    (s : KoSvgTextProperties) (svg1_1 : Bool) : Option String :=
  if s.hasProperty TextCollapseId || s.hasProperty TextWrapId then
    let collapse := (propertyOrDefault E s TextCollapseId).toInt H
    if collapse = E.PreserveSpaces || svg1_1 then some (W.writeXmlSpace collapse) else none
  else none

/-- What `convertToSvgTextAttributes` inserts under `white-space`. -/
def whiteSpaceAttribute (E : KoSvgText.Enumerators) (H : ParseHelpers) (W : WriteHelpers)
    (s : KoSvgTextProperties) (svg1_1 : Bool) : Option String :=
  if s.hasProperty TextCollapseId || s.hasProperty TextWrapId then
    let trims := (propertyOrDefault E s TextTrimId).valueTextSpaceTrims
    let wrap := (propertyOrDefault E s TextWrapId).toInt H
    let collapse := (propertyOrDefault E s TextCollapseId).toInt H
    if collapse = E.PreserveSpaces || svg1_1 then none
    else some (W.writeWhiteSpaceValue collapse wrap trims)
  else none

/-- What `convertToSvgTextAttributes` inserts under `line-height`. -/
def lineHeightAttribute (W : WriteHelpers) (s : KoSvgTextProperties) : Option String :=
  if s.hasProperty LineHeightId then
    some (W.writeLineHeight (s.property LineHeightId QVariant.invalid).valueLineHeightInfo)
  else none

/-- What `convertToSvgTextAttributes` inserts under `tab-size`. -/
def tabSizeAttribute (E : KoSvgText.Enumerators) (W : WriteHelpers) (s : KoSvgTextProperties) :
    Option String :=
  if s.hasProperty TabSizeId then
    some (W.writeTabSize (propertyOrDefault E s TabSizeId).valueTabSizeInfo)
  else none

/-- What `convertToSvgTextAttributes` inserts under `hanging-punctuation`. -/
def hangingPunctuationAttribute (s : KoSvgTextProperties) : Option String :=
  if s.hasProperty HangingPunctuationId then
    let hang := (s.property HangingPunctuationId QVariant.invalid).valueHangingPunctuations
    let value : List String := []
    let value := if hang.hangFirst then value ++ ["first"] else value
    let value := if hang.hangLast then value ++ ["last"] else value
    let value :=
      if hang.hangEnd then
        if hang.hangForce then value ++ ["force-end"] else value ++ ["allow-end"]
      else value
    if !value.isEmpty then some (QString.join value " ") else none
  else none

/-- What `convertToSvgTextAttributes` inserts under `overflow-wrap`. -/
def overflowWrapAttribute (E : KoSvgText.Enumerators) (H : ParseHelpers)
    (s : KoSvgTextProperties) : Option String :=
  if s.hasProperty OverflowWrapId then
    let overflow := (s.property OverflowWrapId QVariant.invalid).toInt H
    if overflow = E.OverflowWrapAnywhere then some "anywhere"
    else if overflow = E.OverflowWrapBreakWord then some "break-word"
    else none
  else none

/-- What `convertToSvgTextAttributes` inserts under `overflow`. -/
def overflowAttribute (E : KoSvgText.Enumerators) (H : ParseHelpers)
    (s : KoSvgTextProperties) : Option String :=
  if s.hasProperty TextOverFlowId then
    let overflow := (s.property TextOverFlowId QVariant.invalid).toInt H
    if overflow = E.OverFlowClip then some "clip"
    else if overflow = E.OverFlowEllipse then some "visible"
    else some "visible"
  else none

/-- What `convertToSvgTextAttributes` inserts under `text-overflow`. -/
def textOverflowAttribute (E : KoSvgText.Enumerators) (H : ParseHelpers)
    (s : KoSvgTextProperties) : Option String :=
  if s.hasProperty TextOverFlowId then
    let overflow := (s.property TextOverFlowId QVariant.invalid).toInt H
    if overflow = E.OverFlowClip then some "clip"
    else if overflow = E.OverFlowEllipse then some "ellipse"
    else some "clip"
  else none

/-- The test of the `font-synthesis` block: all four synthesis properties are set. -/
def hasAllFontSynthesis (s : KoSvgTextProperties) : Bool :=
  s.hasProperty FontSynthesisBoldId && s.hasProperty FontSynthesisItalicId
    && s.hasProperty FontSynthesisSuperSubId && s.hasProperty FontSynthesisSmallCapsId

/-- What `convertToSvgTextAttributes` inserts under `font-synthesis`. -/
def fontSynthesisAttribute (s : KoSvgTextProperties) : Option String :=
  if hasAllFontSynthesis s then
    let weight := (s.property FontSynthesisBoldId QVariant.invalid).toBool
    let italic := (s.property FontSynthesisItalicId QVariant.invalid).toBool
    let caps := (s.property FontSynthesisSmallCapsId QVariant.invalid).toBool
    let super := (s.property FontSynthesisSuperSubId QVariant.invalid).toBool
    if !weight && !italic && !caps && !super then some "none"
    else
      let params : List String := []
      let params := if weight then params ++ ["weight"] else params
      let params := if italic then params ++ ["style"] else params
      let params := if caps then params ++ ["small-caps"] else params
      let params := if super then params ++ ["position"] else params
      some (QString.join params " ")
  else none

/-- What `convertToSvgTextAttributes` inserts under one of the four `font-synthesis-...`
names, for the property `id` of that name. -/
def fontSynthesisLonghandAttribute (s : KoSvgTextProperties) (id : PropertyId) :
    Option String :=
  if hasAllFontSynthesis s then none
  else if s.hasProperty id then
    some (if (s.property id QVariant.invalid).toBool then "auto" else "none")
  else none

/-- The insertions of `convertToSvgTextAttributes` in the order of the source: every attribute
name the function can insert, with the value it inserts for the store (`none`: the insertion
is not reached). -/
def attributeInsertions (E : KoSvgText.Enumerators) (H : ParseHelpers) (W : WriteHelpers)
    (s : KoSvgTextProperties) (svg1_1 : Bool) : List (String × Option String) :=
  [("writing-mode", writingModeAttribute H W s svg1_1),
   ("glyph-orientation-vertical", glyphOrientationVerticalAttribute E H s svg1_1),
   ("text-orientation", textOrientationAttribute H W s svg1_1),
   ("direction", enumAttribute H s DirectionId W.writeDirection),
   ("unicode-bidi", enumAttribute H s UnicodeBidiId W.writeUnicodeBidi),
   ("text-anchor", enumAttribute H s TextAnchorId W.writeTextAnchor),
   ("dominant-baseline", enumAttribute H s DominantBaselineId W.writeDominantBaseline),
   ("alignment-baseline", alignmentBaselineAttribute H W s svg1_1),
   ("baseline-shift", baselineShiftAttribute H W s svg1_1),
   ("vertical-align", verticalAlignAttribute H W s svg1_1),
   ("kerning", kerningAttribute W s svg1_1),
   ("letter-spacing", spacingAttribute W s LetterSpacingId),
   ("word-spacing", spacingAttribute W s WordSpacingId),
   ("font-family", fontFamilyAttribute s),
   ("font-style", fontStyleAttribute W s),
   ("font-variant", fontVariantAttribute H s),
   ("font-feature-settings", fontFeatureSettingsAttribute s),
   ("font-optical-sizing", fontOpticalSizingAttribute s),
   ("font-variation-settings", fontVariationSettingsAttribute W s),
   ("font-stretch", fontStretchAttribute H W s svg1_1),
   ("font-weight", fontWeightAttribute H s),
   ("font-size", fontSizeAttribute E W s),
   ("font-size-adjust", fontSizeAdjustAttribute W s),
   ("text-decoration", textDecorationAttribute E H W s),
   ("text-decoration-position", textDecorationPositionAttribute E H s),
   ("xml:lang", xmlLangAttribute W s),
   ("text-transform", textTransformAttribute W s),
   ("word-break", enumAttribute H s WordBreakId W.writeWordBreak),
   ("line-break", enumAttribute H s LineBreakId W.writeLineBreak),
   ("xml:space", xmlSpaceAttribute E H W s svg1_1),
   ("white-space", whiteSpaceAttribute E H W s svg1_1),
   ("line-height", lineHeightAttribute W s),
   ("tab-size", tabSizeAttribute E W s),
   ("hanging-punctuation", hangingPunctuationAttribute s),
   ("overflow-wrap", overflowWrapAttribute E H s),
   ("overflow", overflowAttribute E H s),
   ("text-overflow", textOverflowAttribute E H s),
   ("font-synthesis", fontSynthesisAttribute s),
   ("font-synthesis-weight", fontSynthesisLonghandAttribute s FontSynthesisBoldId),
   ("font-synthesis-style", fontSynthesisLonghandAttribute s FontSynthesisItalicId),
   ("font-synthesis-small-caps", fontSynthesisLonghandAttribute s FontSynthesisSmallCapsId),
   ("font-synthesis-position", fontSynthesisLonghandAttribute s FontSynthesisSuperSubId)]

/-- One insertion into the result map, when it is reached. -/
def insertAttribute (result : List (String × String)) (insertion : String × Option String) :
    List (String × String) :=
  match insertion.2 with
  | some value => QMap.insert result insertion.1 value
  | none => result

/-- The function `convertToSvgTextAttributes()`: the map of attribute names to values, built
from the empty map by the insertions in their order. -/
def convertToSvgTextAttributes (E : KoSvgText.Enumerators) (H : ParseHelpers)
    (W : WriteHelpers) (s : KoSvgTextProperties) : List (String × String) :=
  let svg1_1 := false
  (attributeInsertions E H W s svg1_1).foldl insertAttribute []

/-- What `convertParagraphProperties` inserts under `inline-size`. -/
def inlineSizeAttribute (W : WriteHelpers) (s : KoSvgTextProperties) : Option String :=
  if s.hasProperty InlineSizeId then
    some (W.writeAutoValue (s.property InlineSizeId QVariant.invalid).valueAutoValue
      (some "auto"))
  else none

/-- What `convertParagraphProperties` inserts under `text-indent`. -/
def textIndentAttribute (E : KoSvgText.Enumerators) (W : WriteHelpers)
    (s : KoSvgTextProperties) : Option String :=
  if s.hasProperty TextIndentId then
    some (W.writeTextIndent (propertyOrDefault E s TextIndentId).valueTextIndentInfo)
  else none

/-- What `convertParagraphProperties` inserts under `text-align`. -/
def textAlignAttribute (H : ParseHelpers) (W : WriteHelpers) (s : KoSvgTextProperties) :
    Option String :=
  if s.hasProperty TextAlignAllId then
    some (W.writeTextAlign ((s.property TextAlignAllId QVariant.invalid).toInt H))
  else none

/-- What `convertParagraphProperties` inserts under `text-align-last`. -/
def textAlignLastAttribute (E : KoSvgText.Enumerators) (H : ParseHelpers) (W : WriteHelpers)
    (s : KoSvgTextProperties) : Option String :=
  if s.hasProperty TextAlignAllId then
    let all := (s.property TextAlignAllId QVariant.invalid).toInt H
    let last := (s.property TextAlignLastId QVariant.invalid).toInt H
    if last ≠ all ∨ last ≠ E.AlignLastAuto then some (W.writeTextAlign last) else none
  else none

/-- What `convertParagraphProperties` inserts under `shape-padding` and `shape-margin`. -/
def shapeAttribute (H : ParseHelpers) (W : WriteHelpers) (s : KoSvgTextProperties)
    (id : PropertyId) : Option String :=
  if s.hasProperty id then
    some (W.doubleToString ((s.property id QVariant.invalid).toReal H))
  else none

/-- The insertions of `convertParagraphProperties` in the order of the source. -/
def paragraphInsertions (E : KoSvgText.Enumerators) (H : ParseHelpers) (W : WriteHelpers)
    (s : KoSvgTextProperties) : List (String × Option String) :=
  [("inline-size", inlineSizeAttribute W s),
   ("text-indent", textIndentAttribute E W s),
   ("text-align", textAlignAttribute H W s),
   ("text-align-last", textAlignLastAttribute E H W s),
   ("shape-padding", shapeAttribute H W s ShapePaddingId),
   ("shape-margin", shapeAttribute H W s ShapeMarginId)]

/-- The function `convertParagraphProperties()`. -/
def convertParagraphProperties (E : KoSvgText.Enumerators) (H : ParseHelpers)
    (W : WriteHelpers) (s : KoSvgTextProperties) : List (String × String) :=
  (paragraphInsertions E H W s).foldl insertAttribute []

/-- The function `supportedXmlAttributes()`. -/
def supportedXmlAttributes : List String :=
  ["writing-mode", "glyph-orientation-vertical", "glyph-orientation-horizontal", "direction",
   "unicode-bidi", "text-anchor", "dominant-baseline", "alignment-baseline", "baseline-shift",
   "kerning", "letter-spacing", "word-spacing", "xml:space", "xml:lang"]

/-- The list `list` of `fontFeaturesForText`. -/
def fontFeaturesList : List PropertyId :=
  [FontVariantCommonLigId, FontVariantDiscretionaryLigId, FontVariantHistoricalLigId,
   FontVariantContextualAltId, FontVariantHistoricalFormsId, FontVariantPositionId,
   FontVariantCapsId, FontVariantNumFractId, FontVariantNumFigureId, FontVariantNumOrdinalId,
   FontVariantNumSpacingId, FontVariantNumSlashedZeroId, FontVariantEastAsianVarId,
   FontVariantEastAsianWidthId, FontVariantRubyId]

/-- The text `QString("[%1:%2]").arg(start).arg(start + length)`, for `int` arguments. -/
def featureRange (start length : Int) : String :=
  "[" ++ QString.number start ++ ":" ++ QString.number (intAdd start length) ++ "]"

/-- The strings `fontFeaturesForText` appends for the sub-property `id` of `font-variant`. -/
def fontVariantFeatures (E : KoSvgText.Enumerators) (H : ParseHelpers) (W : WriteHelpers)
    (s : KoSvgTextProperties) (start length : Int) (id : PropertyId) : List String :=
  if s.hasProperty id then
    let feature := (s.property id QVariant.invalid).toInt H
    if feature ≠ E.FontVariantNormal then
      (W.fontVariantOpentypeTags feature).map (fun tag =>
        let openTypeTag := tag ++ featureRange start length
        if feature = E.NoCommonLigatures ∨ feature = E.NoDiscretionaryLigatures
            ∨ feature = E.NoHistoricalLigatures ∨ feature = E.NoContextualAlternates then
          openTypeTag ++ "=0"
        else openTypeTag ++ "=1")
    else []
  else []

/-- The strings `fontFeaturesForText` appends for the kerning. -/
def kerningFeatures (s : KoSvgTextProperties) (start length : Int) : List String :=
  if !(s.property KerningId QVariant.invalid).valueAutoValue.isAuto
      && (s.property KerningId QVariant.invalid).valueAutoValue.customValue == 0 then
    ["kern" ++ featureRange start length ++ "=0", "vkrn" ++ featureRange start length ++ "=0"]
  else []

/-- What one turn of the `font-feature-settings` loop of `fontFeaturesForText` appends for the
entry `entry` (`none`: the turn ends in `continue`). The entry is cut at positions counted in
UTF-16 code units, and a cut may go through a surrogate pair, so the turn works on the code
units and its result is a list of code units. -/
def fontFeatureSetting (H : ParseHelpers) (start length : Int) (entry : String) :
    Option (List Nat) :=
  let feature := QString.utf16 (QString.trimmed entry)
  if (!QString.Units.startsWith feature 39 && !QString.Units.startsWith feature 34)
      || QString.Units.isEmpty feature then none
  else
    let openTypeTag := QString.Units.mid feature 1 4
    if QString.Units.size feature = 6 then
      some (openTypeTag ++ QString.utf16 (featureRange start length ++ "=1"))
    else
      let feature := QString.Units.trimmed (QString.Units.remove feature 0 6)
      let ok := QString.Units.toIntOk H feature
      let featureVal := QString.Units.toInt H feature
      if feature = QString.utf16 "on" then
        some (openTypeTag ++ QString.utf16 (featureRange start length ++ "=1"))
      else if feature = QString.utf16 "off" then
        some (openTypeTag ++ QString.utf16 (featureRange start length ++ "=0"))
      else if ok then
        some (openTypeTag
          ++ QString.utf16 (featureRange start length ++ "=" ++ QString.number featureVal))
      else none

/-- The function `fontFeaturesForText(start, length)` for `int` arguments; each string of the
result is given by its UTF-16 code units. -/
def fontFeaturesForText (E : KoSvgText.Enumerators) (H : ParseHelpers) (W : WriteHelpers)
    (s : KoSvgTextProperties) (start length : Int) : List (List Nat) :=
  let fontFeatures := fontFeaturesList.foldl
    (fun fontFeatures id => fontFeatures ++ fontVariantFeatures E H W s start length id) []
  let fontFeatures := fontFeatures ++ kerningFeatures s start length
  let fontFeatures := fontFeatures.map QString.utf16
  if s.hasProperty FontFeatureSettingsId then
    (s.property FontFeatureSettingsId QVariant.invalid).toStringList.foldl
      (fun fontFeatures entry =>
        match fontFeatureSetting H start length entry with
        | some openTypeTag => fontFeatures ++ [openTypeTag]
        | none => fontFeatures) fontFeatures
  else fontFeatures

/-- The function `fontAxisSettings()`. -/
def fontAxisSettings (E : KoSvgText.Enumerators) (H : ParseHelpers) (s : KoSvgTextProperties) :
    List (String × ℚ) :=
  let settings : List (String × ℚ) := []
  let settings := QMap.insert settings "wght" ((propertyOrDefault E s FontWeightId).toInt H : ℚ)
  let settings := QMap.insert settings "wdth" ((propertyOrDefault E s FontStretchId).toInt H : ℚ)
  let settings :=
    if (propertyOrDefault E s FontOpticalSizingId).toBool then
      QMap.insert settings "opsz" (fontSize E s).value
    else settings
  let style := (propertyOrDefault E s FontStyleId).valueCssFontStyleData
  let settings :=
    if style.style = QFont.StyleItalic then QMap.insert settings "ital" 1
    else if style.style = QFont.StyleOblique then
      QMap.insert settings "slnt"
        (-(if style.slantValue.isAuto then 14 else style.slantValue.customValue))
    else QMap.insert settings "ital" 0
  if s.hasProperty FontVariationSettingsId then
    (s.property FontVariationSettingsId QVariant.invalid).toHash.foldl
      (fun settings feature => QMap.insert settings feature.1 feature.2) settings
  else settings

end KoSvgTextProperties

/-! ## The command names of the parser -/

namespace KoSvgTextProperties

/-- The command names that the dispatch chain of `parseSvgTextAttribute` compares `command`
with, in the order of the chain. -/
def recognisedCommands : List String :=
  ["writing-mode", "glyph-orientation-vertical", "text-orientation", "direction",
   "unicode-bidi", "text-anchor", "dominant-baseline", "alignment-baseline", "baseline-shift",
   "vertical-align", "kerning", "letter-spacing", "word-spacing", "font-family", "font-style",
   "font-variant", "font-variant-ligatures", "font-variant-position", "font-variant-caps",
   "font-variant-numeric", "font-variant-east-asian", "font-variant-alternates",
   "font-feature-settings", "font-stretch", "font-weight", "font-size", "font-size-adjust",
   "font-optical-sizing", "font-variation-settings", "text-decoration",
   "text-decoration-line", "text-decoration-style", "text-decoration-color",
   "text-decoration-position", "xml:lang", "text-transform", "white-space", "xml:space",
   "word-break", "line-break", "text-align", "text-align-all", "text-align-last",
   "line-height", "text-indent", "hanging-punctuation", "inline-size", "overflow",
   "text-overflow", "overflow-wrap", "word-wrap", "tab-size", "shape-padding", "shape-margin",
   "font-synthesis", "font-synthesis-weight", "font-synthesis-style",
   "font-synthesis-small-caps", "font-synthesis-position"]

/-- The attribute names that the specification lists as recognised by
`parseSvgTextAttribute`, shorthands with their longhands. -/
def specListedCommands : List String :=
  ["writing-mode", "direction", "font-family", "font-style", "font-variant",
   "font-variant-ligatures", "font-variant-position", "font-variant-caps",
   "font-variant-numeric", "font-variant-east-asian", "font-variant-alternates",
   "font-feature-settings", "font-stretch", "font-weight", "font-size", "text-decoration",
   "text-decoration-line", "text-decoration-style", "text-decoration-color",
   "text-decoration-position", "white-space", "xml:space", "text-align", "text-align-all",
   "text-align-last", "line-height", "text-indent", "hanging-punctuation", "inline-size",
   "overflow", "text-overflow", "tab-size", "shape-padding", "shape-margin", "font-synthesis",
   "font-synthesis-weight", "font-synthesis-style", "font-synthesis-small-caps",
   "font-synthesis-position", "kerning", "letter-spacing", "word-spacing", "baseline-shift",
   "vertical-align"]

end KoSvgTextProperties

/-! ## Walking a store: the loops read and write one entry at a time -/

namespace PropertyId

theorem mem_all (k : PropertyId) : k ∈ all := by
  cases k <;> decide

set_option maxRecDepth 100000 in
theorem nodup_all : all.Nodup := by
  decide

end PropertyId

namespace KoSvgTextProperties

open PropertyId

theorem mem_keys (s : KoSvgTextProperties) (k : PropertyId) :
    k ∈ s.keys ↔ s.hasProperty k = true := by
  simp [keys, PropertyId.mem_all]

theorem nodup_keys (s : KoSvgTextProperties) : s.keys.Nodup :=
  PropertyId.nodup_all.filter _

/-- A loop whose turn at key `k` changes no other entry, and whose effect on the entry of `k`
depends on that entry alone, gives at every key the result of its own turn. -/
theorem foldl_entry (step : KoSvgTextProperties → PropertyId → KoSvgTextProperties)
    (hframe : ∀ acc k j, j ≠ k → (step acc k).properties j = acc.properties j)
    (hlocal : ∀ acc acc2 k, acc.properties k = acc2.properties k →
      (step acc k).properties k = (step acc2 k).properties k)
    (l : List PropertyId) (hl : l.Nodup) (s : KoSvgTextProperties) (j : PropertyId) :
    (l.foldl step s).properties j
      = if j ∈ l then (step s j).properties j else s.properties j := by
  induction l generalizing s with
  | nil => simp
  | cons k t ih =>
    rw [List.nodup_cons] at hl
    rw [List.foldl_cons, ih hl.2]
    by_cases hjk : j = k
    · subst hjk
      simp [hl.1]
    · by_cases hjt : j ∈ t
      · simp [hjt, hlocal (step s k) s j (hframe s k j hjk)]
      · simp [hjt, hjk, hframe s k j hjk]

theorem setProperty_properties (s : KoSvgTextProperties) (id : PropertyId) (v : QVariant)
    (k : PropertyId) :
    (s.setProperty id v).properties k = if k = id then some v else s.properties k := rfl

theorem inheritLoop_properties (s p : KoSvgTextProperties) (j : PropertyId) :
    (p.keys.foldl (inheritStep p) s).properties j
      = match s.properties j with
        | some v => some v
        | none => if isInheritable j then p.properties j else none := by
  rw [foldl_entry (inheritStep p) _ _ _ p.nodup_keys]
  · by_cases hp : j ∈ p.keys
    · have hp2 := (mem_keys p j).1 hp
      simp only [hp, if_true, inheritStep, hasProperty, property]
      cases hs : s.properties j with
      | some v => simp [hs]
      | none =>
        cases hi : isInheritable j
        · simp [hs]
        · simp only [hasProperty] at hp2
          obtain ⟨w, hw⟩ := Option.isSome_iff_exists.1 hp2
          simp [hs, hw, setProperty_properties]
    · have hp2 : p.properties j = none := by
        have := mt (mem_keys p j).2 hp
        simpa [hasProperty] using this
      simp only [hp, if_false]
      cases hs : s.properties j with
      | some v => rfl
      | none => simp [hp2]
  · intro acc k i hik
    unfold inheritStep
    split <;> simp [setProperty_properties, hik]
  · intro acc acc2 k h
    have hh : acc.hasProperty k = acc2.hasProperty k := by simp [hasProperty, h]
    unfold inheritStep
    rw [hh]
    split <;> simp [setProperty_properties, h]

theorem inheritFrom_false_properties (E : KoSvgText.Enumerators)
    (metrics : KoSvgTextProperties → ℚ) (s p : KoSvgTextProperties) (j : PropertyId) :
    (inheritFrom E metrics s p false).properties j
      = match s.properties j with
        | some v => some v
        | none => if isInheritable j then p.properties j else none := by
  simp only [inheritFrom]
  exact inheritLoop_properties s p j

theorem foldl_keys_entry (step : KoSvgTextProperties → PropertyId → KoSvgTextProperties)
    (hframe : ∀ acc k j, j ≠ k → (step acc k).properties j = acc.properties j)
    (hlocal : ∀ acc acc2 k, acc.properties k = acc2.properties k →
      (step acc k).properties k = (step acc2 k).properties k)
    (s0 s : KoSvgTextProperties) (j : PropertyId) :
    (s0.keys.foldl step s).properties j
      = if s0.hasProperty j = true then (step s j).properties j else s.properties j := by
  rw [foldl_entry step hframe hlocal _ s0.nodup_keys]
  simp only [mem_keys]

theorem reset_properties (E : KoSvgText.Enumerators) (s : KoSvgTextProperties)
    (j : PropertyId) :
    (resetNonInheritableToDefault E s).properties j
      = match s.properties j with
        | some v =>
          if isInheritable j then some v
          else some ((defaultProperties E).property j QVariant.invalid)
        | none => none := by
  unfold resetNonInheritableToDefault
  rw [foldl_keys_entry (resetStep E)]
  · cases hs : s.properties j with
    | none => simp [hasProperty, hs]
    | some v =>
      cases hi : isInheritable j <;>
        simp [hasProperty, hs, resetStep, hi, setProperty_properties]
  · intro acc k i hik
    unfold resetStep
    split <;> simp [setProperty_properties, hik]
  · intro acc acc2 k h
    unfold resetStep
    split <;> simp [setProperty_properties, h]

theorem ownProperties_properties (equals : QVariant → QVariant → Bool)
    (s p : KoSvgTextProperties) (keepFontSize : Bool) (j : PropertyId) :
    (ownProperties equals s p keepFontSize).properties j
      = match s.properties j with
        | some v =>
          if ((keepFontSize && j == FontSizeId) || !p.hasProperty j
              || !equals (p.property j QVariant.invalid) v) = true then some v
          else none
        | none => none := by
  unfold ownProperties
  rw [foldl_keys_entry (ownStep equals s p keepFontSize)]
  · cases hs : s.properties j with
    | none => simp [hasProperty, hs, empty]
    | some v =>
      simp only [hasProperty, hs, Option.isSome_some, if_true, ownStep, property,
        Option.getD_some]
      split <;> simp [setProperty_properties, empty]
  · intro acc k i hik
    unfold ownStep
    split <;> simp [setProperty_properties, hik]
  · intro acc acc2 k h
    unfold ownStep
    split <;> simp [setProperty_properties, h]

theorem resolveStep_frame (us ux : ℚ) (acc : KoSvgTextProperties) (k j : PropertyId)
    (hjk : j ≠ k) : (resolveStep us ux acc k).properties j = acc.properties j := by
  unfold resolveStep
  simp only []
  repeat (first | rfl | split | simp [setProperty_properties, hjk])

theorem resolveStep_local (us ux : ℚ) (acc acc2 : KoSvgTextProperties) (k : PropertyId)
    (h : acc.properties k = acc2.properties k) :
    (resolveStep us ux acc k).properties k = (resolveStep us ux acc2 k).properties k := by
  have hp : acc.property k QVariant.invalid = acc2.property k QVariant.invalid := by
    simp [property, h]
  unfold resolveStep
  simp only [hp]
  repeat (first | rfl | split | simp [setProperty_properties, h])

theorem resolveStep_hasProperty (us ux : ℚ) (acc : KoSvgTextProperties) (k : PropertyId)
    (h : acc.hasProperty k = true) : (resolveStep us ux acc k).hasProperty k = true := by
  unfold resolveStep
  simp only []
  repeat (first | exact h | split | simp [hasProperty, setProperty_properties])

theorem resolveLoop_properties (us ux : ℚ) (s : KoSvgTextProperties) (j : PropertyId) :
    (s.keys.foldl (resolveStep us ux) s).properties j
      = if s.hasProperty j = true then (resolveStep us ux s j).properties j
        else s.properties j :=
  foldl_keys_entry (resolveStep us ux) (resolveStep_frame us ux) (resolveStep_local us ux) s s j

theorem resolveLoop_hasProperty (us ux : ℚ) (s : KoSvgTextProperties) (j : PropertyId) :
    (s.keys.foldl (resolveStep us ux) s).hasProperty j = s.hasProperty j := by
  by_cases h : s.hasProperty j = true
  · have := resolveStep_hasProperty us ux s j h
    simp only [hasProperty] at this h ⊢
    rw [resolveLoop_properties]
    simp [hasProperty, h, this]
  · simp only [hasProperty] at h ⊢
    rw [resolveLoop_properties]
    simp [hasProperty, h]

theorem resolveRelativeValues_hasProperty (E : KoSvgText.Enumerators)
    (metrics : KoSvgTextProperties → ℚ) (s : KoSvgTextProperties) (fontSize xHeight : ℚ)
    (j : PropertyId) :
    (resolveRelativeValues E metrics s fontSize xHeight).hasProperty j
      = (j == FontSizeId || s.hasProperty j) := by
  simp only [resolveRelativeValues, resolveLoop_hasProperty, setFontSize]
  by_cases hj : j = FontSizeId
  · simp [hj, hasProperty, setProperty_properties]
  · simp [hj, hasProperty, setProperty_properties]

end KoSvgTextProperties

/-! ## Inheritance -/

namespace KoSvgTextProperties

open PropertyId

/-- C1: for every child store `P` and parent store `Q`, calling `P.inheritFrom(Q, false)` a
second time leaves the store obtained by the first call unchanged. -/
theorem inheritFrom_idempotent (E : KoSvgText.Enumerators) (metrics : KoSvgTextProperties → ℚ)
    (P Q : KoSvgTextProperties) :
    inheritFrom E metrics (inheritFrom E metrics P Q false) Q false
      = inheritFrom E metrics P Q false := by
  ext1
  funext j
  rw [inheritFrom_false_properties E metrics (inheritFrom E metrics P Q false) Q j]
  rw [inheritFrom_false_properties E metrics P Q j]
  cases hP : P.properties j with
  | some v => rfl
  | none =>
    cases hi : isInheritable j
    · simp
    · cases hQ : Q.properties j <;> simp [hQ]

/-- C2: for both values of the resolve flag and each of the nine non-inheritable ids, a child
that does not have the id before `inheritFrom(parent, resolve)` does not have it afterwards. -/
theorem inheritFrom_nonInheritable_absent (E : KoSvgText.Enumerators)
    (metrics : KoSvgTextProperties → ℚ) (child parent : KoSvgTextProperties) (resolve : Bool)
    (id : PropertyId)
    (hid : id ∈ [UnicodeBidiId, AlignmentBaselineId, BaselineShiftModeId, BaselineShiftValueId,
      TextDecorationLineId, TextDecorationColorId, TextDecorationStyleId, InlineSizeId,
      TextTrimId])
    (habsent : child.hasProperty id = false) :
    (inheritFrom E metrics child parent resolve).hasProperty id = false := by
  have hni : isInheritable id = false := by
    simp only [List.mem_cons, List.mem_singleton, List.not_mem_nil, or_false] at hid
    rcases hid with h | h | h | h | h | h | h | h | h <;> subst h <;> rfl
  have hne : id ≠ FontSizeId := by
    intro h
    subst h
    simp [isInheritable] at hni
  have hloop : (parent.keys.foldl (inheritStep parent) child).hasProperty id = false := by
    have hc : child.properties id = none := by simpa [hasProperty] using habsent
    simp [hasProperty, inheritLoop_properties, hc, hni]
  cases resolve
  · simpa [inheritFrom] using hloop
  · simp only [inheritFrom, if_true]
    rw [resolveRelativeValues_hasProperty]
    simp [hne, hloop]

/-- Witness of C2: a parent that sets `InlineSizeId` and a child without it, resolving. -/
theorem inheritFrom_nonInheritable_absent_witness :
    InlineSizeId ∈ [UnicodeBidiId, AlignmentBaselineId, BaselineShiftModeId,
        BaselineShiftValueId, TextDecorationLineId, TextDecorationColorId,
        TextDecorationStyleId, InlineSizeId, TextTrimId]
      ∧ (empty.setProperty FontWeightId (QVariant.int 700)).hasProperty InlineSizeId = false
      ∧ (inheritFrom KoSvgText.Enumerators.sample sampleMetrics
          (empty.setProperty FontWeightId (QVariant.int 700))
          (empty.setProperty InlineSizeId (QVariant.autoValue { isAuto := false, customValue := 100 }))
          true).hasProperty InlineSizeId = false :=
  ⟨by decide, by decide,
    inheritFrom_nonInheritable_absent _ _ _ _ true InlineSizeId (by decide) (by decide)⟩

/-- C3: after `C.inheritFrom(P, false)` the store holds every entry `C` had, unchanged, plus
the parent's entry for each id that `C` lacked and that is not one of the nine non-inheritable
ids (when the parent has none, the id stays absent); no other id is present. -/
theorem inheritFrom_false_exact (E : KoSvgText.Enumerators) (metrics : KoSvgTextProperties → ℚ)
    (C P : KoSvgTextProperties) (id : PropertyId) :
    (inheritFrom E metrics C P false).properties id
      = match C.properties id with
        | some v => some v
        | none =>
          if id ∈ [UnicodeBidiId, AlignmentBaselineId, BaselineShiftModeId,
              BaselineShiftValueId, TextDecorationLineId, TextDecorationColorId,
              TextDecorationStyleId, InlineSizeId, TextTrimId] then none
          else P.properties id := by
  rw [inheritFrom_false_properties]
  cases hC : C.properties id with
  | some v => rfl
  | none =>
    cases id <;> simp [isInheritable]

/-- C4: `C.ownProperties(P, keepFontSize)` contains an id iff `C` has it and `P` lacks it, or
the value of `P` for it differs from that of `C`, or `keepFontSize` is set and the id is
`FontSizeId`; each id it contains carries the value of `C`; for identical stores the result is
empty when `keepFontSize` is false and holds at most `FontSizeId` when it is true. Two values
differ when Qt's comparison `equals` of them, in the order of the source, is false; the two
statements on identical stores use that a value compares equal to itself. -/
theorem ownProperties_exact (equals : QVariant → QVariant → Bool) (C P : KoSvgTextProperties)
    (keepFontSize : Bool) :
    (∀ id, (C.ownProperties equals P keepFontSize).hasProperty id = true ↔
        (C.hasProperty id = true ∧
          (P.hasProperty id = false
            ∨ equals (P.property id QVariant.invalid) (C.property id QVariant.invalid) = false
            ∨ (keepFontSize = true ∧ id = FontSizeId))))
      ∧ (∀ id, (C.ownProperties equals P keepFontSize).hasProperty id = true →
          (C.ownProperties equals P keepFontSize).properties id = C.properties id)
      ∧ ((∀ id, C.hasProperty id = true →
            equals (C.property id QVariant.invalid) (C.property id QVariant.invalid) = true) →
          C.ownProperties equals C false = empty
            ∧ (∀ id, (C.ownProperties equals C true).hasProperty id = true →
                id = FontSizeId)) := by
  refine ⟨?_, ?_, ?_⟩
  · intro id
    rw [hasProperty, ownProperties_properties]
    obtain hC | ⟨v, hC⟩ := Option.eq_none_or_eq_some (C.properties id)
    · simp [hasProperty, hC]
    · obtain hP | ⟨w, hP⟩ := Option.eq_none_or_eq_some (P.properties id)
      · simp [hasProperty, property, hC, hP]
      · cases hwv : equals w v
        · simp [hasProperty, property, hC, hP, hwv]
        · by_cases hk : keepFontSize = true ∧ id = FontSizeId
          · obtain ⟨hk1, hk2⟩ := hk
            subst hk2
            simp [hasProperty, property, hC, hP, hwv, hk1]
          · have hk2 : (keepFontSize && id == FontSizeId) = false := by
              cases keepFontSize <;> simp_all
            simp [hasProperty, property, hC, hP, hwv, hk, hk2]
  · intro id
    rw [hasProperty, ownProperties_properties]
    obtain hC | ⟨v, hC⟩ := Option.eq_none_or_eq_some (C.properties id)
    · simp [hC]
    · simp only [hC]
      split <;> simp
  · intro hrefl
    constructor
    · ext1
      funext id
      rw [ownProperties_properties]
      obtain hC | ⟨v, hC⟩ := Option.eq_none_or_eq_some (C.properties id)
      · simp [hC, empty]
      · have h := hrefl id (by simp [hasProperty, hC])
        simp only [property, hC, Option.getD_some] at h
        simp [hC, empty, hasProperty, property, h]
    · intro id
      rw [hasProperty, ownProperties_properties]
      obtain hC | ⟨v, hC⟩ := Option.eq_none_or_eq_some (C.properties id)
      · simp [hC]
      · have h := hrefl id (by simp [hasProperty, hC])
        simp only [property, hC, Option.getD_some] at h
        simp [hC, hasProperty, property, h]

/-- Witness of C4: the store whose only entry is the text decoration line underline, compared
with itself by the equality of the stored values: every value equals itself, and the own
properties are empty. -/
theorem ownProperties_exact_witness :
    (∀ id, (empty.setProperty TextDecorationLineId
          (QVariant.textDecorations { underline := true })).hasProperty id = true →
        (fun a b : QVariant => a == b)
          ((empty.setProperty TextDecorationLineId
            (QVariant.textDecorations { underline := true })).property id QVariant.invalid)
          ((empty.setProperty TextDecorationLineId
            (QVariant.textDecorations { underline := true })).property id QVariant.invalid)
          = true)
    ∧ ownProperties (fun a b : QVariant => a == b)
        (empty.setProperty TextDecorationLineId
          (QVariant.textDecorations { underline := true }))
        (empty.setProperty TextDecorationLineId
          (QVariant.textDecorations { underline := true })) false = empty :=
  ⟨fun _ _ => by simp,
    ((ownProperties_exact (fun a b : QVariant => a == b)
      (empty.setProperty TextDecorationLineId
        (QVariant.textDecorations { underline := true }))
      (empty.setProperty TextDecorationLineId
        (QVariant.textDecorations { underline := true })) false).2.2
      (fun _ _ => by simp)).1⟩

end KoSvgTextProperties

/-! ## Reading a property, and the defaults -/

namespace KoSvgTextProperties

open PropertyId

theorem defaultProperties_fontSize (E : KoSvgText.Enumerators) :
    (defaultProperties E).properties FontSizeId
      = some (QVariant.lengthPercentage { value := 12 }) := rfl

theorem fontSize_absent (E : KoSvgText.Enumerators) (s : KoSvgTextProperties)
    (h : s.hasProperty FontSizeId = false) :
    s.fontSize E = { value := 12, unit := KoSvgText.UnitType.Absolute } := by
  have hn : s.properties FontSizeId = none := by simpa [hasProperty] using h
  simp [fontSize, propertyOrDefault, property, hn, QVariant.isNull, defaultProperties_fontSize,
    QVariant.valueCssLengthPercentage]

/-- C5, counterexample: after `setProperty(FontSizeId, QVariant())` on an empty store the id
is present, yet `propertyOrDefault(FontSizeId)` returns the default store's length 12.0 and
not the null value that was stored. -/
theorem propertyOrDefault_null_counterexample :
    (empty.setProperty FontSizeId QVariant.invalid).hasProperty FontSizeId = true
      ∧ propertyOrDefault KoSvgText.Enumerators.sample
          (empty.setProperty FontSizeId QVariant.invalid) FontSizeId
        = QVariant.lengthPercentage { value := 12 }
      ∧ propertyOrDefault KoSvgText.Enumerators.sample
          (empty.setProperty FontSizeId QVariant.invalid) FontSizeId ≠ QVariant.invalid := by
  refine ⟨rfl, rfl, ?_⟩
  intro h
  exact QVariant.noConfusion ((rfl : propertyOrDefault KoSvgText.Enumerators.sample
    (empty.setProperty FontSizeId QVariant.invalid) FontSizeId
      = QVariant.lengthPercentage { value := 12 }).symm.trans h)

/-- C5, amended: after `setProperty(id, v)` the store has the id and `property(id, d)` returns
`v` for every caller default `d`; `propertyOrDefault(id)` returns `v` when `v` is not null and
the default store's value for the id when `v` is null; when the id is absent, `property(id, d)`
returns `d` and `propertyOrDefault(id)` returns the default store's value. -/
theorem setProperty_then_read (E : KoSvgText.Enumerators) (s : KoSvgTextProperties)
    (id : PropertyId) (v d : QVariant) :
    (s.setProperty id v).hasProperty id = true
      ∧ (s.setProperty id v).property id d = v
      ∧ (v.isNull = false → propertyOrDefault E (s.setProperty id v) id = v)
      ∧ (v.isNull = true → propertyOrDefault E (s.setProperty id v) id
          = (defaultProperties E).property id QVariant.invalid)
      ∧ (s.hasProperty id = false →
          s.property id d = d
            ∧ propertyOrDefault E s id = (defaultProperties E).property id QVariant.invalid) := by
  refine ⟨?_, ?_, ?_, ?_, ?_⟩
  · simp [hasProperty, setProperty_properties]
  · simp [property, setProperty_properties]
  · intro hv
    simp [propertyOrDefault, property, setProperty_properties, hv]
  · intro hv
    simp [propertyOrDefault, property, setProperty_properties, hv]
  · intro habsent
    have hn : s.properties id = none := by simpa [hasProperty] using habsent
    simp [propertyOrDefault, property, hn, QVariant.isNull]

/-- C6: on an empty store `propertyOrDefault(FontSizeId)` is the absolute length 12.0,
`propertyOrDefault(FontFamiliesId)` reads as the family list `["sans-serif"]`, `FontWeightId`
is 400 and `FontStretchId` is 100. -/
theorem propertyOrDefault_empty_font (E : KoSvgText.Enumerators) :
    propertyOrDefault E empty FontSizeId
        = QVariant.lengthPercentage { value := 12, unit := KoSvgText.UnitType.Absolute }
      ∧ (propertyOrDefault E empty FontFamiliesId).toStringList = ["sans-serif"]
      ∧ propertyOrDefault E empty FontWeightId = QVariant.int 400
      ∧ propertyOrDefault E empty FontStretchId = QVariant.int 100 :=
  ⟨rfl, rfl, rfl, rfl⟩

/-- C8: `resetNonInheritableToDefault` leaves the set of present ids unchanged, leaves the
value of every present inheritable id unchanged, and sets the value of every present
non-inheritable id to what the default store returns for that id. -/
theorem resetNonInheritableToDefault_effect (E : KoSvgText.Enumerators)
    (s : KoSvgTextProperties) :
    (∀ id, (resetNonInheritableToDefault E s).hasProperty id = s.hasProperty id)
      ∧ (∀ id, s.hasProperty id = true → isInheritable id = true →
          (resetNonInheritableToDefault E s).properties id = s.properties id)
      ∧ (∀ id, s.hasProperty id = true → isInheritable id = false →
          (resetNonInheritableToDefault E s).properties id
            = some ((defaultProperties E).property id QVariant.invalid)) := by
  refine ⟨?_, ?_, ?_⟩
  · intro id
    rw [hasProperty, reset_properties]
    obtain hs | ⟨v, hs⟩ := Option.eq_none_or_eq_some (s.properties id)
    · simp [hasProperty, hs]
    · simp only [hasProperty, hs]
      split <;> rfl
  · intro id _ hi
    rw [reset_properties]
    obtain hs | ⟨v, hs⟩ := Option.eq_none_or_eq_some (s.properties id)
    · simp [hs]
    · simp [hs, hi]
  · intro id hp hi
    rw [reset_properties]
    obtain hs | ⟨v, hs⟩ := Option.eq_none_or_eq_some (s.properties id)
    · simp [hasProperty, hs] at hp
    · simp [hs, hi]

/-- C9, the code at the failing input: a store whose only entry is `InlineSizeId` with the
auto-value 100 keeps the id through `resetNonInheritableToDefault`, but the value becomes the
null `QVariant()`, because the default store has no entry for `InlineSizeId`, the only one of
the nine non-inheritable ids it does not set. -/
theorem resetNonInheritableToDefault_inlineSize_null :
    (defaultProperties KoSvgText.Enumerators.sample).hasProperty InlineSizeId = false
      ∧ (∀ id ∈ [UnicodeBidiId, AlignmentBaselineId, BaselineShiftModeId, BaselineShiftValueId,
          TextDecorationLineId, TextDecorationColorId, TextDecorationStyleId, TextTrimId],
          (defaultProperties KoSvgText.Enumerators.sample).hasProperty id = true)
      ∧ (resetNonInheritableToDefault KoSvgText.Enumerators.sample
          (empty.setProperty InlineSizeId
            (KoSvgText.fromAutoValue { isAuto := false, customValue := 100 }))).properties
          InlineSizeId = some QVariant.invalid := by
  refine ⟨rfl, by decide, ?_⟩
  rw [reset_properties]
  rfl

end KoSvgTextProperties

/-! ## Relative-unit resolution -/

namespace KoSvgTextProperties

open PropertyId

/-- The entry of a key other than `FontSizeId` after `resolveRelativeValues`: the turn of the
loop at that key, run with the store's own resolved font size. -/
theorem resolveRelativeValues_properties (E : KoSvgText.Enumerators)
    (metrics : KoSvgTextProperties → ℚ) (s : KoSvgTextProperties) (fontSize xHeight : ℚ)
    (j : PropertyId) (hj : j ≠ FontSizeId) (hp : s.hasProperty j = true) :
    (resolveRelativeValues E metrics s fontSize xHeight).properties j
      = (resolveStep ((s.fontSize E).convertToAbsolute fontSize xHeight).value
          (metrics (s.setFontSize ((s.fontSize E).convertToAbsolute fontSize xHeight)))
          s j).properties j := by
  have hp2 : (s.setFontSize ((s.fontSize E).convertToAbsolute fontSize xHeight)).hasProperty j
      = true := by
    simpa [hasProperty, setFontSize, setProperty_properties, hj] using hp
  simp only [resolveRelativeValues]
  rw [resolveLoop_properties, if_pos hp2]
  apply resolveStep_local
  simp [setFontSize, setProperty_properties, hj]

/-- C10, counterexample: the store whose only entry is `LetterSpacingId` = 0.5em (not auto)
comes out of `resolveRelativeValues(16, 8)` with the absolute length 6.0, not 8.0: the length
is multiplied by the store's own font size, the default 12.0, not by the font size passed in. -/
theorem resolveRelativeValues_letterSpacing_counterexample :
    (empty.setProperty LetterSpacingId (QVariant.autoLengthPercentage
        { length := { value := 1 / 2, unit := KoSvgText.UnitType.Em }, isAuto := false })).hasProperty
        FontSizeId = false
      ∧ (resolveRelativeValues KoSvgText.Enumerators.sample sampleMetrics
          (empty.setProperty LetterSpacingId (QVariant.autoLengthPercentage
            { length := { value := 1 / 2, unit := KoSvgText.UnitType.Em }, isAuto := false }))
          16 8).properties LetterSpacingId
        = some (QVariant.autoLengthPercentage
            { length := { value := 6, unit := KoSvgText.UnitType.Absolute }, isAuto := false })
      ∧ (resolveRelativeValues KoSvgText.Enumerators.sample sampleMetrics
          (empty.setProperty LetterSpacingId (QVariant.autoLengthPercentage
            { length := { value := 1 / 2, unit := KoSvgText.UnitType.Em }, isAuto := false }))
          16 8).properties LetterSpacingId
        ≠ some (QVariant.autoLengthPercentage
            { length := { value := 8, unit := KoSvgText.UnitType.Absolute }, isAuto := false }) := by
  have h : (resolveRelativeValues KoSvgText.Enumerators.sample sampleMetrics
          (empty.setProperty LetterSpacingId (QVariant.autoLengthPercentage
            { length := { value := 1 / 2, unit := KoSvgText.UnitType.Em }, isAuto := false }))
          16 8).properties LetterSpacingId
        = some (QVariant.autoLengthPercentage
            { length := { value := 6, unit := KoSvgText.UnitType.Absolute }, isAuto := false }) := by
    rw [resolveRelativeValues_properties _ _ _ _ _ _ (by decide) (by decide)]
    rw [fontSize_absent _ _ (by decide)]
    simp [resolveStep, property, setProperty_properties, empty,
      QVariant.canConvertCssLengthPercentage, QVariant.canConvertAutoLengthPercentage,
      QVariant.valueAutoLengthPercentage, KoSvgText.CssLengthPercentage.convertToAbsolute]
    norm_num
  refine ⟨by decide, h, ?_⟩
  rw [h]
  simp

/-- C10, amended: for every store that holds `LetterSpacingId` as the non-auto length 0.5em
and has no `FontSizeId` entry, whatever else it holds, `resolveRelativeValues(16, 8)` leaves
`LetterSpacingId` as the absolute length 6.0, which is 0.5 times the default font size 12.0
the store itself resolves to. -/
theorem resolveRelativeValues_letterSpacing (E : KoSvgText.Enumerators)
    (metrics : KoSvgTextProperties → ℚ) (s : KoSvgTextProperties)
    (hls : s.properties LetterSpacingId = some (QVariant.autoLengthPercentage
      { length := { value := 1 / 2, unit := KoSvgText.UnitType.Em }, isAuto := false }))
    (hfs : s.hasProperty FontSizeId = false) :
    (resolveRelativeValues E metrics s 16 8).properties LetterSpacingId
      = some (QVariant.autoLengthPercentage
          { length := { value := 6, unit := KoSvgText.UnitType.Absolute }, isAuto := false }) := by
  have hp : s.hasProperty LetterSpacingId = true := by simp [hasProperty, hls]
  rw [resolveRelativeValues_properties _ _ _ _ _ _ (by decide) hp]
  rw [fontSize_absent _ _ hfs]
  simp [resolveStep, property, hls, setProperty_properties,
    QVariant.canConvertCssLengthPercentage, QVariant.canConvertAutoLengthPercentage,
    QVariant.valueAutoLengthPercentage, KoSvgText.CssLengthPercentage.convertToAbsolute]
  norm_num

/-- Witness of the amended C10: a store with a font weight and the letter spacing 0.5em. -/
theorem resolveRelativeValues_letterSpacing_witness :
    ((empty.setProperty FontWeightId (QVariant.int 700)).setProperty LetterSpacingId
        (QVariant.autoLengthPercentage
          { length := { value := 1 / 2, unit := KoSvgText.UnitType.Em }, isAuto := false })).properties
        LetterSpacingId
        = some (QVariant.autoLengthPercentage
            { length := { value := 1 / 2, unit := KoSvgText.UnitType.Em }, isAuto := false })
      ∧ ((empty.setProperty FontWeightId (QVariant.int 700)).setProperty LetterSpacingId
          (QVariant.autoLengthPercentage
            { length := { value := 1 / 2, unit := KoSvgText.UnitType.Em },
              isAuto := false })).hasProperty FontSizeId = false
      ∧ (resolveRelativeValues KoSvgText.Enumerators.sample sampleMetrics
          ((empty.setProperty FontWeightId (QVariant.int 700)).setProperty LetterSpacingId
            (QVariant.autoLengthPercentage
              { length := { value := 1 / 2, unit := KoSvgText.UnitType.Em }, isAuto := false }))
          16 8).properties LetterSpacingId
        = some (QVariant.autoLengthPercentage
            { length := { value := 6, unit := KoSvgText.UnitType.Absolute }, isAuto := false }) :=
  ⟨rfl, by decide, resolveRelativeValues_letterSpacing _ _ _ rfl (by decide)⟩

end KoSvgTextProperties

/-! ## The default store against the parser -/

namespace KoSvgTextProperties

open PropertyId

theorem fanOut_fontVariant_hasProperty (E : KoSvgText.Enumerators) (s : KoSvgTextProperties)
    (id : PropertyId)
    (hid : id ∈ [FontVariantCommonLigId, FontVariantDiscretionaryLigId,
      FontVariantHistoricalLigId, FontVariantContextualAltId, FontVariantPositionId,
      FontVariantCapsId, FontVariantNumFigureId, FontVariantNumSpacingId, FontVariantNumFractId,
      FontVariantNumOrdinalId, FontVariantNumSlashedZeroId, FontVariantEastAsianVarId,
      FontVariantEastAsianWidthId, FontVariantRubyId, FontVariantHistoricalFormsId]) :
    (parseFontVariantFanOut E "font-variant" s E.FontVariantNormal).hasProperty id = true := by
  simp only [List.mem_cons, List.mem_singleton, List.not_mem_nil, or_false] at hid
  rcases hid with h | h | h | h | h | h | h | h | h | h | h | h | h | h | h <;> subst h <;>
    simp [parseFontVariantFanOut, hasProperty, setProperty_properties]
  all_goals (split <;> simp [setProperty_properties])

/-- C7, counterexample: parsing `overflow="visible"` on an empty store stores
`TextOverFlowId`, an id for which `defaultProperties()` has no entry, so that
`propertyOrDefault(TextOverFlowId)` on an empty store returns the null value. -/
theorem defaultProperties_textOverflow_counterexample :
    parseSvgTextAttribute KoSvgText.Enumerators.sample ParseHelpers.sample {} empty
        "overflow" "visible"
        = Except.ok (empty.setProperty TextOverFlowId (QVariant.int 0))
      ∧ (empty.setProperty TextOverFlowId (QVariant.int 0)).hasProperty TextOverFlowId = true
      ∧ (defaultProperties KoSvgText.Enumerators.sample).hasProperty TextOverFlowId = false
      ∧ propertyOrDefault KoSvgText.Enumerators.sample empty TextOverFlowId
        = QVariant.invalid :=
  ⟨rfl, rfl, rfl, rfl⟩

/-- C7, amended: the default store holds a non-null initial value for the thirty-nine ids its
constructor sets; for `TextOverFlowId`, `OverflowWrapId`, `FontFeatureSettingsId`,
`FontVariationSettingsId`, `TextIndentId`, `ShapePaddingId`, `ShapeMarginId`, `TextLanguage`
and the fifteen font-variant sub-property ids, each of which `parseSvgTextAttribute` can store,
it holds no entry and `propertyOrDefault` on an empty store returns the null value. -/
theorem defaultProperties_coverage (E : KoSvgText.Enumerators) (H : ParseHelpers)
    (context : SvgLoadingContext) :
    (∀ id ∈ [WritingModeId, DirectionId, UnicodeBidiId, TextAnchorId, DominantBaselineId,
        AlignmentBaselineId, BaselineShiftModeId, BaselineShiftValueId, KerningId,
        TextOrientationId, LetterSpacingId, WordSpacingId, FontFamiliesId, FontStyleId,
        FontStretchId, FontWeightId, FontSizeId, FontSizeAdjustId, FontSynthesisBoldId,
        FontSynthesisItalicId, FontSynthesisSmallCapsId, FontSynthesisSuperSubId,
        FontOpticalSizingId, TextDecorationLineId, TextDecorationPositionHorizontalId,
        TextDecorationPositionVerticalId, TextDecorationColorId, TextDecorationStyleId,
        TextCollapseId, TextWrapId, TextTrimId, LineBreakId, WordBreakId, TextAlignAllId,
        TextAlignLastId, TextTransformId, LineHeightId, TabSizeId, HangingPunctuationId],
        (defaultProperties E).hasProperty id = true
          ∧ (propertyOrDefault E empty id).isNull = false)
      ∧ (∀ id ∈ [TextOverFlowId, OverflowWrapId, FontFeatureSettingsId,
          FontVariationSettingsId, TextIndentId, ShapePaddingId, ShapeMarginId, TextLanguage],
          (∃ command value s, parseSvgTextAttribute E H context empty command value = Except.ok s
            ∧ s.hasProperty id = true)
          ∧ (defaultProperties E).hasProperty id = false
          ∧ propertyOrDefault E empty id = QVariant.invalid)
      ∧ (H.fontVariantStrings.lookup "normal" = some E.FontVariantNormal →
          ∀ id ∈ [FontVariantCommonLigId, FontVariantDiscretionaryLigId,
            FontVariantHistoricalLigId, FontVariantContextualAltId, FontVariantPositionId,
            FontVariantCapsId, FontVariantNumFigureId, FontVariantNumSpacingId,
            FontVariantNumFractId, FontVariantNumOrdinalId, FontVariantNumSlashedZeroId,
            FontVariantEastAsianVarId, FontVariantEastAsianWidthId, FontVariantRubyId,
            FontVariantHistoricalFormsId],
            (∃ s, parseSvgTextAttribute E H context empty "font-variant" "normal" = Except.ok s
              ∧ s.hasProperty id = true)
            ∧ (defaultProperties E).hasProperty id = false
            ∧ propertyOrDefault E empty id = QVariant.invalid) := by
  refine ⟨?_, ?_, ?_⟩
  · intro id hid
    simp only [List.mem_cons, List.mem_singleton, List.not_mem_nil, or_false] at hid
    rcases hid with h | h | h | h | h | h | h | h | h | h | h | h | h | h | h | h | h | h | h
      | h | h | h | h | h | h | h | h | h | h | h | h | h | h | h | h | h | h | h | h <;>
      subst h <;> exact ⟨rfl, rfl⟩
  · intro id hid
    simp only [List.mem_cons, List.mem_singleton, List.not_mem_nil, or_false] at hid
    rcases hid with h | h | h | h | h | h | h | h <;> subst h
    · exact ⟨⟨"overflow", "visible", _, rfl, rfl⟩, rfl, rfl⟩
    · exact ⟨⟨"overflow-wrap", "anywhere", _, rfl, rfl⟩, rfl, rfl⟩
    · exact ⟨⟨"font-feature-settings", "", _, rfl, rfl⟩, rfl, rfl⟩
    · exact ⟨⟨"font-variation-settings", "", _, rfl, rfl⟩, rfl, rfl⟩
    · exact ⟨⟨"text-indent", "", _, rfl, rfl⟩, rfl, rfl⟩
    · exact ⟨⟨"shape-padding", "", _, rfl, rfl⟩, rfl, rfl⟩
    · exact ⟨⟨"shape-margin", "", _, rfl, rfl⟩, rfl, rfl⟩
    · exact ⟨⟨"xml:lang", "", _, rfl, rfl⟩, rfl, rfl⟩
  · intro htable id hid
    have hparse : parseSvgTextAttribute E H context empty "font-variant" "normal"
        = Except.ok (parseFontVariantFanOut E "font-variant"
            (parseFontVariantKeyword E empty E.FontVariantNormal) E.FontVariantNormal) := by
      have hsplit : QString.split "normal" " " = ["normal"] := by decide
      have hkey : (QString.split "normal" "(").headD "" = "normal" := by decide
      have hv : featureMapValue H "normal" = E.FontVariantNormal := by
        simp [featureMapValue, htable]
      have hstep : parseFontVariantStep E H "font-variant" empty "normal"
          = parseFontVariantFanOut E "font-variant"
              (parseFontVariantKeyword E empty E.FontVariantNormal) E.FontVariantNormal := by
        simp only [parseFontVariantStep, hkey, hv, parseFontVariantFeature]
      have h1 : parseSvgTextAttribute E H context empty "font-variant" "normal"
          = Except.ok ((QString.split "normal" " ").foldl
              (parseFontVariantStep E H "font-variant") empty) := rfl
      rw [h1, hsplit, List.foldl_cons, List.foldl_nil, hstep]
    refine ⟨⟨_, hparse, fanOut_fontVariant_hasProperty E _ id hid⟩, ?_⟩
    simp only [List.mem_cons, List.mem_singleton, List.not_mem_nil, or_false] at hid
    rcases hid with h | h | h | h | h | h | h | h | h | h | h | h | h | h | h <;>
      subst h <;> exact ⟨rfl, rfl⟩

end KoSvgTextProperties

/-! ## Relative-unit resolution: the two phases and what is left alone -/

namespace KoSvgTextProperties

open PropertyId

/-- The `FontSizeId` entry after `resolveRelativeValues`: the store's font size, resolved
against the metrics passed in. -/
theorem resolveRelativeValues_fontSize (E : KoSvgText.Enumerators)
    (metrics : KoSvgTextProperties → ℚ) (s : KoSvgTextProperties) (fontSize xHeight : ℚ) :
    (resolveRelativeValues E metrics s fontSize xHeight).properties FontSizeId
      = some (QVariant.lengthPercentage ((s.fontSize E).convertToAbsolute fontSize xHeight)) := by
  simp only [resolveRelativeValues]
  rw [resolveLoop_properties]
  simp [hasProperty, setFontSize, setProperty_properties, resolveStep, property,
    QVariant.canConvertCssLengthPercentage, QVariant.canConvertAutoLengthPercentage]

theorem fontSize_of_length (E : KoSvgText.Enumerators) (s : KoSvgTextProperties)
    (l : KoSvgText.CssLengthPercentage)
    (h : s.properties FontSizeId = some (QVariant.lengthPercentage l)) : s.fontSize E = l := by
  simp [fontSize, propertyOrDefault, property, h, QVariant.isNull,
    QVariant.valueCssLengthPercentage]

/-- C11: for a store whose `FontSizeId` is `k` em, `resolveRelativeValues(fontSize, xHeight)`
leaves `FontSizeId` as the absolute length `k × fontSize`, and turns a length of `L` em held
by another property (a plain length, a non-auto auto-length, a length line-height, a length
tab-size, a text-indent) into the absolute length `L × (k × fontSize)`. -/
theorem resolveRelativeValues_twoPhase (E : KoSvgText.Enumerators)
    (metrics : KoSvgTextProperties → ℚ) (s : KoSvgTextProperties) (fontSize xHeight k L : ℚ)
    (hfs : s.properties FontSizeId
      = some (QVariant.lengthPercentage { value := k, unit := KoSvgText.UnitType.Em })) :
    (resolveRelativeValues E metrics s fontSize xHeight).properties FontSizeId
        = some (QVariant.lengthPercentage
            { value := k * fontSize, unit := KoSvgText.UnitType.Absolute })
      ∧ (∀ j, j ≠ FontSizeId →
          s.properties j
            = some (QVariant.lengthPercentage { value := L, unit := KoSvgText.UnitType.Em }) →
          (resolveRelativeValues E metrics s fontSize xHeight).properties j
            = some (QVariant.lengthPercentage
                { value := L * (k * fontSize), unit := KoSvgText.UnitType.Absolute }))
      ∧ (∀ j, s.properties j
            = some (QVariant.autoLengthPercentage
                { length := { value := L, unit := KoSvgText.UnitType.Em }, isAuto := false }) →
          (resolveRelativeValues E metrics s fontSize xHeight).properties j
            = some (QVariant.autoLengthPercentage
                { length := { value := L * (k * fontSize), unit := KoSvgText.UnitType.Absolute },
                  isAuto := false }))
      ∧ (∀ v, s.properties LineHeightId
            = some (QVariant.lineHeight
                { value := v, length := { value := L, unit := KoSvgText.UnitType.Em },
                  isNumber := false, isNormal := false }) →
          (resolveRelativeValues E metrics s fontSize xHeight).properties LineHeightId
            = some (QVariant.lineHeight
                { value := v,
                  length := { value := L * (k * fontSize), unit := KoSvgText.UnitType.Absolute },
                  isNumber := false, isNormal := false }))
      ∧ (∀ v, s.properties TabSizeId
            = some (QVariant.tabSize
                { value := v, length := { value := L, unit := KoSvgText.UnitType.Em },
                  isNumber := false }) →
          (resolveRelativeValues E metrics s fontSize xHeight).properties TabSizeId
            = some (QVariant.tabSize
                { value := v,
                  length := { value := L * (k * fontSize), unit := KoSvgText.UnitType.Absolute },
                  isNumber := false }))
      ∧ (∀ hanging eachLine, s.properties TextIndentId
            = some (QVariant.textIndent
                { length := { value := L, unit := KoSvgText.UnitType.Em },
                  hanging := hanging, eachLine := eachLine }) →
          (resolveRelativeValues E metrics s fontSize xHeight).properties TextIndentId
            = some (QVariant.textIndent
                { length := { value := L * (k * fontSize), unit := KoSvgText.UnitType.Absolute },
                  hanging := hanging, eachLine := eachLine })) := by
  have hsize : s.fontSize E = { value := k, unit := KoSvgText.UnitType.Em } :=
    fontSize_of_length E s _ hfs
  refine ⟨?_, ?_, ?_, ?_, ?_, ?_⟩
  · rw [resolveRelativeValues_fontSize, hsize]
    rfl
  · intro j hj hv
    have hp : s.hasProperty j = true := by simp [hasProperty, hv]
    rw [resolveRelativeValues_properties _ _ _ _ _ _ hj hp, hsize]
    simp [resolveStep, property, hv, hj, setProperty_properties,
      QVariant.canConvertCssLengthPercentage, QVariant.valueCssLengthPercentage,
      KoSvgText.CssLengthPercentage.convertToAbsolute]
  · intro j hv
    have hj : j ≠ FontSizeId := by
      intro h
      rw [h, hfs] at hv
      exact QVariant.noConfusion (Option.some.inj hv)
    have hp : s.hasProperty j = true := by simp [hasProperty, hv]
    rw [resolveRelativeValues_properties _ _ _ _ _ _ hj hp, hsize]
    simp [resolveStep, property, hv, setProperty_properties,
      QVariant.canConvertCssLengthPercentage, QVariant.canConvertAutoLengthPercentage,
      QVariant.valueAutoLengthPercentage, KoSvgText.CssLengthPercentage.convertToAbsolute]
  · intro v hv
    have hp : s.hasProperty LineHeightId = true := by simp [hasProperty, hv]
    rw [resolveRelativeValues_properties _ _ _ _ _ _ (by decide) hp, hsize]
    simp [resolveStep, property, hv, setProperty_properties,
      QVariant.canConvertCssLengthPercentage, QVariant.canConvertAutoLengthPercentage,
      QVariant.valueLineHeightInfo, KoSvgText.CssLengthPercentage.convertToAbsolute]
  · intro v hv
    have hp : s.hasProperty TabSizeId = true := by simp [hasProperty, hv]
    rw [resolveRelativeValues_properties _ _ _ _ _ _ (by decide) hp, hsize]
    simp [resolveStep, property, hv, setProperty_properties,
      QVariant.canConvertCssLengthPercentage, QVariant.canConvertAutoLengthPercentage,
      QVariant.valueTabSizeInfo, KoSvgText.CssLengthPercentage.convertToAbsolute]
  · intro hanging eachLine hv
    have hp : s.hasProperty TextIndentId = true := by simp [hasProperty, hv]
    rw [resolveRelativeValues_properties _ _ _ _ _ _ (by decide) hp, hsize]
    simp [resolveStep, property, hv, setProperty_properties,
      QVariant.canConvertCssLengthPercentage, QVariant.canConvertAutoLengthPercentage,
      QVariant.valueTextIndentInfo, KoSvgText.CssLengthPercentage.convertToAbsolute]

/-- Witness of C11: font size 2em and letter spacing 0.5em, resolved with `(16, 8)`. -/
theorem resolveRelativeValues_twoPhase_witness :
    ((empty.setProperty FontSizeId
        (QVariant.lengthPercentage { value := 2, unit := KoSvgText.UnitType.Em })).setProperty
        LetterSpacingId (QVariant.autoLengthPercentage
          { length := { value := 1 / 2, unit := KoSvgText.UnitType.Em },
            isAuto := false })).properties FontSizeId
        = some (QVariant.lengthPercentage { value := 2, unit := KoSvgText.UnitType.Em })
      ∧ (resolveRelativeValues KoSvgText.Enumerators.sample sampleMetrics
          ((empty.setProperty FontSizeId
            (QVariant.lengthPercentage { value := 2, unit := KoSvgText.UnitType.Em })).setProperty
            LetterSpacingId (QVariant.autoLengthPercentage
              { length := { value := 1 / 2, unit := KoSvgText.UnitType.Em }, isAuto := false }))
          16 8).properties FontSizeId
        = some (QVariant.lengthPercentage
            { value := 2 * 16, unit := KoSvgText.UnitType.Absolute })
      ∧ (resolveRelativeValues KoSvgText.Enumerators.sample sampleMetrics
          ((empty.setProperty FontSizeId
            (QVariant.lengthPercentage { value := 2, unit := KoSvgText.UnitType.Em })).setProperty
            LetterSpacingId (QVariant.autoLengthPercentage
              { length := { value := 1 / 2, unit := KoSvgText.UnitType.Em }, isAuto := false }))
          16 8).properties LetterSpacingId
        = some (QVariant.autoLengthPercentage
            { length := { value := 1 / 2 * (2 * 16), unit := KoSvgText.UnitType.Absolute },
              isAuto := false }) :=
  ⟨rfl,
    (resolveRelativeValues_twoPhase KoSvgText.Enumerators.sample sampleMetrics _ 16 8 2 (1 / 2)
      rfl).1,
    (resolveRelativeValues_twoPhase KoSvgText.Enumerators.sample sampleMetrics _ 16 8 2 (1 / 2)
      rfl).2.2.1 LetterSpacingId rfl⟩

/-- C12: `resolveRelativeValues` adds or removes no id other than `FontSizeId`, and leaves
unchanged a `TextIndentId` whose length is a percentage, a `LineHeightId` that is normal or a
plain number, a `TabSizeId` that is a plain number, every auto-length that is auto, and every
entry that holds no length: a value that is no length, auto-length, line height, tab size or
text indent. (`FontSizeId` and `TextIndentId` are the two ids whose entry the function always
writes, as a length and as a text indent; the last two clauses are about the other ids.) -/
theorem resolveRelativeValues_frame (E : KoSvgText.Enumerators)
    (metrics : KoSvgTextProperties → ℚ) (s : KoSvgTextProperties) (fontSize xHeight : ℚ) :
    (∀ j, j ≠ FontSizeId →
        (resolveRelativeValues E metrics s fontSize xHeight).hasProperty j = s.hasProperty j)
      ∧ (∀ t : KoSvgText.TextIndentInfo, t.length.unit = KoSvgText.UnitType.Percentage →
          s.properties TextIndentId = some (QVariant.textIndent t) →
          (resolveRelativeValues E metrics s fontSize xHeight).properties TextIndentId
            = some (QVariant.textIndent t))
      ∧ (∀ l : KoSvgText.LineHeightInfo, (l.isNormal = true ∨ l.isNumber = true) →
          s.properties LineHeightId = some (QVariant.lineHeight l) →
          (resolveRelativeValues E metrics s fontSize xHeight).properties LineHeightId
            = some (QVariant.lineHeight l))
      ∧ (∀ t : KoSvgText.TabSizeInfo, t.isNumber = true →
          s.properties TabSizeId = some (QVariant.tabSize t) →
          (resolveRelativeValues E metrics s fontSize xHeight).properties TabSizeId
            = some (QVariant.tabSize t))
      ∧ (∀ j (a : KoSvgText.AutoLengthPercentage), j ≠ FontSizeId → a.isAuto = true →
          s.properties j = some (QVariant.autoLengthPercentage a) →
          (resolveRelativeValues E metrics s fontSize xHeight).properties j
            = some (QVariant.autoLengthPercentage a))
      ∧ (∀ j v, j ≠ FontSizeId → j ≠ TextIndentId →
          (∀ l, v ≠ QVariant.lengthPercentage l) → (∀ a, v ≠ QVariant.autoLengthPercentage a) →
          (∀ l, v ≠ QVariant.lineHeight l) → (∀ t, v ≠ QVariant.tabSize t) →
          (∀ t, v ≠ QVariant.textIndent t) →
          s.properties j = some v →
          (resolveRelativeValues E metrics s fontSize xHeight).properties j = some v) := by
  refine ⟨?_, ?_, ?_, ?_, ?_, ?_⟩
  · intro j hj
    rw [resolveRelativeValues_hasProperty]
    simp [hj]
  · intro t ht hv
    have hp : s.hasProperty TextIndentId = true := by simp [hasProperty, hv]
    rw [resolveRelativeValues_properties _ _ _ _ _ _ (by decide) hp]
    simp [resolveStep, property, hv, ht, setProperty_properties,
      QVariant.canConvertCssLengthPercentage, QVariant.canConvertAutoLengthPercentage,
      QVariant.valueTextIndentInfo]
  · intro l hl hv
    have hp : s.hasProperty LineHeightId = true := by simp [hasProperty, hv]
    rw [resolveRelativeValues_properties _ _ _ _ _ _ (by decide) hp]
    rcases hl with hl | hl <;>
      simp [resolveStep, property, hv, hl, setProperty_properties,
        QVariant.canConvertCssLengthPercentage, QVariant.canConvertAutoLengthPercentage,
        QVariant.valueLineHeightInfo]
  · intro t ht hv
    have hp : s.hasProperty TabSizeId = true := by simp [hasProperty, hv]
    rw [resolveRelativeValues_properties _ _ _ _ _ _ (by decide) hp]
    simp [resolveStep, property, hv, ht, setProperty_properties,
      QVariant.canConvertCssLengthPercentage, QVariant.canConvertAutoLengthPercentage,
      QVariant.valueTabSizeInfo]
  · intro j a hj ha hv
    have hp : s.hasProperty j = true := by simp [hasProperty, hv]
    rw [resolveRelativeValues_properties _ _ _ _ _ _ hj hp]
    simp [resolveStep, property, hv, ha, setProperty_properties,
      QVariant.canConvertCssLengthPercentage, QVariant.canConvertAutoLengthPercentage,
      QVariant.valueAutoLengthPercentage]
  · intro j v hj hti h1 h2 h3 h4 h5 hv
    have hp : s.hasProperty j = true := by simp [hasProperty, hv]
    rw [resolveRelativeValues_properties _ _ _ _ _ _ hj hp]
    cases v <;>
      first
      | exact absurd rfl (h1 _)
      | exact absurd rfl (h2 _)
      | exact absurd rfl (h3 _)
      | exact absurd rfl (h4 _)
      | exact absurd rfl (h5 _)
      | simp [resolveStep, property, hv, hti, setProperty_properties,
          QVariant.canConvertCssLengthPercentage, QVariant.canConvertAutoLengthPercentage,
          QVariant.valueLineHeightInfo, QVariant.valueTabSizeInfo]

end KoSvgTextProperties

/-! ## The parser: single-property branches -/

namespace KoSvgTextProperties

open PropertyId

/-- C13: parsing `glyph-orientation-vertical` sets `TextOrientationId` and nothing else when the
lower-cased value is one of `auto`, `0`, `0deg`, `90`, `90deg`, and returns the store unchanged,
without failing, for every other value. -/
theorem parse_glyphOrientationVertical (E : KoSvgText.Enumerators) (H : ParseHelpers)
    (context : SvgLoadingContext) (s : KoSvgTextProperties) (value : String) :
    (QString.toLower value ∈ ["auto", "0", "0deg", "90", "90deg"] →
        ∃ orientation, parseSvgTextAttribute E H context s "glyph-orientation-vertical" value
          = Except.ok (s.setProperty TextOrientationId (QVariant.int orientation)))
      ∧ (QString.toLower value ∉ ["auto", "0", "0deg", "90", "90deg"] →
          parseSvgTextAttribute E H context s "glyph-orientation-vertical" value
            = Except.ok s) := by
  have h : parseSvgTextAttribute E H context s "glyph-orientation-vertical" value
      = (if ["auto", "0", "0deg", "90", "90deg"].contains (QString.toLower value) then
          Except.ok (s.setProperty TextOrientationId (QVariant.int
            (H.parseTextOrientationFromGlyphOrientation
              (if !(H.parseAutoValueAngular value context).isAuto then
                { H.parseAutoValueAngular value context with
                  customValue := H.kisRadiansToDegrees
                    (roundToStraightAngle H (H.parseAutoValueAngular value context).customValue) }
              else H.parseAutoValueAngular value context))))
        else Except.ok s) := rfl
  constructor
  · intro hmem
    have hc : ["auto", "0", "0deg", "90", "90deg"].contains (QString.toLower value) = true := by
      simpa using hmem
    rw [h, if_pos hc]
    exact ⟨_, rfl⟩
  · intro hmem
    have hc : ¬ ["auto", "0", "0deg", "90", "90deg"].contains (QString.toLower value) = true := by
      simpa using hmem
    rw [h, if_neg hc]

/-- C19: parsing `xml:space` sets `TextCollapseId` and changes no other id; parsing
`white-space` sets the three ids `TextCollapseId`, `TextWrapId` and `TextTrimId` and changes
no other id. -/
theorem parse_whiteSpace_frame (E : KoSvgText.Enumerators) (H : ParseHelpers)
    (context : SvgLoadingContext) (s : KoSvgTextProperties) (value : String) :
    (∃ r, parseSvgTextAttribute E H context s "xml:space" value = Except.ok r
        ∧ r.hasProperty TextCollapseId = true
        ∧ ∀ j, j ≠ TextCollapseId → r.properties j = s.properties j)
      ∧ (∃ r, parseSvgTextAttribute E H context s "white-space" value = Except.ok r
          ∧ r.hasProperty TextCollapseId = true ∧ r.hasProperty TextWrapId = true
          ∧ r.hasProperty TextTrimId = true
          ∧ ∀ j, j ≠ TextCollapseId → j ≠ TextWrapId → j ≠ TextTrimId →
              r.properties j = s.properties j) := by
  constructor
  · refine ⟨_, rfl, ?_, ?_⟩
    · simp [hasProperty, setProperty_properties]
    · intro j hj
      simp [setProperty_properties, hj]
  · refine ⟨_, rfl, ?_, ?_, ?_, ?_⟩
    · simp [hasProperty, setProperty_properties]
    · simp [hasProperty, setProperty_properties]
    · simp [hasProperty, setProperty_properties]
    · intro j h1 h2 h3
      simp [setProperty_properties, h1, h2, h3]

end KoSvgTextProperties

/-! ## The parser: text-decoration -/

namespace KoSvgTextProperties

open PropertyId

theorem parseTextDecorationStep_deco (E : KoSvgText.Enumerators) (H : ParseHelpers)
    (v : TextDecorationLocals) (param : String) :
    (parseTextDecorationStep E H v param).deco
      = { underline := v.deco.underline || param == "underline"
          overline := v.deco.overline || param == "overline"
          lineThrough := v.deco.lineThrough || param == "line-through" } := by
  obtain ⟨⟨u, o, l⟩, st, ph, pv, c, sp⟩ := v
  by_cases h1 : param = "line-through"
  · subst h1
    simp [parseTextDecorationStep]
  · by_cases h2 : param = "underline"
    · subst h2
      simp [parseTextDecorationStep]
    · by_cases h3 : param = "overline"
      · subst h3
        simp [parseTextDecorationStep]
      · simp [parseTextDecorationStep, h1, h2, h3, apply_ite TextDecorationLocals.deco]

theorem parseTextDecorationLoop_deco (E : KoSvgText.Enumerators) (H : ParseHelpers)
    (tokens : List String) (v : TextDecorationLocals) :
    (tokens.foldl (parseTextDecorationStep E H) v).deco
      = { underline := v.deco.underline || tokens.contains "underline"
          overline := v.deco.overline || tokens.contains "overline"
          lineThrough := v.deco.lineThrough || tokens.contains "line-through" } := by
  induction tokens generalizing v with
  | nil => simp
  | cons t ts ih =>
    rw [List.foldl_cons, ih, parseTextDecorationStep_deco]
    have hc : ∀ k : String, (t :: ts).contains k = (t == k || ts.contains k) := by
      intro k
      rw [List.contains_cons, BEq.comm]
    simp only [hc, Bool.or_assoc]

/-- C16: after parsing `text-decoration` or `text-decoration-line` with `v`,
`TextDecorationLineId` holds exactly the flags named by the tokens `underline`, `overline` and
`line-through` among the space-separated tokens of `v`, whatever line flags were stored
before. -/
theorem parse_textDecoration_line (E : KoSvgText.Enumerators) (H : ParseHelpers)
    (context : SvgLoadingContext) (s : KoSvgTextProperties) (v : String) :
    (∃ r, parseSvgTextAttribute E H context s "text-decoration" v = Except.ok r
        ∧ r.properties TextDecorationLineId = some (QVariant.textDecorations
            { underline := (QString.splitSkipEmptyParts v " ").contains "underline"
              overline := (QString.splitSkipEmptyParts v " ").contains "overline"
              lineThrough := (QString.splitSkipEmptyParts v " ").contains "line-through" }))
      ∧ (∃ r, parseSvgTextAttribute E H context s "text-decoration-line" v = Except.ok r
          ∧ r.properties TextDecorationLineId = some (QVariant.textDecorations
              { underline := (QString.splitSkipEmptyParts v " ").contains "underline"
                overline := (QString.splitSkipEmptyParts v " ").contains "overline"
                lineThrough := (QString.splitSkipEmptyParts v " ").contains "line-through" })) := by
  constructor
  · refine ⟨parseTextDecoration E H s "text-decoration" v, rfl, ?_⟩
    simp only [parseTextDecoration, parseTextDecorationLoop_deco]
    simp [setProperty_properties]
    split <;> simp [setProperty_properties]
  · refine ⟨parseTextDecoration E H s "text-decoration-line" v, rfl, ?_⟩
    simp only [parseTextDecoration, parseTextDecorationLoop_deco]
    simp [setProperty_properties]

/-- C17, counterexample: on an empty store, parsing `text-decoration-color` with the value
`notacolor`, which holds no valid colour token, stores a `TextDecorationColorId` entry (the
invalid colour): the id was absent and is present afterwards. -/
theorem parse_textDecorationColor_counterexample :
    ParseHelpers.sample.isValidColor "notacolor" = false
      ∧ empty.hasProperty TextDecorationColorId = false
      ∧ parseSvgTextAttribute KoSvgText.Enumerators.sample ParseHelpers.sample {} empty
          "text-decoration-color" "notacolor"
        = Except.ok (empty.setProperty TextDecorationColorId (QVariant.color {}))
      ∧ (empty.setProperty TextDecorationColorId (QVariant.color {})).hasProperty
          TextDecorationColorId = true :=
  ⟨rfl, rfl, rfl, rfl⟩

/-- C17, amended: parsing `text-decoration-color` or the `text-decoration` shorthand never
fails and always leaves `TextDecorationColorId` present, holding a colour value, also when the
value holds no valid colour token and also when the id was absent before. -/
theorem parse_textDecoration_color (E : KoSvgText.Enumerators) (H : ParseHelpers)
    (context : SvgLoadingContext) (s : KoSvgTextProperties) (v : String) :
    (∃ r c, parseSvgTextAttribute E H context s "text-decoration-color" v = Except.ok r
        ∧ r.properties TextDecorationColorId = some (QVariant.color c))
      ∧ (∃ r c, parseSvgTextAttribute E H context s "text-decoration" v = Except.ok r
          ∧ r.properties TextDecorationColorId = some (QVariant.color c)) := by
  constructor
  · have h : ∃ c, (parseTextDecoration E H s "text-decoration-color" v).properties
        TextDecorationColorId = some (QVariant.color c) := by
      simp [parseTextDecoration, setProperty_properties]
    obtain ⟨c, hc⟩ := h
    exact ⟨_, c, rfl, hc⟩
  · have h : ∃ c, (parseTextDecoration E H s "text-decoration" v).properties
        TextDecorationColorId = some (QVariant.color c) := by
      simp only [parseTextDecoration]
      simp [setProperty_properties]
      split <;> simp [setProperty_properties]
    obtain ⟨c, hc⟩ := h
    exact ⟨_, c, rfl, hc⟩

end KoSvgTextProperties

/-! ## The parser: vertical-align -/

namespace KoSvgTextProperties

open PropertyId

theorem foldlM_ok_eq_foldl {α : Type}
    (f : KoSvgTextProperties → α → Except ParseFailure KoSvgTextProperties)
    (g : KoSvgTextProperties → α → KoSvgTextProperties)
    (h : ∀ acc a, f acc a = Except.ok (g acc a)) (l : List α) (s : KoSvgTextProperties) :
    l.foldlM f s = Except.ok (l.foldl g s) := by
  induction l generalizing s with
  | nil => rfl
  | cons a t ih =>
    rw [List.foldlM_cons, h, List.foldl_cons]
    exact ih (g s a)

/-- Compiled against Qt 5, the `vertical-align` branch is the token-by-token reading of the
specification: the test for a digit is `param.contains(digits)`. -/
theorem parse_verticalAlign_qt5 (E : KoSvgText.Enumerators) (H : ParseHelpers)
    (context : SvgLoadingContext) (s : KoSvgTextProperties) (v : String)
    (hqt : H.qtVersionMajor < 6) :
    parseSvgTextAttribute E H context s "vertical-align" v
      = verticalAlignBySpec E H context s v := by
  have h1 : parseSvgTextAttribute E H context s "vertical-align" v
      = Except.ok ((QString.splitSkipEmptyParts v " ").foldl
          (parseVerticalAlignStep E H context) s) := rfl
  rw [h1, verticalAlignBySpec]
  symm
  apply foldlM_ok_eq_foldl
  intro acc t
  have hb : parseSvgTextAttribute E H context acc "baseline-shift" t
      = Except.ok (parseBaselineShift E H context acc t) := rfl
  have ha : parseSvgTextAttribute E H context acc "alignment-baseline" t
      = Except.ok (parseAlignmentBaseline H acc t) := rfl
  rw [hb, ha]
  simp only [parseVerticalAlignStep, hqt, if_true]
  split <;> rfl

/-- C18, the code at the failing input: compiled against Qt 6, parsing `vertical-align` with
the value `10%` on an empty store parses `alignment-baseline`, because the test
`digits.indexIn(param) > 0` misses the digit at index 0; the token-by-token reading, and the
same source compiled against Qt 5, parse `baseline-shift`. -/
theorem parse_verticalAlign_qt6_leadingDigit :
    parseSvgTextAttribute KoSvgText.Enumerators.sample ParseHelpers.sampleQt6 {} empty
        "vertical-align" "10%"
        = Except.ok (empty.setProperty AlignmentBaselineId (QVariant.int 0))
      ∧ verticalAlignBySpec KoSvgText.Enumerators.sample ParseHelpers.sampleQt6 {} empty "10%"
        = Except.ok (empty.setProperty BaselineShiftModeId (QVariant.int 0))
      ∧ parseSvgTextAttribute KoSvgText.Enumerators.sample ParseHelpers.sample {} empty
          "vertical-align" "10%"
        = Except.ok (empty.setProperty BaselineShiftModeId (QVariant.int 0))
      ∧ (empty.setProperty AlignmentBaselineId (QVariant.int 0)).hasProperty BaselineShiftModeId
        = false
      ∧ (empty.setProperty BaselineShiftModeId (QVariant.int 0)).hasProperty BaselineShiftModeId
        = true :=
  ⟨rfl, rfl, rfl, rfl, rfl⟩

end KoSvgTextProperties

/-! ## The parser: font-variation-settings against the serializer -/

namespace KoSvgTextProperties

open PropertyId

/-- No entry is stored when no piece of the list is a 6-character quoted tag: the tag stays
empty, and a number is only stored under a tag. -/
theorem parseVariantStringList_no_tag (H : ParseHelpers) (features : List String)
    (h : ∀ item ∈ features,
      ((QString.startsWith (QString.trimmed item) (Char.ofNat 39)
          || QString.startsWith (QString.trimmed item) (Char.ofNat 34))
        && QString.size (QString.trimmed item) == 6) = false) :
    parseVariantStringList H features = [] := by
  have hfold : ∀ l : List String, (∀ item ∈ l,
      ((QString.startsWith (QString.trimmed item) (Char.ofNat 39)
          || QString.startsWith (QString.trimmed item) (Char.ofNat 34))
        && QString.size (QString.trimmed item) == 6) = false) →
      l.foldl (parseVariantStringListStep H) ([], "") = ([], "") := by
    intro l
    induction l with
    | nil => intro _; rfl
    | cons a t ih =>
      intro hl
      have ha := hl a (List.mem_cons_self a t)
      have hstep : parseVariantStringListStep H ([], "") a = ([], "") := by
        simp only [parseVariantStringListStep, ha]
        cases H.stringToDouble (QString.trimmed a) <;> simp
      rw [List.foldl_cons, hstep]
      exact ih (fun item hi => hl item (List.mem_cons_of_mem a hi))
  simp [parseVariantStringList, hfold features h]

/-- C20, the code at the failing input: for the map `{wght: 700, wdth: 80}` the serializer
emits `'wght' 700, 'wdth' 80`; parsing that value with `font-variation-settings` stores the
empty map, whatever the helper functions do, because no piece of `value.split(", ")` is a
6-character quoted tag. -/
theorem parse_fontVariationSettings_roundTrip_fails (E : KoSvgText.Enumerators)
    (H : ParseHelpers) (context : SvgLoadingContext) (s : KoSvgTextProperties) :
    writeFontVariationSettings WriteHelpers.sample [("wght", 700), ("wdth", 80)]
        = "'wght' 700, 'wdth' 80"
      ∧ parseSvgTextAttribute E H context s "font-variation-settings" "'wght' 700, 'wdth' 80"
        = Except.ok (s.setProperty FontVariationSettingsId (QVariant.hash [])) := by
  refine ⟨rfl, ?_⟩
  have h1 : parseSvgTextAttribute E H context s "font-variation-settings"
      "'wght' 700, 'wdth' 80"
      = Except.ok (s.setProperty FontVariationSettingsId (QVariant.hash
          (parseVariantStringList H (QString.split "'wght' 700, 'wdth' 80" ", ")))) := rfl
  have hsplit : QString.split "'wght' 700, 'wdth' 80" ", " = ["'wght' 700", "'wdth' 80"] := by
    decide
  rw [h1, hsplit, parseVariantStringList_no_tag]
  intro item hitem
  simp only [List.mem_cons, List.mem_singleton, List.not_mem_nil, or_false] at hitem
  rcases hitem with h | h <;> subst h <;> decide

end KoSvgTextProperties

/-! ## The parser: font-variant -/

namespace KoSvgTextProperties

open PropertyId

theorem overlays_id : Overlays (fun s => s) := by
  intro s j
  simp [empty]

theorem overlays_setProperty (g : KoSvgTextProperties → KoSvgTextProperties) (k : PropertyId)
    (v : QVariant) (hg : Overlays g) : Overlays (fun s => (g s).setProperty k v) := by
  intro s j
  simp only [setProperty_properties]
  by_cases hjk : j = k
  · simp [hjk]
  · simp only [hjk, if_false]
    exact hg s j

theorem overlays_ite (c : Prop) [Decidable c] (g1 g2 : KoSvgTextProperties → KoSvgTextProperties)
    (h1 : Overlays g1) (h2 : Overlays g2) : Overlays (fun s => if c then g1 s else g2 s) := by
  intro s j
  by_cases hc : c
  · simp only [hc, if_true]
    exact h1 s j
  · simp only [hc, if_false]
    exact h2 s j

theorem overlays_comp (f g : KoSvgTextProperties → KoSvgTextProperties) (hf : Overlays f)
    (hg : Overlays g) : Overlays (fun s => g (f s)) := by
  intro s j
  show (g (f s)).properties j = ((g (f empty)).properties j).or (s.properties j)
  rw [hg (f s) j, hg (f empty) j, hf s j, Option.or_assoc]

theorem overlays_foldl {α : Type} (step : KoSvgTextProperties → α → KoSvgTextProperties)
    (hstep : ∀ a, Overlays (fun s => step s a)) (l : List α) :
    Overlays (fun s => l.foldl step s) := by
  induction l with
  | nil => exact overlays_id
  | cons a t ih => exact overlays_comp (fun s => step s a) (fun s => t.foldl step s) (hstep a) ih

theorem overlays_condSet (c : Prop) [Decidable c] (k : PropertyId) (v : QVariant) :
    Overlays (fun s => if c then s.setProperty k v else s) :=
  overlays_ite c _ _ (overlays_setProperty _ k v overlays_id) overlays_id

theorem parseFontVariantKeyword_overlays (E : KoSvgText.Enumerators) (feature : Int) :
    Overlays (fun s => parseFontVariantKeyword E s feature) := by
  have h1 : Overlays (fun s =>
      if (feature == E.CommonLigatures || feature == E.NoCommonLigatures) = true then
        s.setProperty FontVariantCommonLigId (QVariant.int feature)
      else if (feature == E.DiscretionaryLigatures || feature == E.NoDiscretionaryLigatures)
          = true then
        s.setProperty FontVariantDiscretionaryLigId (QVariant.int feature)
      else if (feature == E.HistoricalLigatures || feature == E.NoHistoricalLigatures) = true then
        s.setProperty FontVariantHistoricalLigId (QVariant.int feature)
      else if (feature == E.ContextualAlternates || feature == E.NoContextualAlternates)
          = true then
        s.setProperty FontVariantContextualAltId (QVariant.int feature)
      else s) :=
    overlays_ite _ _ _ (overlays_setProperty _ _ _ overlays_id)
      (overlays_ite _ _ _ (overlays_setProperty _ _ _ overlays_id)
        (overlays_ite _ _ _ (overlays_setProperty _ _ _ overlays_id)
          (overlays_condSet _ _ _)))
  exact overlays_comp _ _ (overlays_comp _ _ (overlays_comp _ _ (overlays_comp _ _
    (overlays_comp _ _ (overlays_comp _ _ (overlays_comp _ _ (overlays_comp _ _
    (overlays_comp _ _ (overlays_comp _ _ (overlays_comp _ _ h1
      (overlays_condSet _ _ _)) (overlays_condSet _ _ _)) (overlays_condSet _ _ _))
      (overlays_condSet _ _ _)) (overlays_condSet _ _ _)) (overlays_condSet _ _ _))
      (overlays_condSet _ _ _)) (overlays_condSet _ _ _)) (overlays_condSet _ _ _))
      (overlays_condSet _ _ _)) (overlays_condSet _ _ _)

theorem parseFontVariantFanOut_overlays (E : KoSvgText.Enumerators) (command : String)
    (feature : Int) : Overlays (fun s => parseFontVariantFanOut E command s feature) := by
  have hset2 : ∀ (k1 k2 : PropertyId) (v1 v2 : QVariant),
      Overlays (fun s => (s.setProperty k1 v1).setProperty k2 v2) :=
    fun k1 k2 v1 v2 => overlays_setProperty _ k2 v2 (overlays_setProperty _ k1 v1 overlays_id)
  have hlig : Overlays (fun s =>
      if ((command == "font-variant") || command == "font-variant-ligatures") = true then
        ((if (feature == E.FontVariantNone) = true then
            (s.setProperty FontVariantCommonLigId (QVariant.int E.NoCommonLigatures)).setProperty
              FontVariantContextualAltId (QVariant.int E.NoContextualAlternates)
          else
            (s.setProperty FontVariantCommonLigId (QVariant.int E.CommonLigatures)).setProperty
              FontVariantContextualAltId (QVariant.int E.ContextualAlternates)).setProperty
          FontVariantDiscretionaryLigId
          (QVariant.int E.NoDiscretionaryLigatures)).setProperty
          FontVariantHistoricalLigId (QVariant.int E.NoHistoricalLigatures)
      else s) :=
    overlays_ite _ _ _
      (overlays_setProperty _ _ _ (overlays_setProperty _ _ _
        (overlays_ite _ _ _ (hset2 _ _ _ _) (hset2 _ _ _ _))))
      overlays_id
  have hnum : Overlays (fun s =>
      if ((command == "font-variant") || command == "font-variant-numeric") = true then
        ((((s.setProperty FontVariantNumFigureId (QVariant.int feature)).setProperty
          FontVariantNumSpacingId (QVariant.int feature)).setProperty
          FontVariantNumFractId (QVariant.int feature)).setProperty
          FontVariantNumOrdinalId (QVariant.int feature)).setProperty
          FontVariantNumSlashedZeroId (QVariant.int feature)
      else s) :=
    overlays_ite _ _ _
      (overlays_setProperty _ _ _ (overlays_setProperty _ _ _ (overlays_setProperty _ _ _
        (hset2 _ _ _ _))))
      overlays_id
  have hea : Overlays (fun s =>
      if ((command == "font-variant") || command == "font-variant-east-asian") = true then
        ((s.setProperty FontVariantEastAsianVarId (QVariant.int feature)).setProperty
          FontVariantEastAsianWidthId (QVariant.int feature)).setProperty
          FontVariantRubyId (QVariant.int feature)
      else s) :=
    overlays_ite _ _ _ (overlays_setProperty _ _ _ (hset2 _ _ _ _)) overlays_id
  exact overlays_ite _ _ _
    (overlays_comp _ _ (overlays_comp _ _ (overlays_comp _ _ (overlays_comp _ _
      (overlays_comp _ _ hlig (overlays_condSet _ _ _)) (overlays_condSet _ _ _)) hnum) hea)
      (overlays_condSet _ _ _))
    overlays_id

theorem parseFontVariantStep_overlays (E : KoSvgText.Enumerators) (H : ParseHelpers)
    (command f : String) : Overlays (fun s => parseFontVariantStep E H command s f) :=
  overlays_comp _ _ (parseFontVariantKeyword_overlays E _) (parseFontVariantFanOut_overlays E _ _)

/-- C15, counterexample: parsing `font-variant="small-caps"` on a store that holds
`FontVariantCommonLigId` and on the empty store sets `FontVariantCapsId` in both and nothing
else, so the first store still holds `FontVariantCommonLigId` and the second does not. -/
theorem parse_fontVariant_stale_counterexample :
    parseSvgTextAttribute KoSvgText.Enumerators.sample ParseHelpers.sample {}
        (empty.setProperty FontVariantCommonLigId (QVariant.int 3)) "font-variant" "small-caps"
        = Except.ok ((empty.setProperty FontVariantCommonLigId (QVariant.int 3)).setProperty
            FontVariantCapsId (QVariant.int 12))
      ∧ parseSvgTextAttribute KoSvgText.Enumerators.sample ParseHelpers.sample {} empty
          "font-variant" "small-caps"
        = Except.ok (empty.setProperty FontVariantCapsId (QVariant.int 12))
      ∧ ((empty.setProperty FontVariantCommonLigId (QVariant.int 3)).setProperty
          FontVariantCapsId (QVariant.int 12)).hasProperty FontVariantCommonLigId = true
      ∧ (empty.setProperty FontVariantCapsId (QVariant.int 12)).hasProperty
          FontVariantCommonLigId = false :=
  ⟨rfl, rfl, rfl, rfl⟩

theorem parseFontVariantKeyword_of_not_single (E : KoSvgText.Enumerators)
    (s : KoSvgTextProperties) (feature : Int) (h : isSingleFeature E feature = false) :
    parseFontVariantKeyword E s feature = s := by
  simp only [isSingleFeature, Bool.or_eq_false_iff] at h
  obtain ⟨⟨⟨⟨⟨⟨⟨⟨⟨⟨⟨⟨⟨⟨⟨⟨⟨⟨⟨⟨⟨⟨⟨h1, h2⟩, h3⟩, h4⟩, h5⟩, h6⟩, h7⟩, h8⟩, h9⟩, h10⟩, h11⟩, h12⟩, h13⟩,
    h14⟩, h15⟩, h16⟩, h17⟩, h18⟩, h19⟩, h20⟩, h21⟩, h22⟩, h23⟩, h24⟩ := h
  simp only [parseFontVariantKeyword, h1, h2, h3, h4, h5, h6, h7, h8, h9, h10, h11, h12, h13,
    h14, h15, h16, h17, h18, h19, h20, h21, h22, h23, h24, Bool.or_self, Bool.false_eq_true,
    if_false]

theorem parseFontVariantStep_keyword (E : KoSvgText.Enumerators) (H : ParseHelpers)
    (command key : String) (feature : Int) (s : KoSvgTextProperties)
    (hkey : (QString.split key "(").headD "" = key)
    (htable : H.fontVariantStrings.lookup key = some feature)
    (hsingle : isSingleFeature E feature = false) :
    parseFontVariantStep E H command s key = parseFontVariantFanOut E command s feature := by
  have hv : featureMapValue H key = feature := by simp [featureMapValue, htable]
  simp only [parseFontVariantStep, hkey, hv, parseFontVariantFeature,
    parseFontVariantKeyword_of_not_single E s feature hsingle]

theorem parseFontVariantFanOut_ligatures (E : KoSvgText.Enumerators) (s : KoSvgTextProperties)
    (feature : Int) (hf : feature = E.FontVariantNone ∨ feature = E.FontVariantNormal) :
    (∀ j ∈ [FontVariantCommonLigId, FontVariantDiscretionaryLigId, FontVariantHistoricalLigId,
        FontVariantContextualAltId],
        (parseFontVariantFanOut E "font-variant-ligatures" s feature).hasProperty j = true)
      ∧ (∀ j ∉ [FontVariantCommonLigId, FontVariantDiscretionaryLigId,
          FontVariantHistoricalLigId, FontVariantContextualAltId],
          (parseFontVariantFanOut E "font-variant-ligatures" s feature).properties j = s.properties j) := by
  have hc : (feature == E.FontVariantNone || feature == E.FontVariantNormal) = true := by
    rcases hf with h | h <;> simp [h]
  constructor
  · intro j hj
    simp only [List.mem_cons, List.mem_singleton, List.not_mem_nil, or_false] at hj
    simp only [parseFontVariantFanOut, hc, if_true]
    rcases hj with h | h | h | h <;> subst h <;>
      simp [hasProperty, setProperty_properties]
    all_goals (split <;> simp [setProperty_properties])
  · intro j hj
    simp only [List.mem_cons, List.mem_singleton, List.not_mem_nil, or_false, not_or] at hj
    simp only [parseFontVariantFanOut, hc, if_true]
    simp [setProperty_properties, hj]
    all_goals (split <;> simp [setProperty_properties, hj])

theorem parseFontVariantFanOut_position (E : KoSvgText.Enumerators) (s : KoSvgTextProperties)
    (feature : Int) (hf : feature = E.FontVariantNone ∨ feature = E.FontVariantNormal) :
    (∀ j ∈ [FontVariantPositionId],
        (parseFontVariantFanOut E "font-variant-position" s feature).hasProperty j = true)
      ∧ (∀ j ∉ [FontVariantPositionId],
          (parseFontVariantFanOut E "font-variant-position" s feature).properties j = s.properties j) := by
  have hc : (feature == E.FontVariantNone || feature == E.FontVariantNormal) = true := by
    rcases hf with h | h <;> simp [h]
  constructor
  · intro j hj
    simp only [List.mem_cons, List.mem_singleton, List.not_mem_nil, or_false] at hj
    simp only [parseFontVariantFanOut, hc, if_true]
    subst hj
    simp [hasProperty, setProperty_properties]
  · intro j hj
    simp only [List.mem_cons, List.mem_singleton, List.not_mem_nil, or_false, not_or] at hj
    simp only [parseFontVariantFanOut, hc, if_true]
    simp [setProperty_properties, hj]

theorem parseFontVariantFanOut_caps (E : KoSvgText.Enumerators) (s : KoSvgTextProperties)
    (feature : Int) (hf : feature = E.FontVariantNone ∨ feature = E.FontVariantNormal) :
    (∀ j ∈ [FontVariantCapsId],
        (parseFontVariantFanOut E "font-variant-caps" s feature).hasProperty j = true)
      ∧ (∀ j ∉ [FontVariantCapsId],
          (parseFontVariantFanOut E "font-variant-caps" s feature).properties j = s.properties j) := by
  have hc : (feature == E.FontVariantNone || feature == E.FontVariantNormal) = true := by
    rcases hf with h | h <;> simp [h]
  constructor
  · intro j hj
    simp only [List.mem_cons, List.mem_singleton, List.not_mem_nil, or_false] at hj
    simp only [parseFontVariantFanOut, hc, if_true]
    subst hj
    simp [hasProperty, setProperty_properties]
  · intro j hj
    simp only [List.mem_cons, List.mem_singleton, List.not_mem_nil, or_false, not_or] at hj
    simp only [parseFontVariantFanOut, hc, if_true]
    simp [setProperty_properties, hj]

theorem parseFontVariantFanOut_numeric (E : KoSvgText.Enumerators) (s : KoSvgTextProperties)
    (feature : Int) (hf : feature = E.FontVariantNone ∨ feature = E.FontVariantNormal) :
    (∀ j ∈ [FontVariantNumFigureId, FontVariantNumSpacingId, FontVariantNumFractId,
        FontVariantNumOrdinalId, FontVariantNumSlashedZeroId],
        (parseFontVariantFanOut E "font-variant-numeric" s feature).hasProperty j = true)
      ∧ (∀ j ∉ [FontVariantNumFigureId, FontVariantNumSpacingId, FontVariantNumFractId,
          FontVariantNumOrdinalId, FontVariantNumSlashedZeroId],
          (parseFontVariantFanOut E "font-variant-numeric" s feature).properties j = s.properties j) := by
  have hc : (feature == E.FontVariantNone || feature == E.FontVariantNormal) = true := by
    rcases hf with h | h <;> simp [h]
  constructor
  · intro j hj
    simp only [List.mem_cons, List.mem_singleton, List.not_mem_nil, or_false] at hj
    simp only [parseFontVariantFanOut, hc, if_true]
    rcases hj with h | h | h | h | h <;> subst h <;>
      simp [hasProperty, setProperty_properties]
  · intro j hj
    simp only [List.mem_cons, List.mem_singleton, List.not_mem_nil, or_false, not_or] at hj
    simp only [parseFontVariantFanOut, hc, if_true]
    simp [setProperty_properties, hj]

theorem parseFontVariantFanOut_eastAsian (E : KoSvgText.Enumerators) (s : KoSvgTextProperties)
    (feature : Int) (hf : feature = E.FontVariantNone ∨ feature = E.FontVariantNormal) :
    (∀ j ∈ [FontVariantEastAsianVarId, FontVariantEastAsianWidthId, FontVariantRubyId],
        (parseFontVariantFanOut E "font-variant-east-asian" s feature).hasProperty j = true)
      ∧ (∀ j ∉ [FontVariantEastAsianVarId, FontVariantEastAsianWidthId, FontVariantRubyId],
          (parseFontVariantFanOut E "font-variant-east-asian" s feature).properties j = s.properties j) := by
  have hc : (feature == E.FontVariantNone || feature == E.FontVariantNormal) = true := by
    rcases hf with h | h <;> simp [h]
  constructor
  · intro j hj
    simp only [List.mem_cons, List.mem_singleton, List.not_mem_nil, or_false] at hj
    simp only [parseFontVariantFanOut, hc, if_true]
    rcases hj with h | h | h <;> subst h <;>
      simp [hasProperty, setProperty_properties]
  · intro j hj
    simp only [List.mem_cons, List.mem_singleton, List.not_mem_nil, or_false, not_or] at hj
    simp only [parseFontVariantFanOut, hc, if_true]
    simp [setProperty_properties, hj]

theorem parseFontVariantFanOut_alternates (E : KoSvgText.Enumerators) (s : KoSvgTextProperties)
    (feature : Int) (hf : feature = E.FontVariantNone ∨ feature = E.FontVariantNormal) :
    (∀ j ∈ [FontVariantHistoricalFormsId],
        (parseFontVariantFanOut E "font-variant-alternates" s feature).hasProperty j = true)
      ∧ (∀ j ∉ [FontVariantHistoricalFormsId],
          (parseFontVariantFanOut E "font-variant-alternates" s feature).properties j = s.properties j) := by
  have hc : (feature == E.FontVariantNone || feature == E.FontVariantNormal) = true := by
    rcases hf with h | h <;> simp [h]
  constructor
  · intro j hj
    simp only [List.mem_cons, List.mem_singleton, List.not_mem_nil, or_false] at hj
    simp only [parseFontVariantFanOut, hc, if_true]
    subst hj
    simp [hasProperty, setProperty_properties]
  · intro j hj
    simp only [List.mem_cons, List.mem_singleton, List.not_mem_nil, or_false, not_or] at hj
    simp only [parseFontVariantFanOut, hc, if_true]
    simp [setProperty_properties, hj]

theorem parseFontVariantFanOut_shorthand (E : KoSvgText.Enumerators) (s : KoSvgTextProperties)
    (feature : Int) (hf : feature = E.FontVariantNone ∨ feature = E.FontVariantNormal) :
    (∀ j ∈ [FontVariantCommonLigId, FontVariantDiscretionaryLigId, FontVariantHistoricalLigId,
        FontVariantContextualAltId, FontVariantPositionId, FontVariantCapsId,
        FontVariantNumFigureId, FontVariantNumSpacingId, FontVariantNumFractId,
        FontVariantNumOrdinalId, FontVariantNumSlashedZeroId, FontVariantEastAsianVarId,
        FontVariantEastAsianWidthId, FontVariantRubyId, FontVariantHistoricalFormsId],
        (parseFontVariantFanOut E "font-variant" s feature).hasProperty j = true)
      ∧ (∀ j ∉ [FontVariantCommonLigId, FontVariantDiscretionaryLigId,
          FontVariantHistoricalLigId, FontVariantContextualAltId, FontVariantPositionId,
          FontVariantCapsId, FontVariantNumFigureId, FontVariantNumSpacingId,
          FontVariantNumFractId, FontVariantNumOrdinalId, FontVariantNumSlashedZeroId,
          FontVariantEastAsianVarId, FontVariantEastAsianWidthId, FontVariantRubyId,
          FontVariantHistoricalFormsId],
          (parseFontVariantFanOut E "font-variant" s feature).properties j = s.properties j) := by
  have hc : (feature == E.FontVariantNone || feature == E.FontVariantNormal) = true := by
    rcases hf with h | h <;> simp [h]
  constructor
  · intro j hj
    simp only [List.mem_cons, List.mem_singleton, List.not_mem_nil, or_false] at hj
    simp only [parseFontVariantFanOut, hc, if_true]
    rcases hj with h | h | h | h | h | h | h | h | h | h | h | h | h | h | h <;> subst h <;>
      simp [hasProperty, setProperty_properties]
    all_goals (split <;> simp [setProperty_properties])
  · intro j hj
    simp only [List.mem_cons, List.mem_singleton, List.not_mem_nil, or_false, not_or] at hj
    simp only [parseFontVariantFanOut, hc, if_true]
    simp [setProperty_properties, hj]
    all_goals (split <;> simp [setProperty_properties, hj])

theorem overlays_hasProperty (op : KoSvgTextProperties → KoSvgTextProperties)
    (hop : Overlays op) (s : KoSvgTextProperties) (j : PropertyId)
    (h : s.hasProperty j = true) : (op s).hasProperty j = true := by
  simp only [hasProperty] at h ⊢
  rw [hop s j]
  obtain ⟨x, hx⟩ := Option.isSome_iff_exists.1 h
  cases h0 : (op empty).properties j <;> simp [hx]

theorem parseFontVariantStep_reset (E : KoSvgText.Enumerators) (H : ParseHelpers)
    (s : KoSvgTextProperties) (key : String) (feature : Int)
    (hkey : (QString.split key "(").headD "" = key)
    (htable : H.fontVariantStrings.lookup key = some feature)
    (hf : feature = E.FontVariantNone ∨ feature = E.FontVariantNormal) (j : PropertyId)
    (hj : j ∈ [FontVariantCommonLigId, FontVariantDiscretionaryLigId,
      FontVariantHistoricalLigId, FontVariantContextualAltId, FontVariantPositionId,
      FontVariantCapsId, FontVariantNumFigureId, FontVariantNumSpacingId, FontVariantNumFractId,
      FontVariantNumOrdinalId, FontVariantNumSlashedZeroId, FontVariantEastAsianVarId,
      FontVariantEastAsianWidthId, FontVariantRubyId, FontVariantHistoricalFormsId]) :
    (parseFontVariantStep E H "font-variant" s key).hasProperty j = true := by
  have hv : featureMapValue H key = feature := by simp [featureMapValue, htable]
  simp only [parseFontVariantStep, hkey, hv, parseFontVariantFeature]
  exact (parseFontVariantFanOut_shorthand E _ feature hf).1 j hj

theorem parseFontVariantLoop_reset (E : KoSvgText.Enumerators) (H : ParseHelpers)
    (hnone : H.fontVariantStrings.lookup "none" = some E.FontVariantNone)
    (hnormal : H.fontVariantStrings.lookup "normal" = some E.FontVariantNormal)
    (tokens : List String) (s : KoSvgTextProperties)
    (hmem : "none" ∈ tokens ∨ "normal" ∈ tokens) (j : PropertyId)
    (hj : j ∈ [FontVariantCommonLigId, FontVariantDiscretionaryLigId,
      FontVariantHistoricalLigId, FontVariantContextualAltId, FontVariantPositionId,
      FontVariantCapsId, FontVariantNumFigureId, FontVariantNumSpacingId, FontVariantNumFractId,
      FontVariantNumOrdinalId, FontVariantNumSlashedZeroId, FontVariantEastAsianVarId,
      FontVariantEastAsianWidthId, FontVariantRubyId, FontVariantHistoricalFormsId]) :
    (tokens.foldl (parseFontVariantStep E H "font-variant") s).hasProperty j = true := by
  induction tokens generalizing s with
  | nil => simp at hmem
  | cons a t ih =>
    rw [List.foldl_cons]
    by_cases ha : a = "none" ∨ a = "normal"
    · have hstep : (parseFontVariantStep E H "font-variant" s a).hasProperty j = true := by
        rcases ha with h | h
        · rw [h]
          exact parseFontVariantStep_reset E H s "none" _ (by decide) hnone (Or.inl rfl) j hj
        · rw [h]
          exact parseFontVariantStep_reset E H s "normal" _ (by decide) hnormal (Or.inr rfl) j hj
      exact overlays_hasProperty _
        (overlays_foldl (parseFontVariantStep E H "font-variant")
          (fun f => parseFontVariantStep_overlays E H "font-variant" f) t) _ j hstep
    · apply ih
      simp only [List.mem_cons] at hmem
      rcases hmem with (h | h) | (h | h)
      · exact absurd (Or.inl h.symm) ha
      · exact Or.inl h
      · exact absurd (Or.inr h.symm) ha
      · exact Or.inr h

/-- C15, amended: parsing `font-variant=v` never fails, and its result on a store is its
result on the empty store laid over that store: an id that the tokens of `v` set holds the
same value whatever the prior store was, and every other id keeps the entry it had. So two
prior stores agree afterwards on every id that parsing `v` on an empty store sets; these are
all fifteen sub-property ids when `v` holds the token `none` or `normal` (and the table maps
them to `FontVariantNone` and `FontVariantNormal`). -/
theorem parse_fontVariant_overlay (E : KoSvgText.Enumerators) (H : ParseHelpers)
    (context : SvgLoadingContext) (v : String) :
    ∃ r0, parseSvgTextAttribute E H context empty "font-variant" v = Except.ok r0
      ∧ (∀ s, ∃ r, parseSvgTextAttribute E H context s "font-variant" v = Except.ok r
          ∧ ∀ j, r.properties j = (r0.properties j).or (s.properties j))
      ∧ (∀ A B, ∃ rA rB, parseSvgTextAttribute E H context A "font-variant" v = Except.ok rA
          ∧ parseSvgTextAttribute E H context B "font-variant" v = Except.ok rB
          ∧ ∀ j, r0.hasProperty j = true →
              rA.properties j = r0.properties j ∧ rB.properties j = r0.properties j)
      ∧ (H.fontVariantStrings.lookup "none" = some E.FontVariantNone →
          H.fontVariantStrings.lookup "normal" = some E.FontVariantNormal →
          ("none" ∈ QString.split v " " ∨ "normal" ∈ QString.split v " ") →
          ∀ j ∈ [FontVariantCommonLigId, FontVariantDiscretionaryLigId,
            FontVariantHistoricalLigId, FontVariantContextualAltId, FontVariantPositionId,
            FontVariantCapsId, FontVariantNumFigureId, FontVariantNumSpacingId,
            FontVariantNumFractId, FontVariantNumOrdinalId, FontVariantNumSlashedZeroId,
            FontVariantEastAsianVarId, FontVariantEastAsianWidthId, FontVariantRubyId,
            FontVariantHistoricalFormsId], r0.hasProperty j = true) := by
  have hov := overlays_foldl (parseFontVariantStep E H "font-variant")
    (fun f => parseFontVariantStep_overlays E H "font-variant" f) (QString.split v " ")
  have hagree : ∀ s j,
      ((QString.split v " ").foldl (parseFontVariantStep E H "font-variant") empty).hasProperty j
        = true →
      ((QString.split v " ").foldl (parseFontVariantStep E H "font-variant") s).properties j
        = ((QString.split v " ").foldl
            (parseFontVariantStep E H "font-variant") empty).properties j := by
    intro s j hj
    rw [hov s j]
    simp only [hasProperty] at hj
    obtain ⟨x, hx⟩ := Option.isSome_iff_exists.1 hj
    simp [hx]
  refine ⟨_, rfl, ?_, ?_, ?_⟩
  · intro s
    exact ⟨_, rfl, hov s⟩
  · intro A B
    exact ⟨_, _, rfl, rfl, fun j hj => ⟨hagree A j hj, hagree B j hj⟩⟩
  · intro hnone hnormal hmem j hj
    exact parseFontVariantLoop_reset E H hnone hnormal _ empty hmem j hj

theorem parseFontVariantFanOut_ligature_values (E : KoSvgText.Enumerators)
    (s : KoSvgTextProperties) (feature : Int) (command : String)
    (hf : feature = E.FontVariantNone ∨ feature = E.FontVariantNormal)
    (hcommand : command = "font-variant" ∨ command = "font-variant-ligatures") :
    (parseFontVariantFanOut E command s feature).properties FontVariantCommonLigId
        = some (QVariant.int
            (if feature = E.FontVariantNone then E.NoCommonLigatures else E.CommonLigatures))
      ∧ (parseFontVariantFanOut E command s feature).properties FontVariantContextualAltId
        = some (QVariant.int
            (if feature = E.FontVariantNone then E.NoContextualAlternates
              else E.ContextualAlternates))
      ∧ (parseFontVariantFanOut E command s feature).properties FontVariantDiscretionaryLigId
        = some (QVariant.int E.NoDiscretionaryLigatures)
      ∧ (parseFontVariantFanOut E command s feature).properties FontVariantHistoricalLigId
        = some (QVariant.int E.NoHistoricalLigatures) := by
  have hc : (feature == E.FontVariantNone || feature == E.FontVariantNormal) = true := by
    rcases hf with h | h <;> simp [h]
  rcases hcommand with h | h <;> subst h <;>
    simp only [parseFontVariantFanOut, hc, if_true] <;>
    by_cases hn : feature = E.FontVariantNone <;>
    simp [setProperty_properties, hn]

theorem parseFontVariantFanOut_feature_values (E : KoSvgText.Enumerators)
    (s : KoSvgTextProperties) (feature : Int) (command : String) (j : PropertyId)
    (hf : feature = E.FontVariantNone ∨ feature = E.FontVariantNormal)
    (hj : ((command = "font-variant" ∨ command = "font-variant-position")
          ∧ j = FontVariantPositionId)
        ∨ ((command = "font-variant" ∨ command = "font-variant-caps") ∧ j = FontVariantCapsId)
        ∨ ((command = "font-variant" ∨ command = "font-variant-numeric")
          ∧ j ∈ [FontVariantNumFigureId, FontVariantNumSpacingId, FontVariantNumFractId,
            FontVariantNumOrdinalId, FontVariantNumSlashedZeroId])
        ∨ ((command = "font-variant" ∨ command = "font-variant-east-asian")
          ∧ j ∈ [FontVariantEastAsianVarId, FontVariantEastAsianWidthId, FontVariantRubyId])
        ∨ ((command = "font-variant" ∨ command = "font-variant-alternates")
          ∧ j = FontVariantHistoricalFormsId)) :
    (parseFontVariantFanOut E command s feature).properties j
      = some (QVariant.int feature) := by
  have hc : (feature == E.FontVariantNone || feature == E.FontVariantNormal) = true := by
    rcases hf with h | h <;> simp [h]
  simp only [List.mem_cons, List.mem_singleton, List.not_mem_nil, or_false] at hj
  rcases hj with ⟨h | h, hj⟩ | ⟨h | h, hj⟩ | ⟨h | h, hj | hj | hj | hj | hj⟩
      | ⟨h | h, hj | hj | hj⟩ | ⟨h | h, hj⟩ <;>
    subst h <;> subst hj <;>
    simp only [parseFontVariantFanOut, hc, if_true] <;>
    simp [setProperty_properties]

/-- C14: with a feature-name table that maps `none` and `normal` to `FontVariantNone` and
`FontVariantNormal`, two distinct enumerators that are none of the single features, parsing a
font-variant longhand with the value `none` or `normal` overwrites the ids of its own category
with fixed values, whatever they held before, and changes no other id:
`font-variant-ligatures` stores the no-ligature (for `none`) or the ligature (for `normal`)
enumerator in the common-ligature and contextual ids and the no-ligature enumerators in the
discretionary and historical ids, leaving `FontVariantCapsId` as it was; each other longhand
stores the enumerator of the keyword in each id of its category; `font-variant` does all of
this at once for the fifteen sub-property ids. -/
theorem parse_fontVariant_fanOut_scoped (E : KoSvgText.Enumerators) (H : ParseHelpers)
    (context : SvgLoadingContext) (s : KoSvgTextProperties) (value : String)
    (hnone : H.fontVariantStrings.lookup "none" = some E.FontVariantNone)
    (hnormal : H.fontVariantStrings.lookup "normal" = some E.FontVariantNormal)
    (hsnone : isSingleFeature E E.FontVariantNone = false)
    (hsnormal : isSingleFeature E E.FontVariantNormal = false)
    (hdistinct : E.FontVariantNone ≠ E.FontVariantNormal)
    (hvalue : value = "none" ∨ value = "normal") :
    (∃ r, parseSvgTextAttribute E H context s "font-variant-ligatures" value = Except.ok r
        ∧ r.properties FontVariantCommonLigId = some (QVariant.int
            (if value = "none" then E.NoCommonLigatures else E.CommonLigatures))
        ∧ r.properties FontVariantContextualAltId = some (QVariant.int
            (if value = "none" then E.NoContextualAlternates else E.ContextualAlternates))
        ∧ r.properties FontVariantDiscretionaryLigId
            = some (QVariant.int E.NoDiscretionaryLigatures)
        ∧ r.properties FontVariantHistoricalLigId = some (QVariant.int E.NoHistoricalLigatures)
        ∧ (∀ j ∉ [FontVariantCommonLigId, FontVariantDiscretionaryLigId, FontVariantHistoricalLigId,
            FontVariantContextualAltId],
            r.properties j = s.properties j))
      ∧ (∃ r, parseSvgTextAttribute E H context s "font-variant-position" value = Except.ok r
          ∧ (∀ j ∈ [FontVariantPositionId],
              r.properties j = some (QVariant.int
                (if value = "none" then E.FontVariantNone else E.FontVariantNormal)))
          ∧ (∀ j ∉ [FontVariantPositionId],
              r.properties j = s.properties j))
      ∧ (∃ r, parseSvgTextAttribute E H context s "font-variant-caps" value = Except.ok r
          ∧ (∀ j ∈ [FontVariantCapsId],
              r.properties j = some (QVariant.int
                (if value = "none" then E.FontVariantNone else E.FontVariantNormal)))
          ∧ (∀ j ∉ [FontVariantCapsId],
              r.properties j = s.properties j))
      ∧ (∃ r, parseSvgTextAttribute E H context s "font-variant-numeric" value = Except.ok r
          ∧ (∀ j ∈ [FontVariantNumFigureId, FontVariantNumSpacingId, FontVariantNumFractId,
              FontVariantNumOrdinalId, FontVariantNumSlashedZeroId],
              r.properties j = some (QVariant.int
                (if value = "none" then E.FontVariantNone else E.FontVariantNormal)))
          ∧ (∀ j ∉ [FontVariantNumFigureId, FontVariantNumSpacingId, FontVariantNumFractId,
              FontVariantNumOrdinalId, FontVariantNumSlashedZeroId],
              r.properties j = s.properties j))
      ∧ (∃ r, parseSvgTextAttribute E H context s "font-variant-east-asian" value = Except.ok r
          ∧ (∀ j ∈ [FontVariantEastAsianVarId, FontVariantEastAsianWidthId, FontVariantRubyId],
              r.properties j = some (QVariant.int
                (if value = "none" then E.FontVariantNone else E.FontVariantNormal)))
          ∧ (∀ j ∉ [FontVariantEastAsianVarId, FontVariantEastAsianWidthId, FontVariantRubyId],
              r.properties j = s.properties j))
      ∧ (∃ r, parseSvgTextAttribute E H context s "font-variant-alternates" value = Except.ok r
          ∧ (∀ j ∈ [FontVariantHistoricalFormsId],
              r.properties j = some (QVariant.int
                (if value = "none" then E.FontVariantNone else E.FontVariantNormal)))
          ∧ (∀ j ∉ [FontVariantHistoricalFormsId],
              r.properties j = s.properties j))
      ∧ (∃ r, parseSvgTextAttribute E H context s "font-variant" value = Except.ok r
          ∧ r.properties FontVariantCommonLigId = some (QVariant.int
              (if value = "none" then E.NoCommonLigatures else E.CommonLigatures))
          ∧ r.properties FontVariantContextualAltId = some (QVariant.int
              (if value = "none" then E.NoContextualAlternates else E.ContextualAlternates))
          ∧ r.properties FontVariantDiscretionaryLigId
              = some (QVariant.int E.NoDiscretionaryLigatures)
          ∧ r.properties FontVariantHistoricalLigId = some (QVariant.int E.NoHistoricalLigatures)
          ∧ (∀ j ∈ [FontVariantPositionId, FontVariantCapsId, FontVariantNumFigureId,
              FontVariantNumSpacingId, FontVariantNumFractId, FontVariantNumOrdinalId,
              FontVariantNumSlashedZeroId, FontVariantEastAsianVarId,
              FontVariantEastAsianWidthId, FontVariantRubyId, FontVariantHistoricalFormsId],
              r.properties j = some (QVariant.int
                (if value = "none" then E.FontVariantNone else E.FontVariantNormal)))
          ∧ (∀ j ∉ [FontVariantCommonLigId, FontVariantDiscretionaryLigId,
              FontVariantHistoricalLigId, FontVariantContextualAltId, FontVariantPositionId,
              FontVariantCapsId, FontVariantNumFigureId, FontVariantNumSpacingId,
              FontVariantNumFractId, FontVariantNumOrdinalId, FontVariantNumSlashedZeroId,
              FontVariantEastAsianVarId, FontVariantEastAsianWidthId, FontVariantRubyId,
              FontVariantHistoricalFormsId],
              r.properties j = s.properties j)) := by
  have hex : ∃ feature, (feature = E.FontVariantNone ∨ feature = E.FontVariantNormal)
      ∧ (feature = if value = "none" then E.FontVariantNone else E.FontVariantNormal)
      ∧ ((if feature = E.FontVariantNone then E.NoCommonLigatures else E.CommonLigatures)
          = if value = "none" then E.NoCommonLigatures else E.CommonLigatures)
      ∧ ((if feature = E.FontVariantNone then E.NoContextualAlternates
            else E.ContextualAlternates)
          = if value = "none" then E.NoContextualAlternates else E.ContextualAlternates)
      ∧ ∀ command, (QString.split value " ").foldl (parseFontVariantStep E H command) s
          = parseFontVariantFanOut E command s feature := by
    rcases hvalue with h | h
    · refine ⟨E.FontVariantNone, Or.inl rfl, by simp [h], by simp [h], by simp [h],
        fun command => ?_⟩
      have hsplit : QString.split value " " = ["none"] := by rw [h]; decide
      rw [hsplit, List.foldl_cons, List.foldl_nil]
      exact parseFontVariantStep_keyword E H command "none" _ s (by decide) hnone hsnone
    · have hv : ¬ value = "none" := by rw [h]; decide
      refine ⟨E.FontVariantNormal, Or.inr rfl, by simp [hv], by simp [hv, hdistinct.symm],
        by simp [hv, hdistinct.symm], fun command => ?_⟩
      have hsplit : QString.split value " " = ["normal"] := by rw [h]; decide
      rw [hsplit, List.foldl_cons, List.foldl_nil]
      exact parseFontVariantStep_keyword E H command "normal" _ s (by decide) hnormal hsnormal
  obtain ⟨feature, hf, hfv, hcl, hca, hfold⟩ := hex
  rw [← hfv, ← hcl, ← hca]
  refine ⟨?_, ?_, ?_, ?_, ?_, ?_, ?_⟩
  · have hp : parseSvgTextAttribute E H context s "font-variant-ligatures" value
        = Except.ok (parseFontVariantFanOut E "font-variant-ligatures" s feature) := by
      rw [← hfold "font-variant-ligatures"]
      rfl
    obtain ⟨h1, h2, h3, h4⟩ := parseFontVariantFanOut_ligature_values E s feature
      "font-variant-ligatures" hf (Or.inr rfl)
    exact ⟨_, hp, h1, h2, h3, h4, (parseFontVariantFanOut_ligatures E s feature hf).2⟩
  · have hp : parseSvgTextAttribute E H context s "font-variant-position" value
        = Except.ok (parseFontVariantFanOut E "font-variant-position" s feature) := by
      rw [← hfold "font-variant-position"]
      rfl
    refine ⟨_, hp, fun j hj => ?_, (parseFontVariantFanOut_position E s feature hf).2⟩
    exact parseFontVariantFanOut_feature_values E s feature "font-variant-position" j hf
      (by simp only [List.mem_cons, List.mem_singleton, List.not_mem_nil, or_false] at hj
          simp [hj])
  · have hp : parseSvgTextAttribute E H context s "font-variant-caps" value
        = Except.ok (parseFontVariantFanOut E "font-variant-caps" s feature) := by
      rw [← hfold "font-variant-caps"]
      rfl
    refine ⟨_, hp, fun j hj => ?_, (parseFontVariantFanOut_caps E s feature hf).2⟩
    exact parseFontVariantFanOut_feature_values E s feature "font-variant-caps" j hf
      (by simp only [List.mem_cons, List.mem_singleton, List.not_mem_nil, or_false] at hj
          simp [hj])
  · have hp : parseSvgTextAttribute E H context s "font-variant-numeric" value
        = Except.ok (parseFontVariantFanOut E "font-variant-numeric" s feature) := by
      rw [← hfold "font-variant-numeric"]
      rfl
    refine ⟨_, hp, fun j hj => ?_, (parseFontVariantFanOut_numeric E s feature hf).2⟩
    exact parseFontVariantFanOut_feature_values E s feature "font-variant-numeric" j hf
      (by simp only [List.mem_cons, List.mem_singleton, List.not_mem_nil, or_false] at hj
          simp [hj])
  · have hp : parseSvgTextAttribute E H context s "font-variant-east-asian" value
        = Except.ok (parseFontVariantFanOut E "font-variant-east-asian" s feature) := by
      rw [← hfold "font-variant-east-asian"]
      rfl
    refine ⟨_, hp, fun j hj => ?_, (parseFontVariantFanOut_eastAsian E s feature hf).2⟩
    exact parseFontVariantFanOut_feature_values E s feature "font-variant-east-asian" j hf
      (by simp only [List.mem_cons, List.mem_singleton, List.not_mem_nil, or_false] at hj
          simp [hj])
  · have hp : parseSvgTextAttribute E H context s "font-variant-alternates" value
        = Except.ok (parseFontVariantFanOut E "font-variant-alternates" s feature) := by
      rw [← hfold "font-variant-alternates"]
      rfl
    refine ⟨_, hp, fun j hj => ?_, (parseFontVariantFanOut_alternates E s feature hf).2⟩
    exact parseFontVariantFanOut_feature_values E s feature "font-variant-alternates" j hf
      (by simp only [List.mem_cons, List.mem_singleton, List.not_mem_nil, or_false] at hj
          simp [hj])
  · have hp : parseSvgTextAttribute E H context s "font-variant" value
        = Except.ok (parseFontVariantFanOut E "font-variant" s feature) := by
      rw [← hfold "font-variant"]
      rfl
    obtain ⟨h1, h2, h3, h4⟩ := parseFontVariantFanOut_ligature_values E s feature
      "font-variant" hf (Or.inl rfl)
    refine ⟨_, hp, h1, h2, h3, h4, fun j hj => ?_,
      (parseFontVariantFanOut_shorthand E s feature hf).2⟩
    exact parseFontVariantFanOut_feature_values E s feature "font-variant" j hf
      (by simp only [List.mem_cons, List.mem_singleton, List.not_mem_nil, or_false] at hj
          rcases hj with h | h | h | h | h | h | h | h | h | h | h <;> simp [h])

/-- Witness of C14: `font-variant-ligatures="none"` on a store that holds `FontVariantCapsId`
and a stale common-ligature value, with the stand-in table and numbering. -/
theorem parse_fontVariant_fanOut_scoped_witness :
    ParseHelpers.sample.fontVariantStrings.lookup "none"
        = some KoSvgText.Enumerators.sample.FontVariantNone
      ∧ ParseHelpers.sample.fontVariantStrings.lookup "normal"
        = some KoSvgText.Enumerators.sample.FontVariantNormal
      ∧ isSingleFeature KoSvgText.Enumerators.sample
          KoSvgText.Enumerators.sample.FontVariantNone = false
      ∧ isSingleFeature KoSvgText.Enumerators.sample
          KoSvgText.Enumerators.sample.FontVariantNormal = false
      ∧ KoSvgText.Enumerators.sample.FontVariantNone
          ≠ KoSvgText.Enumerators.sample.FontVariantNormal
      ∧ ("none" = "none" ∨ "none" = "normal")
      ∧ (∃ r, parseSvgTextAttribute KoSvgText.Enumerators.sample ParseHelpers.sample {}
            ((empty.setProperty FontVariantCapsId (QVariant.int 12)).setProperty
              FontVariantCommonLigId (QVariant.int 77)) "font-variant-ligatures"
            "none" = Except.ok r
          ∧ r.properties FontVariantCommonLigId = some (QVariant.int
              (if "none" = "none" then KoSvgText.Enumerators.sample.NoCommonLigatures
                else KoSvgText.Enumerators.sample.CommonLigatures))
          ∧ r.properties FontVariantContextualAltId = some (QVariant.int
              (if "none" = "none" then KoSvgText.Enumerators.sample.NoContextualAlternates
                else KoSvgText.Enumerators.sample.ContextualAlternates))
          ∧ r.properties FontVariantDiscretionaryLigId
              = some (QVariant.int KoSvgText.Enumerators.sample.NoDiscretionaryLigatures)
          ∧ r.properties FontVariantHistoricalLigId
              = some (QVariant.int KoSvgText.Enumerators.sample.NoHistoricalLigatures)
          ∧ (∀ j ∉ [FontVariantCommonLigId, FontVariantDiscretionaryLigId,
              FontVariantHistoricalLigId, FontVariantContextualAltId],
              r.properties j
                = ((empty.setProperty FontVariantCapsId (QVariant.int 12)).setProperty
                    FontVariantCommonLigId (QVariant.int 77)).properties j)) :=
  ⟨rfl, rfl, rfl, rfl, by decide, Or.inl rfl,
    (parse_fontVariant_fanOut_scoped KoSvgText.Enumerators.sample ParseHelpers.sample {}
      ((empty.setProperty FontVariantCapsId (QVariant.int 12)).setProperty
        FontVariantCommonLigId (QVariant.int 77)) "none" rfl rfl rfl rfl (by decide)
      (Or.inl rfl)).1⟩

end KoSvgTextProperties

/-! ## The serializer: reading the result map, and font-stretch -/

namespace KoSvgTextProperties

open PropertyId

/-- Reading a map after `insert`: the new value under the key, the old entry elsewhere. -/
theorem lookup_insert {β : Type} (m : List (String × β)) (key : String) (value : β)
    (k : String) :
    (QMap.insert m key value).lookup k = if k = key then some value else m.lookup k := by
  induction m with
  | nil =>
    by_cases h : k = key
    · simp [QMap.insert, List.lookup, h]
    · have hb : (k == key) = false := by simpa using h
      simp [QMap.insert, List.lookup, h, hb]
  | cons e rest ih =>
    obtain ⟨a, b⟩ := e
    unfold QMap.insert
    by_cases h : k = key
    · subst h
      split
      · simp [List.lookup]
      · split
        · simp [List.lookup]
        · rename_i h1 h2
          have : (k == a) = false := by simpa using h2
          simp [List.lookup, this, ih]
    · have hb : (k == key) = false := by simpa using h
      split
      · simp [List.lookup, h, hb]
      · split
        · rename_i h1 h2
          subst h2
          simp [List.lookup, h, hb]
        · simp only [List.lookup]
          split <;> simp [ih, h]

/-- Reading the map after a run of insertions under distinct names: the value of the
insertion under that name when it is reached, the old entry otherwise. -/
theorem lookup_foldl_insertAttribute (l : List (String × Option String))
    (h : (l.map Prod.fst).Nodup) (m : List (String × String)) (k : String) :
    (l.foldl insertAttribute m).lookup k = ((l.lookup k).join).or (m.lookup k) := by
  induction l generalizing m with
  | nil => simp
  | cons e rest ih =>
    obtain ⟨n, ov⟩ := e
    simp only [List.map_cons, List.nodup_cons] at h
    rw [List.foldl_cons, ih h.2]
    by_cases hk : k = n
    · subst hk
      have hn : rest.lookup k = none := by
        rw [List.lookup_eq_none_iff]
        intro p hp
        have hne : k ≠ p.1 := by
          intro hpk
          apply h.1
          rw [hpk]
          exact List.mem_map_of_mem Prod.fst hp
        simpa using hne
      cases ov <;> simp [hn, insertAttribute, lookup_insert, List.lookup]
    · have : (k == n) = false := by simpa using hk
      cases ov <;> simp [insertAttribute, lookup_insert, List.lookup, this, hk]

/-- No attribute name is inserted at two places of `convertToSvgTextAttributes`. -/
theorem attributeInsertions_nodup (E : KoSvgText.Enumerators) (H : ParseHelpers)
    (W : WriteHelpers) (s : KoSvgTextProperties) (b : Bool) :
    ((attributeInsertions E H W s b).map Prod.fst).Nodup := by
  simp [attributeInsertions]

/-- What `convertToSvgTextAttributes` holds under a name is what the insertion under that name
inserts. -/
theorem convertToSvgTextAttributes_value (E : KoSvgText.Enumerators) (H : ParseHelpers)
    (W : WriteHelpers) (s : KoSvgTextProperties) (k : String) :
    QMap.value (convertToSvgTextAttributes E H W s) k
      = ((attributeInsertions E H W s false).lookup k).join := by
  simp [QMap.value, convertToSvgTextAttributes, lookup_foldl_insertAttribute,
    attributeInsertions_nodup]


/-- The `font-stretch` block for a store that has `FontStretchId`. -/
theorem fontStretchAttribute_of_toInt (H : ParseHelpers) (W : WriteHelpers)
    (s : KoSvgTextProperties) (h : s.hasProperty FontStretchId = true) :
    fontStretchAttribute H W s false =
      if fontStretches.contains ((s.property FontStretchId QVariant.invalid).toInt H) then
        (if h : fontStretches.findIdx
            (fun entry => !decide (entry < (s.property FontStretchId QVariant.invalid).toInt H)) < 9
          then some (W.fontStretchNames ⟨_, h⟩) else none)
      else some (KisDomUtils.toString ((s.property FontStretchId QVariant.invalid).toInt H)) := by
  simp [fontStretchAttribute, h]

/-- A value of the table is found by `std::find`, and `std::lower_bound` stops at it. -/
theorem fontStretch_index (n : Int) (i : Fin 9) (h : fontStretches.get? i.val = some n) :
    fontStretches.contains n = true ∧
      fontStretches.findIdx (fun entry => !decide (entry < n)) = i.val := by
  fin_cases i <;> simp [fontStretches] at h <;> subst h <;> decide

/-- C21: for a store with `FontStretchId = n`, `convertToSvgTextAttributes` writes
`font-stretch` as the name at the index of `n` in the table 50, 62, 75, 87, 100, 112, 125, 150,
200 when `n` is in the table, and as the decimal numeral of `n` otherwise; the attribute is
written whenever the id is set. With the CSS names, 100 gives `normal` and 103 gives `103`. -/
theorem convert_fontStretch (E : KoSvgText.Enumerators) (H : ParseHelpers) (W : WriteHelpers)
    (s : KoSvgTextProperties) :
    (∀ n : Int, s.properties FontStretchId = some (QVariant.int n) →
      (∀ i : Fin 9, fontStretches.get? i.val = some n →
        QMap.value (convertToSvgTextAttributes E H W s) "font-stretch"
          = some (W.fontStretchNames i))
      ∧ (n ∉ fontStretches →
        QMap.value (convertToSvgTextAttributes E H W s) "font-stretch"
          = some (KisDomUtils.toString n)))
    ∧ (s.hasProperty FontStretchId = true →
        (QMap.value (convertToSvgTextAttributes E H W s) "font-stretch").isSome = true)
    ∧ convertToSvgTextAttributes E H WriteHelpers.sample
        (empty.setProperty FontStretchId (QVariant.int 100)) = [("font-stretch", "normal")]
    ∧ convertToSvgTextAttributes E H WriteHelpers.sample
        (empty.setProperty FontStretchId (QVariant.int 103)) = [("font-stretch", "103")] := by
  have hval : QMap.value (convertToSvgTextAttributes E H W s) "font-stretch"
      = fontStretchAttribute H W s false := by
    rw [convertToSvgTextAttributes_value]
    simp [attributeInsertions, List.lookup]
  refine ⟨?_, ?_, ?_, ?_⟩
  · intro n hn
    have hhas : s.hasProperty FontStretchId = true := by simp [hasProperty, hn]
    have hint : (s.property FontStretchId QVariant.invalid).toInt H = n := by
      simp [property, hn, QVariant.toInt]
    rw [hval, fontStretchAttribute_of_toInt H W s hhas, hint]
    constructor
    · intro i hi
      obtain ⟨h1, h2⟩ := fontStretch_index n i hi
      rw [if_pos h1]
      have h3 : fontStretches.findIdx (fun entry => !decide (entry < n)) < 9 := by
        rw [h2]; exact i.isLt
      rw [dif_pos h3]
      congr 2
      exact Fin.ext h2
    · intro hn2
      have hc : ¬ (fontStretches.contains n = true) := by simpa using hn2
      rw [if_neg hc]
  · intro hhas
    rw [hval, fontStretchAttribute_of_toInt H W s hhas]
    split
    · rename_i hc
      have hmem : (s.property FontStretchId QVariant.invalid).toInt H ∈ fontStretches := by
        simpa using hc
      generalize (s.property FontStretchId QVariant.invalid).toInt H = n at hmem
      simp only [fontStretches, List.mem_cons, List.mem_singleton, List.not_mem_nil, or_false] at hmem
      rcases hmem with h | h | h | h | h | h | h | h | h <;>
        (subst h; rw [dif_pos (by decide)]; rfl)
    · simp
  · rfl
  · rfl

end KoSvgTextProperties

/-! ## The serializer: text-decoration -/

namespace KoSvgTextProperties

open PropertyId

/-- The style keyword of each of the five styles, for a numbering that tells them apart. -/
theorem textDecorationStyleStrings_named (E : KoSvgText.Enumerators)
    (h : [E.Solid, E.Double, E.Dotted, E.Dashed, E.Wavy].Nodup) :
    textDecorationStyleStrings E E.Solid = ["solid"]
      ∧ textDecorationStyleStrings E E.Double = ["double"]
      ∧ textDecorationStyleStrings E E.Dotted = ["dotted"]
      ∧ textDecorationStyleStrings E E.Dashed = ["dashed"]
      ∧ textDecorationStyleStrings E E.Wavy = ["wavy"] := by
  simp only [List.nodup_cons, List.mem_cons, List.mem_singleton, not_or, List.not_mem_nil,
    not_false_eq_true, List.nodup_nil, and_true] at h
  obtain ⟨⟨h1, h2, h3, h4⟩, ⟨h5, h6, h7⟩, ⟨h8, h9⟩, h10⟩ := h
  refine ⟨?_, ?_, ?_, ?_, ?_⟩ <;>
    simp [textDecorationStyleStrings, Ne.symm h1, Ne.symm h2, Ne.symm h3, Ne.symm h4,
      Ne.symm h5, Ne.symm h6, Ne.symm h7, Ne.symm h8, Ne.symm h9, Ne.symm h10]

/-- C22: `convertToSvgTextAttributes` writes no `text-decoration` when
`TextDecorationLineId` is absent or holds no line flag, whatever style and colour are stored;
when a line flag is set it writes the line keywords in the order underline, overline,
line-through, then the style keyword when `TextDecorationStyleId` is set, then the colour name
when `TextDecorationColorId` is set to a valid colour, joined by blanks. The style keyword of a
stored style is its CSS name. -/
theorem convert_textDecoration (E : KoSvgText.Enumerators) (H : ParseHelpers)
    (W : WriteHelpers) (s : KoSvgTextProperties) :
    (s.hasProperty TextDecorationLineId = false →
      QMap.value (convertToSvgTextAttributes E H W s) "text-decoration" = none)
    ∧ ((s.property TextDecorationLineId QVariant.invalid).valueTextDecorations
          = { underline := false, overline := false, lineThrough := false } →
      QMap.value (convertToSvgTextAttributes E H W s) "text-decoration" = none)
    ∧ (∀ d : KoSvgText.TextDecorations,
        s.properties TextDecorationLineId = some (QVariant.textDecorations d) →
        (d.underline || d.overline || d.lineThrough) = true →
        QMap.value (convertToSvgTextAttributes E H W s) "text-decoration"
          = some (QString.join
              ((if d.underline then ["underline"] else [])
                ++ (if d.overline then ["overline"] else [])
                ++ (if d.lineThrough then ["line-through"] else [])
                ++ (if s.hasProperty TextDecorationStyleId then
                      textDecorationStyleStrings E
                        ((s.property TextDecorationStyleId QVariant.invalid).toInt H)
                    else [])
                ++ (if s.hasProperty TextDecorationColorId
                      ∧ ((s.property TextDecorationColorId QVariant.invalid).valueQColor H).valid
                    then
                      [W.colorName
                        ((s.property TextDecorationColorId QVariant.invalid).valueQColor H)]
                    else [])) " "))
    ∧ ([E.Solid, E.Double, E.Dotted, E.Dashed, E.Wavy].Nodup →
        textDecorationStyleStrings E E.Solid = ["solid"]
          ∧ textDecorationStyleStrings E E.Double = ["double"]
          ∧ textDecorationStyleStrings E E.Dotted = ["dotted"]
          ∧ textDecorationStyleStrings E E.Dashed = ["dashed"]
          ∧ textDecorationStyleStrings E E.Wavy = ["wavy"]) := by
  have hval : QMap.value (convertToSvgTextAttributes E H W s) "text-decoration"
      = textDecorationAttribute E H W s := by
    rw [convertToSvgTextAttributes_value]
    simp [attributeInsertions, List.lookup]
  refine ⟨?_, ?_, ?_, textDecorationStyleStrings_named E⟩
  · intro h
    rw [hval]
    simp [textDecorationAttribute, h]
  · intro h
    rw [hval]
    simp [textDecorationAttribute, decoStrings, h]
  · intro d hd hflag
    have hhas : s.hasProperty TextDecorationLineId = true := by simp [hasProperty, hd]
    have hdeco : (s.property TextDecorationLineId QVariant.invalid).valueTextDecorations = d := by
      simp [property, hd, QVariant.valueTextDecorations]
    rw [hval]
    obtain ⟨u, o, l⟩ := d
    cases u <;> cases o <;> cases l <;> simp at hflag <;>
      by_cases hs : s.hasProperty TextDecorationStyleId = true <;>
      by_cases hc : s.hasProperty TextDecorationColorId = true <;>
      by_cases hv : ((s.property TextDecorationColorId QVariant.invalid).valueQColor H).valid
        = true <;>
      simp [textDecorationAttribute, decoStrings, hhas, hdeco, hs, hc, hv]

end KoSvgTextProperties

/-! ## The serializer against the parser: text-decoration-position -/

namespace KoSvgTextProperties

open PropertyId

/-- C23: parsing `text-decoration-position="under"` on an empty store stores the horizontal
position `under` and the vertical position `auto`; `convertToSvgTextAttributes` writes that
store as `under auto`; parsing `under auto` on an empty store stores the horizontal position
`auto`, because the token `auto` sets the horizontal position: the round trip does not give
back the stored horizontal position. -/
theorem textDecorationPosition_roundTrip_fails :
    ∃ r r2 : KoSvgTextProperties,
      parseSvgTextAttribute KoSvgText.Enumerators.sample ParseHelpers.sample {} empty
          "text-decoration-position" "under" = Except.ok r
      ∧ r.properties TextDecorationPositionHorizontalId
          = some (QVariant.int KoSvgText.Enumerators.sample.UnderlineUnder)
      ∧ r.properties TextDecorationPositionVerticalId
          = some (QVariant.int KoSvgText.Enumerators.sample.UnderlineAuto)
      ∧ convertToSvgTextAttributes KoSvgText.Enumerators.sample ParseHelpers.sample
          WriteHelpers.sample r = [("text-decoration-position", "under auto")]
      ∧ parseSvgTextAttribute KoSvgText.Enumerators.sample ParseHelpers.sample {} empty
          "text-decoration-position" "under auto" = Except.ok r2
      ∧ r2.properties TextDecorationPositionHorizontalId
          = some (QVariant.int KoSvgText.Enumerators.sample.UnderlineAuto)
      ∧ r2.properties TextDecorationPositionHorizontalId
          ≠ r.properties TextDecorationPositionHorizontalId :=
  ⟨_, _, rfl, rfl, rfl, rfl, rfl, rfl, by decide⟩

end KoSvgTextProperties

/-! ## The serializer against the parser: font-variant -/

namespace KoSvgTextProperties

open PropertyId

/-- C24: parsing `font-variant-ligatures="no-common-ligatures"` and then
`font-variant-caps="normal"` on an empty store stores the feature "no common ligatures" under
`FontVariantCommonLigId` and the feature "normal" under `FontVariantCapsId`;
`convertToSvgTextAttributes` writes that store as `font-variant="no-common-ligatures normal"`;
parsing that value on an empty store ends with the token `normal`, which under `font-variant`
resets every sub-property, so `FontVariantCommonLigId` comes back as "common ligatures": the
round trip does not give back the stored value. -/
theorem fontVariant_roundTrip_fails :
    ∃ r1 r r2 : KoSvgTextProperties,
      parseSvgTextAttribute KoSvgText.Enumerators.sample ParseHelpers.sample {} empty
          "font-variant-ligatures" "no-common-ligatures" = Except.ok r1
      ∧ parseSvgTextAttribute KoSvgText.Enumerators.sample ParseHelpers.sample {} r1
          "font-variant-caps" "normal" = Except.ok r
      ∧ r.properties FontVariantCommonLigId
          = some (QVariant.int KoSvgText.Enumerators.sample.NoCommonLigatures)
      ∧ r.properties FontVariantCapsId
          = some (QVariant.int KoSvgText.Enumerators.sample.FontVariantNormal)
      ∧ convertToSvgTextAttributes KoSvgText.Enumerators.sample ParseHelpers.sample
          WriteHelpers.sample r = [("font-variant", "no-common-ligatures normal")]
      ∧ parseSvgTextAttribute KoSvgText.Enumerators.sample ParseHelpers.sample {} empty
          "font-variant" "no-common-ligatures normal" = Except.ok r2
      ∧ r2.properties FontVariantCommonLigId
          = some (QVariant.int KoSvgText.Enumerators.sample.CommonLigatures)
      ∧ r2.properties FontVariantCommonLigId ≠ r.properties FontVariantCommonLigId :=
  ⟨_, _, _, rfl, rfl, rfl, rfl, rfl, rfl, rfl, by decide⟩

end KoSvgTextProperties

/-! ## The serializer against the parser: font-feature-settings -/

namespace QString

/-- The scan for the separator `,` passes over a run of characters that holds no comma. -/
theorem splitScan_comma_run (p rest cur : List Char) (hp : ∀ c ∈ p, c ≠ ',') :
    splitScan [','] (p ++ rest) cur 0 = splitScan [','] rest (p.reverse ++ cur) 0 := by
  induction p generalizing cur with
  | nil => simp
  | cons c cs ih =>
    have hc : c ≠ ',' := hp c (List.mem_cons_self _ _)
    have hcs : ∀ d ∈ cs, d ≠ ',' := fun d hd => hp d (List.mem_cons_of_mem _ hd)
    have hpre : List.isPrefixOf [','] (c :: (cs ++ rest)) = false := by
      simp [List.isPrefixOf, Ne.symm hc]
    rw [List.cons_append, splitScan, if_neg (by simp [hpre]), ih (c :: cur) hcs]
    simp

/-- The scan for the separator `,` ends a piece at a comma. -/
theorem splitScan_comma_sep (rest cur : List Char) :
    splitScan [','] (',' :: rest) cur 0 = String.mk cur.reverse :: splitScan [','] rest [] 0 := by
  rw [splitScan, if_pos (by simp [List.isPrefixOf])]
  rfl

/-- No piece of a split at commas holds a comma. -/
theorem splitScan_comma_pieces (chars cur : List Char) (hcur : ∀ c ∈ cur, c ≠ ',') :
    ∀ piece ∈ splitScan [','] chars cur 0, ∀ c ∈ piece.toList, c ≠ ',' := by
  induction chars generalizing cur with
  | nil =>
    intro piece hpiece c hc
    simp [splitScan] at hpiece
    subst hpiece
    exact hcur c (by simpa using hc)
  | cons d ds ih =>
    intro piece hpiece
    by_cases hd : d = ','
    · subst hd
      rw [splitScan_comma_sep] at hpiece
      rcases List.mem_cons.1 hpiece with h | h
      · subst h
        intro c hc
        exact hcur c (by simpa using hc)
      · exact ih [] (by simp) piece h
    · have hpre : List.isPrefixOf [','] (d :: ds) = false := by
        simp [List.isPrefixOf, Ne.symm hd]
      rw [splitScan, if_neg (by simp [hpre])] at hpiece
      refine ih (d :: cur) ?_ piece hpiece
      intro c hc
      rcases List.mem_cons.1 hc with h | h
      · exact h ▸ hd
      · exact hcur c h

/-- The characters of a joined list. -/
theorem toList_intercalate_go (acc sep : String) (l : List String) :
    (String.intercalate.go acc sep l).toList
      = acc.toList ++ (l.map (fun x => sep.toList ++ x.toList)).flatten := by
  induction l generalizing acc with
  | nil => simp [String.intercalate.go]
  | cons x xs ih =>
    rw [String.intercalate.go, ih]
    simp [List.append_assoc]

/-- Splitting at commas what was joined by `", "` out of pieces that hold no comma gives the
pieces back, every piece after the first with a blank in front. -/
theorem splitScan_joined (l : List String) (cur : List Char)
    (hl : ∀ piece ∈ l, ∀ c ∈ piece.toList, c ≠ ',') :
    splitScan [','] ((l.map (fun x => ", ".toList ++ x.toList)).flatten) cur 0
      = String.mk cur.reverse :: l.map (fun x => " " ++ x) := by
  induction l generalizing cur with
  | nil => simp [splitScan]
  | cons x xs ih =>
    have hx : ∀ c ∈ ' ' :: x.toList, c ≠ ',' := by
      intro c hc
      rcases List.mem_cons.1 hc with h | h
      · subst h; decide
      · exact hl x (List.mem_cons_self _ _) c h
    have hxs : ∀ piece ∈ xs, ∀ c ∈ piece.toList, c ≠ ',' :=
      fun piece hp => hl piece (List.mem_cons_of_mem _ hp)
    have e : ((x :: xs).map (fun x => ", ".toList ++ x.toList)).flatten
        = ',' :: ((' ' :: x.toList) ++ (xs.map (fun x => ", ".toList ++ x.toList)).flatten) := by
      simp
    rw [e, splitScan_comma_sep, splitScan_comma_run _ _ _ hx, ih _ hxs]
    simp
    rfl

/-- `split(",")` of `join(", ")`. -/
theorem split_join_comma (x : String) (xs : List String)
    (hl : ∀ piece ∈ x :: xs, ∀ c ∈ piece.toList, c ≠ ',') :
    split (join (x :: xs) ", ") "," = x :: xs.map (fun y => " " ++ y) := by
  have hx : ∀ c ∈ x.toList, c ≠ ',' := hl x (List.mem_cons_self _ _)
  have hxs : ∀ piece ∈ xs, ∀ c ∈ piece.toList, c ≠ ',' :=
    fun piece hp => hl piece (List.mem_cons_of_mem _ hp)
  unfold split join String.intercalate
  rw [toList_intercalate_go]
  have : ",".toList = [','] := rfl
  rw [this, splitScan_comma_run _ _ _ hx, splitScan_joined _ _ hxs]
  simp

/-- A split has a first piece. -/
theorem splitScan_ne_nil (sep chars cur : List Char) (k : Nat) :
    splitScan sep chars cur k ≠ [] := by
  induction chars generalizing cur k with
  | nil => simp [splitScan]
  | cons c cs ih =>
    cases k with
    | zero =>
      rw [splitScan]
      split
      · simp
      · exact ih _ _
    | succ k =>
      rw [splitScan]
      exact ih _ _

/-- Trimming removes a blank put in front. -/
theorem trimmed_blank_append (x : String) : trimmed (" " ++ x) = trimmed x := by
  have : (" " ++ x).toList = ' ' :: x.toList := by simp
  unfold trimmed
  rw [this]
  have hs : isSpace ' ' = true := by decide
  simp [List.dropWhile, hs]

end QString

namespace KoSvgTextProperties

open PropertyId

/-- Counterexample to C25 as stated: `font-feature-settings="'liga','kern'"` is stored as the
two pieces `'liga'` and `'kern'` and written as `'liga', 'kern'`, which parses to the pieces
`'liga'` and ` 'kern'`, the second with a blank in front: not the same list. -/
theorem fontFeatureSettings_roundTrip_counterexample :
    ∃ r r2 : KoSvgTextProperties,
      parseSvgTextAttribute KoSvgText.Enumerators.sample ParseHelpers.sample {} empty
          "font-feature-settings" "'liga','kern'" = Except.ok r
      ∧ r.properties FontFeatureSettingsId = some (QVariant.stringList ["'liga'", "'kern'"])
      ∧ convertToSvgTextAttributes KoSvgText.Enumerators.sample ParseHelpers.sample
          WriteHelpers.sample r = [("font-feature-settings", "'liga', 'kern'")]
      ∧ parseSvgTextAttribute KoSvgText.Enumerators.sample ParseHelpers.sample {} empty
          "font-feature-settings" "'liga', 'kern'" = Except.ok r2
      ∧ r2.properties FontFeatureSettingsId = some (QVariant.stringList ["'liga'", " 'kern'"])
      ∧ r2.properties FontFeatureSettingsId ≠ r.properties FontFeatureSettingsId :=
  ⟨_, _, rfl, rfl, rfl, rfl, rfl, by decide⟩

/-- C25, amended: for every value string `v`, parsing `font-feature-settings` stores exactly
the list of pieces of `v` split at each comma; `convertToSvgTextAttributes` writes that list
joined by a comma and a blank; and parsing that string again stores the same pieces with a
blank in front of every piece after the first, which is the same list once each piece is
trimmed. -/
theorem fontFeatureSettings_roundTrip_trimmed (E : KoSvgText.Enumerators) (H : ParseHelpers)
    (W : WriteHelpers) (context : SvgLoadingContext) (s s2 : KoSvgTextProperties)
    (v : String) :
    ∃ (r r2 : KoSvgTextProperties) (x : String) (xs : List String),
      parseSvgTextAttribute E H context s "font-feature-settings" v = Except.ok r
      ∧ QString.split v "," = x :: xs
      ∧ r.properties FontFeatureSettingsId = some (QVariant.stringList (x :: xs))
      ∧ QMap.value (convertToSvgTextAttributes E H W r) "font-feature-settings"
          = some (QString.join (x :: xs) ", ")
      ∧ parseSvgTextAttribute E H context s2 "font-feature-settings"
          (QString.join (x :: xs) ", ") = Except.ok r2
      ∧ r2.properties FontFeatureSettingsId
          = some (QVariant.stringList (x :: xs.map (fun y => " " ++ y)))
      ∧ (x :: xs.map (fun y => " " ++ y)).map QString.trimmed
          = (x :: xs).map QString.trimmed := by
  obtain ⟨x, xs, hsplit⟩ : ∃ x xs, QString.split v "," = x :: xs := by
    have h := QString.splitScan_ne_nil ",".toList v.toList [] 0
    unfold QString.split
    cases hl : QString.splitScan ",".toList v.toList [] 0 with
    | nil => exact absurd hl h
    | cons x xs => exact ⟨x, xs, rfl⟩
  have hpieces : ∀ piece ∈ x :: xs, ∀ c ∈ piece.toList, c ≠ ',' := by
    rw [← hsplit]
    exact QString.splitScan_comma_pieces v.toList [] (by simp)
  have hr : parseSvgTextAttribute E H context s "font-feature-settings" v
      = Except.ok (s.setProperty FontFeatureSettingsId (QVariant.stringList (x :: xs))) := by
    rw [← hsplit]; rfl
  have hr2 : parseSvgTextAttribute E H context s2 "font-feature-settings"
        (QString.join (x :: xs) ", ")
      = Except.ok (s2.setProperty FontFeatureSettingsId
          (QVariant.stringList (x :: xs.map (fun y => " " ++ y)))) := by
    rw [← QString.split_join_comma x xs hpieces]; rfl
  refine ⟨_, _, x, xs, hr, hsplit, by simp [setProperty_properties], ?_, hr2,
    by simp [setProperty_properties], ?_⟩
  · rw [convertToSvgTextAttributes_value]
    simp [attributeInsertions, List.lookup, fontFeatureSettingsAttribute, hasProperty,
      property, setProperty_properties, QVariant.toStringList]
  · simp [QString.trimmed_blank_append]

end KoSvgTextProperties

/-! ## The serializer against the parser: white-space and xml:space -/

namespace KoSvgTextProperties

open PropertyId

/-- C26: a store with `TextCollapseId` = "preserve spaces" and `TextWrapId = w` is written
with `xml:space` and without `white-space`, and parsing the `xml:space` attribute that was
written on an empty store sets `TextCollapseId` and leaves `TextWrapId` unset, so that the wrap
then reads as the default whatever `w` was: the stored wrap is not written and does not come
back. A store with any other collapse `c` is written with `white-space`, the text the writer
makes of `c`, `w` and the trims, and without `xml:space`. -/
theorem whiteSpace_roundTrip_fails (E : KoSvgText.Enumerators) (H : ParseHelpers)
    (W : WriteHelpers) (context : SvgLoadingContext) (s : KoSvgTextProperties) (c w : Int)
    (hc : s.properties TextCollapseId = some (QVariant.int c))
    (hw : s.properties TextWrapId = some (QVariant.int w)) :
    (c = E.PreserveSpaces →
      QMap.value (convertToSvgTextAttributes E H W s) "white-space" = none
      ∧ QMap.value (convertToSvgTextAttributes E H W s) "xml:space"
        = some (W.writeXmlSpace c)
      ∧ ∃ r : KoSvgTextProperties,
          parseSvgTextAttribute E H context empty "xml:space" (W.writeXmlSpace c)
            = Except.ok r
          ∧ r.properties TextCollapseId
            = some (QVariant.int (H.xmlSpaceToLongHands (W.writeXmlSpace c) E.Collapse))
          ∧ r.properties TextWrapId = none
          ∧ propertyOrDefault E r TextWrapId = QVariant.int E.Wrap)
    ∧ (c ≠ E.PreserveSpaces →
      QMap.value (convertToSvgTextAttributes E H W s) "xml:space" = none
      ∧ QMap.value (convertToSvgTextAttributes E H W s) "white-space"
        = some (W.writeWhiteSpaceValue c w
            (propertyOrDefault E s TextTrimId).valueTextSpaceTrims)) := by
  have hxs : QMap.value (convertToSvgTextAttributes E H W s) "xml:space"
      = xmlSpaceAttribute E H W s false := by
    rw [convertToSvgTextAttributes_value]
    simp [attributeInsertions, List.lookup]
  have hwsv : QMap.value (convertToSvgTextAttributes E H W s) "white-space"
      = whiteSpaceAttribute E H W s false := by
    rw [convertToSvgTextAttributes_value]
    simp [attributeInsertions, List.lookup]
  have hhc : s.hasProperty TextCollapseId = true := by simp [hasProperty, hc]
  have hpc : (propertyOrDefault E s TextCollapseId).toInt H = c := by
    simp [propertyOrDefault, property, hc, QVariant.toInt, QVariant.isNull]
  have hpw : (propertyOrDefault E s TextWrapId).toInt H = w := by
    simp [propertyOrDefault, property, hw, QVariant.toInt, QVariant.isNull]
  have hdc : (propertyOrDefault E empty TextCollapseId).toInt H = E.Collapse := rfl
  constructor
  · intro heq
    refine ⟨?_, ?_, _, rfl, ?_, ?_, ?_⟩
    · rw [hwsv]; simp [whiteSpaceAttribute, hhc, hpc, heq]
    · rw [hxs]; simp [xmlSpaceAttribute, hhc, hpc, heq]
    · simp only [setProperty_properties, hdc]
      simp
    · simp [setProperty_properties, empty]
    · rfl
  · intro hne
    refine ⟨?_, ?_⟩
    · rw [hxs]; simp [xmlSpaceAttribute, hhc, hpc, hne]
    · rw [hwsv]; simp [whiteSpaceAttribute, hhc, hpc, hpw, hne]

/-- Witness of C26: the store with collapse "preserve spaces" and wrap 1, written and read by
the stand-in helpers: `xml:space="preserve"` is all that is written, and the store parsed from
it reads wrap 0 where the stored wrap is 1. -/
theorem whiteSpace_roundTrip_fails_witness :
    ((empty.setProperty TextCollapseId
          (QVariant.int KoSvgText.Enumerators.sample.PreserveSpaces)).setProperty
        TextWrapId (QVariant.int 1)).properties TextCollapseId
        = some (QVariant.int KoSvgText.Enumerators.sample.PreserveSpaces)
    ∧ ((empty.setProperty TextCollapseId
          (QVariant.int KoSvgText.Enumerators.sample.PreserveSpaces)).setProperty
        TextWrapId (QVariant.int 1)).properties TextWrapId = some (QVariant.int 1)
    ∧ convertToSvgTextAttributes KoSvgText.Enumerators.sample ParseHelpers.sample
          WriteHelpers.sample
          ((empty.setProperty TextCollapseId
              (QVariant.int KoSvgText.Enumerators.sample.PreserveSpaces)).setProperty
            TextWrapId (QVariant.int 1)) = [("xml:space", "preserve")]
    ∧ (∃ r : KoSvgTextProperties,
        parseSvgTextAttribute KoSvgText.Enumerators.sample ParseHelpers.sample {} empty
          "xml:space" "preserve" = Except.ok r
        ∧ r.properties TextCollapseId
          = some (QVariant.int KoSvgText.Enumerators.sample.PreserveSpaces)
        ∧ r.properties TextWrapId = none
        ∧ propertyOrDefault KoSvgText.Enumerators.sample r TextWrapId = QVariant.int 0) :=
  ⟨rfl, rfl, rfl,
    ((whiteSpace_roundTrip_fails KoSvgText.Enumerators.sample ParseHelpers.sample
      WriteHelpers.sample {}
      ((empty.setProperty TextCollapseId
          (QVariant.int KoSvgText.Enumerators.sample.PreserveSpaces)).setProperty
        TextWrapId (QVariant.int 1)) KoSvgText.Enumerators.sample.PreserveSpaces 1 rfl rfl).1
      rfl).2.2⟩

end KoSvgTextProperties

/-! ## The OpenType features of a text range -/

namespace KoSvgTextProperties

open PropertyId

/-- Membership in a list built by appending in a loop. -/
theorem mem_foldl_append {α β : Type} (f : α → List β) (l : List α) (init : List β) (x : β) :
    x ∈ l.foldl (fun acc a => acc ++ f a) init ↔ x ∈ init ∨ ∃ a ∈ l, x ∈ f a := by
  induction l generalizing init with
  | nil => simp
  | cons a as ih =>
    rw [List.foldl_cons, ih]
    simp only [List.mem_append, List.mem_cons, exists_eq_or_imp]
    tauto

/-- The `font-feature-settings` loop appends one string for each entry that yields one. -/
theorem foldl_fontFeatureSetting (H : ParseHelpers) (start length : Int) (l : List String)
    (init : List (List Nat)) :
    l.foldl (fun fontFeatures entry =>
        match fontFeatureSetting H start length entry with
        | some openTypeTag => fontFeatures ++ [openTypeTag]
        | none => fontFeatures) init
      = init ++ l.filterMap (fontFeatureSetting H start length) := by
  induction l generalizing init with
  | nil => simp
  | cons e es ih =>
    rw [List.foldl_cons, ih]
    cases h : fontFeatureSetting H start length e <;> simp [List.filterMap_cons, h]

/-- A string is determined by what stands before a common ending. -/
theorem append_right_cancel (a b c : String) (h : a ++ c = b ++ c) : a = b := by
  have h2 : (a ++ c).data = (b ++ c).data := by rw [h]
  simp only [String.data_append] at h2
  exact String.ext (List.append_cancel_right h2)

/-- Two strings with different endings of the same length differ. -/
theorem append_ne_of_ending (a b c d : String) (hl : c.data.length = d.data.length)
    (hne : c ≠ d) : a ++ c ≠ b ++ d := by
  intro h
  have h2 : (a ++ c).data = (b ++ d).data := by rw [h]
  simp only [String.data_append] at h2
  exact hne (String.ext (List.append_inj' h2 hl).2)

/-- The number of a character is no surrogate. -/
theorem char_toNat_valid (c : Char) :
    c.toNat < 0xD800 ∨ (0xDFFF < c.toNat ∧ c.toNat < 0x110000) := by
  have h := c.valid
  simp only [UInt32.isValidChar, Nat.isValidChar] at h
  simpa [Char.toNat] using h

/-- The code units of a character, read from the front of a list of units, determine the
character and the rest of the list. -/
theorem utf16Char_append_inj (c d : Char) (r1 r2 : List Nat)
    (h : QString.utf16Char c ++ r1 = QString.utf16Char d ++ r2) : c = d ∧ r1 = r2 := by
  have hc := char_toNat_valid c
  have hd := char_toNat_valid d
  have key : c.toNat = d.toNat → c = d :=
    fun e => Char.ext (UInt32.ext (by simpa [Char.toNat] using e))
  unfold QString.utf16Char at h
  split at h <;> split at h
  · simp at h
    exact ⟨key h.1, h.2⟩
  · simp at h
    omega
  · simp at h
    omega
  · simp at h
    exact ⟨key (by omega), h.2.2⟩

/-- Two lists of characters with the same code units are the same list. -/
theorem utf16Chars_injective (l1 l2 : List Char)
    (h : l1.flatMap QString.utf16Char = l2.flatMap QString.utf16Char) : l1 = l2 := by
  induction l1 generalizing l2 with
  | nil =>
    cases l2 with
    | nil => rfl
    | cons d ds =>
      exfalso
      simp only [List.flatMap_nil, List.flatMap_cons] at h
      have hd : QString.utf16Char d ≠ [] := by
        unfold QString.utf16Char
        split <;> simp
      exact hd (List.append_eq_nil.1 h.symm).1
  | cons c cs ih =>
    cases l2 with
    | nil =>
      exfalso
      simp only [List.flatMap_nil, List.flatMap_cons] at h
      have hc : QString.utf16Char c ≠ [] := by
        unfold QString.utf16Char
        split <;> simp
      exact hc (List.append_eq_nil.1 h).1
    | cons d ds =>
      simp only [List.flatMap_cons] at h
      obtain ⟨h1, h2⟩ := utf16Char_append_inj c d _ _ h
      rw [h1, ih ds h2]

/-- Two strings with the same code units are the same string. -/
theorem utf16_injective : Function.Injective QString.utf16 := by
  intro a b h
  exact String.ext (utf16Chars_injective a.data b.data h)

/-- The code units of a string put behind another. -/
theorem utf16_append (a b : String) :
    QString.utf16 (a ++ b) = QString.utf16 a ++ QString.utf16 b := by
  simp [QString.utf16, List.flatMap_append]

/-- The sum of two `int` is their sum where that is an `int`. -/
theorem intAdd_eq (a b : Int) (h : INT_MIN ≤ a + b ∧ a + b ≤ INT_MAX) : intAdd a b = a + b := by
  unfold INT_MIN INT_MAX at h
  unfold intAdd
  omega

/-- Every string of the font-variant part is a tag of the feature, the range, and `=0` or
`=1`. -/
theorem mem_fontVariantFeatures (E : KoSvgText.Enumerators) (H : ParseHelpers)
    (W : WriteHelpers) (s : KoSvgTextProperties) (start length : Int) (id : PropertyId)
    (x : String) (hx : x ∈ fontVariantFeatures E H W s start length id) :
    ∃ feature, ∃ tag ∈ W.fontVariantOpentypeTags feature,
      x = tag ++ featureRange start length ++ "=0"
        ∨ x = tag ++ featureRange start length ++ "=1" := by
  unfold fontVariantFeatures at hx
  split at hx
  · simp only at hx
    split at hx
    · simp only [List.mem_map] at hx
      obtain ⟨tag, htag, rfl⟩ := hx
      refine ⟨_, tag, htag, ?_⟩
      split
      · exact Or.inl rfl
      · exact Or.inr rfl
    · simp at hx
  · simp at hx

/-- The function without `FontFeatureSettingsId`: the code units of the strings of the
font-variant part, then of the kerning. -/
theorem fontFeaturesForText_base (E : KoSvgText.Enumerators) (H : ParseHelpers)
    (W : WriteHelpers) (s : KoSvgTextProperties) (start length : Int)
    (h : s.hasProperty FontFeatureSettingsId = false) :
    fontFeaturesForText E H W s start length
      = (fontFeaturesList.foldl
          (fun fontFeatures id => fontFeatures ++ fontVariantFeatures E H W s start length id) []
        ++ kerningFeatures s start length).map QString.utf16 := by
  simp [fontFeaturesForText, h]

/-- The kerning part holds its two strings exactly for a stored non-auto kerning of 0. -/
theorem kerningFeatures_eq (s : KoSvgTextProperties) (start length : Int) :
    ((∃ a : KoSvgText.AutoValue, s.properties KerningId = some (QVariant.autoValue a)
        ∧ a.isAuto = false ∧ a.customValue = 0) →
      kerningFeatures s start length
        = ["kern" ++ featureRange start length ++ "=0",
           "vkrn" ++ featureRange start length ++ "=0"])
    ∧ ((¬ ∃ a : KoSvgText.AutoValue, s.properties KerningId = some (QVariant.autoValue a)
        ∧ a.isAuto = false ∧ a.customValue = 0) →
      kerningFeatures s start length = []) := by
  constructor
  · rintro ⟨a, ha, h1, h2⟩
    simp [kerningFeatures, property, ha, QVariant.valueAutoValue, h1, h2]
  · intro hn
    unfold kerningFeatures
    rw [if_neg]
    intro hc
    apply hn
    obtain h | ⟨v, h⟩ := Option.eq_none_or_eq_some (s.properties KerningId)
    · simp [property, h, QVariant.valueAutoValue] at hc
    · cases v <;> simp [property, h, QVariant.valueAutoValue] at hc
      rename_i a
      exact ⟨a, by rw [h], hc.1, hc.2⟩

/-- C27: for `int` arguments whose sum is an `int` and a store without
`FontFeatureSettingsId`, `fontFeaturesForText(start, length)` holds `kern[start:end]=0` with
`end = start + length`, and likewise `vkrn[start:end]=0`, if and only if `KerningId` holds a
non-auto value whose number is 0 (so it holds neither when `KerningId` is absent, auto, or a
number other than 0), given that `kern` and `vkrn` are not tags of a font-variant feature. -/
theorem fontFeaturesForText_kerning (E : KoSvgText.Enumerators) (H : ParseHelpers)
    (W : WriteHelpers) (s : KoSvgTextProperties) (start length : Int)
    (htags : ∀ feature, ∀ tag ∈ W.fontVariantOpentypeTags feature, tag ≠ "kern" ∧ tag ≠ "vkrn")
    (hffs : s.hasProperty FontFeatureSettingsId = false)
    (hint : (INT_MIN ≤ start ∧ start ≤ INT_MAX) ∧ (INT_MIN ≤ length ∧ length ≤ INT_MAX)
      ∧ (INT_MIN ≤ start + length ∧ start + length ≤ INT_MAX)) :
    (QString.utf16 ("kern[" ++ QString.number start ++ ":" ++ QString.number (start + length)
          ++ "]=0") ∈ fontFeaturesForText E H W s start length
      ↔ ∃ a : KoSvgText.AutoValue, s.properties KerningId = some (QVariant.autoValue a)
          ∧ a.isAuto = false ∧ a.customValue = 0)
    ∧ (QString.utf16 ("vkrn[" ++ QString.number start ++ ":" ++ QString.number (start + length)
          ++ "]=0") ∈ fontFeaturesForText E H W s start length
      ↔ ∃ a : KoSvgText.AutoValue, s.properties KerningId = some (QVariant.autoValue a)
          ∧ a.isAuto = false ∧ a.customValue = 0) := by
  have hsum := hint.2.2
  have ek : "kern[" ++ QString.number start ++ ":" ++ QString.number (start + length) ++ "]=0"
      = "kern" ++ featureRange start length ++ "=0" := by
    have e1 : ("kern[" : String) = "kern" ++ "[" := by decide
    have e2 : ("]=0" : String) = "]" ++ "=0" := by decide
    rw [e1, e2]
    simp only [featureRange, intAdd_eq start length hsum, String.append_assoc]
  have ev : "vkrn[" ++ QString.number start ++ ":" ++ QString.number (start + length) ++ "]=0"
      = "vkrn" ++ featureRange start length ++ "=0" := by
    have e1 : ("vkrn[" : String) = "vkrn" ++ "[" := by decide
    have e2 : ("]=0" : String) = "]" ++ "=0" := by decide
    rw [e1, e2]
    simp only [featureRange, intAdd_eq start length hsum, String.append_assoc]
  rw [ek, ev, fontFeaturesForText_base E H W s start length hffs,
    List.mem_map_of_injective utf16_injective, List.mem_map_of_injective utf16_injective]
  have hvar : ∀ t : String, (t = "kern" ∨ t = "vkrn") →
      ¬ (t ++ featureRange start length ++ "=0") ∈ fontFeaturesList.foldl
        (fun fontFeatures id => fontFeatures ++ fontVariantFeatures E H W s start length id)
        [] := by
    intro t ht hmem
    rw [mem_foldl_append] at hmem
    rcases hmem with h | ⟨id, _, h⟩
    · simp at h
    · obtain ⟨feature, tag, htag, h0 | h1⟩ := mem_fontVariantFeatures E H W s start length id _ h
      · have e : t = tag := by
          apply append_right_cancel t tag (featureRange start length ++ "=0")
          simpa [String.append_assoc] using h0
        rcases ht with ht | ht
        · exact (htags feature tag htag).1 (by rw [← e, ht])
        · exact (htags feature tag htag).2 (by rw [← e, ht])
      · exact append_ne_of_ending (t ++ featureRange start length)
          (tag ++ featureRange start length) "=0" "=1" rfl (by decide) h1
  by_cases hk : ∃ a : KoSvgText.AutoValue, s.properties KerningId = some (QVariant.autoValue a)
      ∧ a.isAuto = false ∧ a.customValue = 0
  · rw [(kerningFeatures_eq s start length).1 hk]
    simp [hk]
  · rw [(kerningFeatures_eq s start length).2 hk]
    simp only [List.append_nil, hk, iff_false]
    exact ⟨hvar "kern" (Or.inl rfl), hvar "vkrn" (Or.inr rfl)⟩

/-- Witness of C27: a store with kerning 0 and small caps, with the stand-in helpers, for the
range from 2 of length 3. -/
theorem fontFeaturesForText_kerning_witness :
    ((empty.setProperty KerningId
          (QVariant.autoValue { isAuto := false, customValue := 0 })).setProperty
        FontVariantCapsId (QVariant.int 12)).hasProperty FontFeatureSettingsId = false
    ∧ (INT_MIN ≤ (2 : Int) ∧ (2 : Int) ≤ INT_MAX)
    ∧ (INT_MIN ≤ (3 : Int) ∧ (3 : Int) ≤ INT_MAX)
    ∧ (INT_MIN ≤ (2 : Int) + 3 ∧ (2 : Int) + 3 ≤ INT_MAX)
    ∧ (QString.utf16 ("kern[" ++ QString.number 2 ++ ":" ++ QString.number (2 + 3) ++ "]=0")
        ∈ fontFeaturesForText KoSvgText.Enumerators.sample
        ParseHelpers.sample WriteHelpers.sample
        ((empty.setProperty KerningId
            (QVariant.autoValue { isAuto := false, customValue := 0 })).setProperty
          FontVariantCapsId (QVariant.int 12)) 2 3
      ↔ ∃ a : KoSvgText.AutoValue,
          ((empty.setProperty KerningId
              (QVariant.autoValue { isAuto := false, customValue := 0 })).setProperty
            FontVariantCapsId (QVariant.int 12)).properties KerningId
            = some (QVariant.autoValue a)
          ∧ a.isAuto = false ∧ a.customValue = 0) :=
  ⟨rfl, by decide, by decide, by decide,
    (fontFeaturesForText_kerning KoSvgText.Enumerators.sample ParseHelpers.sample
    WriteHelpers.sample
    ((empty.setProperty KerningId
        (QVariant.autoValue { isAuto := false, customValue := 0 })).setProperty
      FontVariantCapsId (QVariant.int 12)) 2 3
    (by
      intro feature tag h
      simp only [WriteHelpers.sample] at h
      split at h
      · simp only [List.mem_singleton] at h
        subst h
        exact ⟨by decide, by decide⟩
      · simp at h)
    rfl ⟨by decide, by decide, by decide⟩).1⟩

end KoSvgTextProperties

namespace KoSvgTextProperties

open PropertyId

/-- The function as the font-variant and kerning part followed by the strings of the
`font-feature-settings` entries. -/
theorem fontFeaturesForText_split (E : KoSvgText.Enumerators) (H : ParseHelpers)
    (W : WriteHelpers) (s : KoSvgTextProperties) (start length : Int) :
    fontFeaturesForText E H W s start length
      = (fontFeaturesList.foldl
          (fun fontFeatures id => fontFeatures ++ fontVariantFeatures E H W s start length id) []
        ++ kerningFeatures s start length).map QString.utf16
        ++ (s.property FontFeatureSettingsId QVariant.invalid).toStringList.filterMap
            (fontFeatureSetting H start length) := by
  unfold fontFeaturesForText
  by_cases h : s.hasProperty FontFeatureSettingsId = true
  · simp only [h, if_true]
    rw [foldl_fontFeatureSetting]
  · have hn : s.properties FontFeatureSettingsId = none := by
      simpa [hasProperty] using h
    simp [h, property, hn, QVariant.toStringList]

/-- The code units of a tag with the range and a value behind it, written out, for a sum that
is an `int`. -/
theorem utf16_featureRange (start length : Int) (tag : List Nat) (value : String)
    (hsum : INT_MIN ≤ start + length ∧ start + length ≤ INT_MAX) :
    tag ++ QString.utf16 (featureRange start length ++ ("=" ++ value))
      = tag ++ QString.utf16 ("[" ++ QString.number start ++ ":"
          ++ QString.number (start + length) ++ "]=" ++ value) := by
  have e : ("]=" : String) = "]" ++ "=" := by decide
  rw [e]
  simp only [featureRange, intAdd_eq start length hsum, String.append_assoc]

/-- The string of a `font-feature-settings` entry, when it yields one, is a tag, the range and
a value. -/
theorem fontFeatureSetting_form (H : ParseHelpers) (start length : Int) (entry : String)
    (x : List Nat) (hx : fontFeatureSetting H start length entry = some x) :
    ∃ (tag : List Nat) (value : String),
      x = tag ++ QString.utf16 (featureRange start length ++ ("=" ++ value)) := by
  have e0 : ("=0" : String) = "=" ++ "0" := by decide
  have e1 : ("=1" : String) = "=" ++ "1" := by decide
  unfold fontFeatureSetting at hx
  simp only at hx
  split at hx
  · simp at hx
  · split at hx
    · exact ⟨_, "1", by rw [← e1]; exact (Option.some.inj hx).symm⟩
    · split at hx
      · exact ⟨_, "1", by rw [← e1]; exact (Option.some.inj hx).symm⟩
      · split at hx
        · exact ⟨_, "0", by rw [← e0]; exact (Option.some.inj hx).symm⟩
        · split at hx
          · exact ⟨_, _, by rw [← String.append_assoc]; exact (Option.some.inj hx).symm⟩
          · simp at hx

/-- C28: for `int` arguments whose sum is an `int`, every string that
`fontFeaturesForText(start, length)` returns is a tag, then `[start:end]=` with
`end = start + length`, then a value; the result is the font-variant and kerning strings
followed by one string for each `font-feature-settings` entry that yields one, in list order;
an entry, after trimming, yields a string exactly when it begins with a quote and is 6 long
(value 1) or has, after its first 6 and trimmed again, the remainder `on` (value 1), `off`
(value 0) or an integer (that integer); the tag is its positions 1 to 4. Lengths and positions
count UTF-16 code units, as `QString` does, and the strings are given by their code units. -/
theorem fontFeaturesForText_form (E : KoSvgText.Enumerators) (H : ParseHelpers)
    (W : WriteHelpers) (s : KoSvgTextProperties) (start length : Int)
    (hint : (INT_MIN ≤ start ∧ start ≤ INT_MAX) ∧ (INT_MIN ≤ length ∧ length ≤ INT_MAX)
      ∧ (INT_MIN ≤ start + length ∧ start + length ≤ INT_MAX)) :
    (∀ x ∈ fontFeaturesForText E H W s start length, ∃ (tag : List Nat) (value : String),
      x = tag ++ QString.utf16 ("[" ++ QString.number start ++ ":"
          ++ QString.number (start + length) ++ "]=" ++ value))
    ∧ fontFeaturesForText E H W s start length
        = fontFeaturesForText E H W (s.removeProperty FontFeatureSettingsId) start length
          ++ (s.property FontFeatureSettingsId QVariant.invalid).toStringList.filterMap
              (fontFeatureSetting H start length)
    ∧ (∀ entry : String,
        let feature := QString.utf16 (QString.trimmed entry)
        let rest := QString.Units.trimmed (feature.drop 6)
        let tag := (feature.drop 1).take 4
        let range := QString.utf16 ("[" ++ QString.number start ++ ":"
          ++ QString.number (start + length) ++ "]=")
        ((feature.head? ≠ some 39 ∧ feature.head? ≠ some 34) →
          fontFeatureSetting H start length entry = none)
        ∧ ((feature.head? = some 39 ∨ feature.head? = some 34) →
          (feature.length = 6 →
            fontFeatureSetting H start length entry
              = some (tag ++ range ++ QString.utf16 "1"))
          ∧ (feature.length ≠ 6 →
            (rest = QString.utf16 "on" →
              fontFeatureSetting H start length entry
                = some (tag ++ range ++ QString.utf16 "1"))
            ∧ (rest = QString.utf16 "off" →
              fontFeatureSetting H start length entry
                = some (tag ++ range ++ QString.utf16 "0"))
            ∧ (rest ≠ QString.utf16 "on" → rest ≠ QString.utf16 "off" →
                QString.Units.toIntOk H rest = true →
              fontFeatureSetting H start length entry
                = some (tag ++ range
                    ++ QString.utf16 (QString.number (QString.Units.toInt H rest))))
            ∧ (rest ≠ QString.utf16 "on" → rest ≠ QString.utf16 "off" →
                QString.Units.toIntOk H rest = false →
              fontFeatureSetting H start length entry = none)))) := by
  have hsum := hint.2.2
  have e0 : ("=0" : String) = "=" ++ "0" := by decide
  have e1 : ("=1" : String) = "=" ++ "1" := by decide
  refine ⟨?_, ?_, ?_⟩
  · intro x hx
    rw [fontFeaturesForText_split] at hx
    simp only [List.mem_append, List.mem_filterMap, List.mem_map] at hx
    rcases hx with ⟨y, h | h, rfl⟩ | ⟨entry, _, h⟩
    · rw [mem_foldl_append] at h
      rcases h with h | ⟨id, _, h⟩
      · simp at h
      · obtain ⟨feature, tag, _, h0 | h1⟩ :=
          mem_fontVariantFeatures E H W s start length id _ h
        · refine ⟨QString.utf16 tag, "0", ?_⟩
          rw [h0, e0, String.append_assoc, utf16_append]
          exact utf16_featureRange start length _ "0" hsum
        · refine ⟨QString.utf16 tag, "1", ?_⟩
          rw [h1, e1, String.append_assoc, utf16_append]
          exact utf16_featureRange start length _ "1" hsum
    · unfold kerningFeatures at h
      split at h
      · simp only [List.mem_cons, List.mem_singleton, List.not_mem_nil, or_false] at h
        rcases h with h | h
        · refine ⟨QString.utf16 "kern", "0", ?_⟩
          rw [h, e0, String.append_assoc, utf16_append]
          exact utf16_featureRange start length _ "0" hsum
        · refine ⟨QString.utf16 "vkrn", "0", ?_⟩
          rw [h, e0, String.append_assoc, utf16_append]
          exact utf16_featureRange start length _ "0" hsum
      · simp at h
    · obtain ⟨tag, value, e⟩ := fontFeatureSetting_form H start length entry x h
      exact ⟨tag, value, by rw [e]; exact utf16_featureRange start length tag value hsum⟩
  · have hrem : (s.removeProperty FontFeatureSettingsId).hasProperty FontFeatureSettingsId
        = false := by simp [hasProperty, removeProperty]
    rw [fontFeaturesForText_split E H W s,
      fontFeaturesForText_base E H W _ start length hrem]
    have hk : kerningFeatures (s.removeProperty FontFeatureSettingsId) start length
        = kerningFeatures s start length := by
      simp [kerningFeatures, property, removeProperty]
    have hv : fontFeaturesList.foldl (fun fontFeatures id => fontFeatures
          ++ fontVariantFeatures E H W (s.removeProperty FontFeatureSettingsId) start length id)
          []
        = fontFeaturesList.foldl (fun fontFeatures id => fontFeatures
          ++ fontVariantFeatures E H W s start length id) [] := by
      apply List.foldl_ext
      intro acc id hid
      have hne : id ≠ FontFeatureSettingsId := by
        rintro rfl
        simp [fontFeaturesList] at hid
      simp [fontVariantFeatures, hasProperty, property, removeProperty, hne]
    rw [hk, hv]
  · intro entry
    simp only
    have er : ∀ (tag : List Nat) (value : String),
        tag ++ QString.utf16 ("[" ++ QString.number start ++ ":"
            ++ QString.number (start + length) ++ "]=") ++ QString.utf16 value
          = tag ++ QString.utf16 (featureRange start length ++ ("=" ++ value)) := by
      intro tag value
      rw [utf16_featureRange start length tag value hsum, List.append_assoc, ← utf16_append]
    refine ⟨?_, ?_⟩
    · rintro ⟨h1, h2⟩
      simp [fontFeatureSetting, QString.Units.startsWith, h1, h2]
    · intro hq
      have hne : QString.Units.isEmpty (QString.utf16 (QString.trimmed entry)) = false := by
        unfold QString.Units.isEmpty
        cases hl : QString.utf16 (QString.trimmed entry) with
        | nil => simp [hl] at hq
        | cons c cs => rfl
      have hcond : ((!QString.Units.startsWith (QString.utf16 (QString.trimmed entry)) 39
          && !QString.Units.startsWith (QString.utf16 (QString.trimmed entry)) 34)
          || QString.Units.isEmpty (QString.utf16 (QString.trimmed entry))) = false := by
        rcases hq with h | h <;> simp [QString.Units.startsWith, h, hne]
      have hmid : QString.Units.mid (QString.utf16 (QString.trimmed entry)) 1 4
          = ((QString.utf16 (QString.trimmed entry)).drop 1).take 4 := by
        simp [QString.Units.mid]
      have hrem : QString.Units.remove (QString.utf16 (QString.trimmed entry)) 0 6
          = (QString.utf16 (QString.trimmed entry)).drop 6 := by
        simp [QString.Units.remove]
      refine ⟨?_, ?_⟩
      · intro h6
        rw [er, ← e1]
        simp [fontFeatureSetting, hcond, hmid, QString.Units.size, h6]
      · intro h6
        have h6b : ¬ QString.Units.size (QString.utf16 (QString.trimmed entry)) = 6 := by
          intro h
          apply h6
          unfold QString.Units.size at h
          exact_mod_cast h
        refine ⟨?_, ?_, ?_, ?_⟩
        · intro hon
          rw [er, ← e1]
          simp [fontFeatureSetting, hcond, hmid, hrem, h6b, hon]
        · intro hoff
          have hne2 : QString.utf16 "off" ≠ QString.utf16 "on" := by decide
          rw [er, ← e0]
          simp [fontFeatureSetting, hcond, hmid, hrem, h6b, hoff, hne2]
        · intro hon hoff hok
          rw [er]
          simp [fontFeatureSetting, hcond, hmid, hrem, h6b, hon, hoff, hok,
            String.append_assoc]
        · intro hon hoff hok
          simp [fontFeatureSetting, hcond, hmid, hrem, h6b, hon, hoff, hok]

/-- Witness of C28: the entry that is a quote, the character U+1F600 (two code units), `ab`
and a quote is 6 code units long and yields the string of the tag of its units 1 to 4, the
range from 0 to 1 and the value 1. -/
theorem fontFeaturesForText_form_witness :
    (INT_MIN ≤ (0 : Int) ∧ (0 : Int) ≤ INT_MAX)
    ∧ (INT_MIN ≤ (1 : Int) ∧ (1 : Int) ≤ INT_MAX)
    ∧ (INT_MIN ≤ (0 : Int) + 1 ∧ (0 : Int) + 1 ≤ INT_MAX)
    ∧ fontFeatureSetting ParseHelpers.sample 0 1 "'😀ab'"
        = some ([0xD83D, 0xDE00, 97, 98] ++ QString.utf16 "[0:1]=" ++ QString.utf16 "1") :=
  ⟨by decide, by decide, by decide,
    ((((fontFeaturesForText_form KoSvgText.Enumerators.sample ParseHelpers.sample
      WriteHelpers.sample empty 0 1 ⟨by decide, by decide, by decide⟩).2.2 "'😀ab'").2
      (Or.inl (by decide))).1 (by decide))⟩

end KoSvgTextProperties

/-! ## The font axis settings -/

namespace KoSvgTextProperties

open PropertyId

/-- Reading a map after a run of insertions: the last value inserted under the key, the old
entry when there is none. -/
theorem lookup_foldl_insert {β : Type} (l : List (String × β)) (m : List (String × β))
    (k : String) :
    (l.foldl (fun settings feature => QMap.insert settings feature.1 feature.2) m).lookup k
      = (l.reverse.lookup k).or (m.lookup k) := by
  induction l generalizing m with
  | nil => simp
  | cons p ps ih =>
    rw [List.foldl_cons, ih, lookup_insert, List.reverse_cons, List.lookup_append]
    by_cases hk : k = p.1
    · have hb : (k == p.1) = true := by simpa using hk
      simp [List.lookup, hk, Option.or_assoc]
    · have hb : (k == p.1) = false := by simpa using hk
      simp [List.lookup, hk, hb]

/-- The function is the run of insertions of the stored `font-variation-settings` into the
result for the store without them. -/
theorem fontAxisSettings_eq (E : KoSvgText.Enumerators) (H : ParseHelpers)
    (s : KoSvgTextProperties) :
    fontAxisSettings E H s
      = (s.property FontVariationSettingsId QVariant.invalid).toHash.foldl
          (fun settings feature => QMap.insert settings feature.1 feature.2)
          (fontAxisSettings E H (s.removeProperty FontVariationSettingsId)) := by
  have hrem : (s.removeProperty FontVariationSettingsId).hasProperty FontVariationSettingsId
      = false := by simp [hasProperty, removeProperty]
  have hpd : ∀ id, id ≠ FontVariationSettingsId →
      propertyOrDefault E (s.removeProperty FontVariationSettingsId) id
        = propertyOrDefault E s id := by
    intro id hid
    simp [propertyOrDefault, property, removeProperty, hid]
  have hfs : fontSize E (s.removeProperty FontVariationSettingsId) = fontSize E s := by
    simp [fontSize, hpd]
  unfold fontAxisSettings
  simp only [hrem, hfs, hpd FontWeightId (by decide), hpd FontStretchId (by decide),
    hpd FontOpticalSizingId (by decide), hpd FontStyleId (by decide)]
  by_cases h : s.hasProperty FontVariationSettingsId = true
  · simp [h]
  · have hn : s.properties FontVariationSettingsId = none := by simpa [hasProperty] using h
    simp [h, property, hn, QVariant.toHash]

/-- The result for a store without `font-variation-settings`, read under a name. -/
theorem fontAxisSettings_base_value (E : KoSvgText.Enumerators) (H : ParseHelpers)
    (s : KoSvgTextProperties) (tag : String) :
    QMap.value (fontAxisSettings E H (s.removeProperty FontVariationSettingsId)) tag
      = if tag = "ital" ∧ (propertyOrDefault E s FontStyleId).valueCssFontStyleData.style
            = QFont.StyleItalic then some 1
        else if tag = "slnt" ∧ (propertyOrDefault E s FontStyleId).valueCssFontStyleData.style
            ≠ QFont.StyleItalic ∧ (propertyOrDefault E s FontStyleId).valueCssFontStyleData.style
            = QFont.StyleOblique then
          some (-(if (propertyOrDefault E s FontStyleId).valueCssFontStyleData.slantValue.isAuto
              then 14
              else (propertyOrDefault E s
                FontStyleId).valueCssFontStyleData.slantValue.customValue))
        else if tag = "ital" ∧ (propertyOrDefault E s FontStyleId).valueCssFontStyleData.style
            ≠ QFont.StyleOblique then some 0
        else if tag = "opsz" ∧ (propertyOrDefault E s FontOpticalSizingId).toBool = true then
          some (fontSize E s).value
        else if tag = "wdth" then some (((propertyOrDefault E s FontStretchId).toInt H : Int) : ℚ)
        else if tag = "wght" then some (((propertyOrDefault E s FontWeightId).toInt H : Int) : ℚ)
        else none := by
  have hrem : (s.removeProperty FontVariationSettingsId).hasProperty FontVariationSettingsId
      = false := by simp [hasProperty, removeProperty]
  have hpd : ∀ id, id ≠ FontVariationSettingsId →
      propertyOrDefault E (s.removeProperty FontVariationSettingsId) id
        = propertyOrDefault E s id := by
    intro id hid
    simp [propertyOrDefault, property, removeProperty, hid]
  have hfs : fontSize E (s.removeProperty FontVariationSettingsId) = fontSize E s := by
    simp [fontSize, hpd]
  unfold fontAxisSettings QMap.value
  simp only [hrem, hfs, hpd FontWeightId (by decide), hpd FontStretchId (by decide),
    hpd FontOpticalSizingId (by decide), hpd FontStyleId (by decide)]
  have hne : QFont.StyleOblique ≠ QFont.StyleItalic := by decide
  by_cases h1 : (propertyOrDefault E s FontStyleId).valueCssFontStyleData.style
      = QFont.StyleItalic <;>
    by_cases h2 : (propertyOrDefault E s FontStyleId).valueCssFontStyleData.style
      = QFont.StyleOblique <;>
    by_cases h3 : (propertyOrDefault E s FontOpticalSizingId).toBool = true <;>
    simp only [h1, h2, h3, if_true, if_false, lookup_insert, List.lookup_nil, hne, ne_eq,
      not_true_eq_false, not_false_eq_true, and_true, and_false, Bool.false_eq_true] <;>
    split_ifs <;> simp_all

/-- C29: `fontAxisSettings()` is its base map overridden by the stored
`font-variation-settings`. The base map (the result for the store without
`FontVariationSettingsId`) holds `wght` = resolved weight, `wdth` = resolved stretch, `opsz` =
font size exactly when optical sizing resolves to true, and exactly one of `ital` (1 for
italic, 0 for neither italic nor oblique) and `slnt` (for oblique: minus the slant angle, the
angle being 14 when it is auto), and nothing else. Under every tag the result holds the value
that `FontVariationSettingsId` holds for it (the last one, if the tag is held twice), also for
a tag of the base map, and the base entry for a tag that is not held. On an empty store the
result is `ital` 0, `opsz` 12, `wdth` 100, `wght` 400. -/
theorem fontAxisSettings_layers (E : KoSvgText.Enumerators) (H : ParseHelpers)
    (s : KoSvgTextProperties) :
    (∀ tag, QMap.value (fontAxisSettings E H s) tag
        = (((s.property FontVariationSettingsId QVariant.invalid).toHash.reverse.lookup tag).or
            (QMap.value (fontAxisSettings E H (s.removeProperty FontVariationSettingsId)) tag)))
    ∧ QMap.value (fontAxisSettings E H (s.removeProperty FontVariationSettingsId)) "wght"
        = some (((propertyOrDefault E s FontWeightId).toInt H : Int) : ℚ)
    ∧ QMap.value (fontAxisSettings E H (s.removeProperty FontVariationSettingsId)) "wdth"
        = some (((propertyOrDefault E s FontStretchId).toInt H : Int) : ℚ)
    ∧ QMap.value (fontAxisSettings E H (s.removeProperty FontVariationSettingsId)) "opsz"
        = (if (propertyOrDefault E s FontOpticalSizingId).toBool then
            some (fontSize E s).value else none)
    ∧ ((propertyOrDefault E s FontStyleId).valueCssFontStyleData.style = QFont.StyleItalic →
        QMap.value (fontAxisSettings E H (s.removeProperty FontVariationSettingsId)) "ital"
          = some 1
        ∧ QMap.value (fontAxisSettings E H (s.removeProperty FontVariationSettingsId)) "slnt"
          = none)
    ∧ ((propertyOrDefault E s FontStyleId).valueCssFontStyleData.style = QFont.StyleOblique →
        QMap.value (fontAxisSettings E H (s.removeProperty FontVariationSettingsId)) "ital"
          = none
        ∧ QMap.value (fontAxisSettings E H (s.removeProperty FontVariationSettingsId)) "slnt"
          = some (-(if (propertyOrDefault E s FontStyleId).valueCssFontStyleData.slantValue.isAuto
              then 14
              else (propertyOrDefault E s
                FontStyleId).valueCssFontStyleData.slantValue.customValue)))
    ∧ ((propertyOrDefault E s FontStyleId).valueCssFontStyleData.style ≠ QFont.StyleItalic →
        (propertyOrDefault E s FontStyleId).valueCssFontStyleData.style ≠ QFont.StyleOblique →
        QMap.value (fontAxisSettings E H (s.removeProperty FontVariationSettingsId)) "ital"
          = some 0
        ∧ QMap.value (fontAxisSettings E H (s.removeProperty FontVariationSettingsId)) "slnt"
          = none)
    ∧ (∀ tag, tag ∉ ["wght", "wdth", "opsz", "ital", "slnt"] →
        QMap.value (fontAxisSettings E H (s.removeProperty FontVariationSettingsId)) tag = none)
    ∧ fontAxisSettings E H empty = [("ital", 0), ("opsz", 12), ("wdth", 100), ("wght", 400)] := by
  refine ⟨?_, ?_, ?_, ?_, ?_, ?_, ?_, ?_, rfl⟩
  · intro tag
    unfold QMap.value
    rw [fontAxisSettings_eq E H s, lookup_foldl_insert]
  · rw [fontAxisSettings_base_value]; simp
  · rw [fontAxisSettings_base_value]; simp
  · rw [fontAxisSettings_base_value]; simp
  · intro h
    rw [fontAxisSettings_base_value, fontAxisSettings_base_value]
    simp [h]
  · intro h
    have hne : QFont.StyleOblique ≠ QFont.StyleItalic := by decide
    rw [fontAxisSettings_base_value, fontAxisSettings_base_value]
    simp [h, hne]
  · intro h1 h2
    rw [fontAxisSettings_base_value, fontAxisSettings_base_value]
    simp [h1, h2]
  · intro tag htag
    simp only [List.mem_cons, List.mem_singleton, List.not_mem_nil, or_false, not_or] at htag
    rw [fontAxisSettings_base_value]
    simp [htag]

end KoSvgTextProperties

/-! ## The parser: the unknown-property failure -/

namespace KoSvgTextProperties

open PropertyId

/-- The `text-align` branch does not end in the unknown-property failure. -/
theorem parseTextAlignBranch_ne_unknown (H : ParseHelpers) (s : KoSvgTextProperties)
    (command value : String) :
    parseTextAlignBranch H s command value ≠ Except.error ParseFailure.unknownProperty := by
  intro h
  unfold parseTextAlignBranch at h
  simp only at h
  split at h
  · rename_i e he
    cases h
    split at he
    · split at he
      · cases he
      · split at he <;> cases he
    · cases he
  · split at h
    · rename_i e he
      cases h
      split at he
      · split at he <;> cases he
      · cases he
    · split at h <;> cases h

/-- A call with a command of the dispatch chain does not end in the unknown-property
failure. -/
theorem parse_recognised (E : KoSvgText.Enumerators) (H : ParseHelpers)
    (context : SvgLoadingContext) (s : KoSvgTextProperties) (command value : String)
    (hmem : command ∈ recognisedCommands) :
    parseSvgTextAttribute E H context s command value
      ≠ Except.error ParseFailure.unknownProperty := by
  simp only [recognisedCommands, List.mem_cons, List.mem_singleton, List.not_mem_nil,
    or_false] at hmem
  rcases hmem with h | h | h | h | h | h | h | h | h | h | h | h | h | h | h | h | h | h | h | h
    | h | h | h | h | h | h | h | h | h | h | h | h | h | h | h | h | h | h | h | h
    | h | h | h | h | h | h | h | h | h | h | h | h | h | h | h | h | h | h | h <;>
    subst h <;> intro hf <;>
    first
      | (simp [parseSvgTextAttribute] at hf; done)
      | (simp [parseSvgTextAttribute] at hf; split at hf <;> simp at hf)
      | (simp only [parseSvgTextAttribute] at hf
         exact parseTextAlignBranch_ne_unknown H s _ value (by simpa using hf))

/-- A call with a command that is not of the dispatch chain ends in the unknown-property
failure. -/
theorem parse_unrecognised (E : KoSvgText.Enumerators) (H : ParseHelpers)
    (context : SvgLoadingContext) (s : KoSvgTextProperties) (command value : String)
    (hmem : command ∉ recognisedCommands) :
    parseSvgTextAttribute E H context s command value
      = Except.error ParseFailure.unknownProperty := by
  simp only [recognisedCommands, List.mem_cons, List.mem_singleton, List.not_mem_nil,
    or_false, not_or] at hmem
  simp [parseSvgTextAttribute, hmem]

/-- A call with a command of the dispatch chain other than `text-align` and `text-align-all`
completes. -/
theorem parse_completes (E : KoSvgText.Enumerators) (H : ParseHelpers)
    (context : SvgLoadingContext) (s : KoSvgTextProperties) (command value : String)
    (hmem : command ∈ recognisedCommands) (h1 : command ≠ "text-align")
    (h2 : command ≠ "text-align-all") :
    ∃ r, parseSvgTextAttribute E H context s command value = Except.ok r := by
  simp only [recognisedCommands, List.mem_cons, List.mem_singleton, List.not_mem_nil,
    or_false] at hmem
  rcases hmem with h | h | h | h | h | h | h | h | h | h | h | h | h | h | h | h | h | h | h | h
    | h | h | h | h | h | h | h | h | h | h | h | h | h | h | h | h | h | h | h | h
    | h | h | h | h | h | h | h | h | h | h | h | h | h | h | h | h | h | h | h <;>
    subst h <;>
    first
      | exact ⟨_, rfl⟩
      | exact absurd rfl h1
      | exact absurd rfl h2
      | (simp only [parseSvgTextAttribute]
         simp
         split <;> exact ⟨_, rfl⟩)

/-- C30: the command `text-align`, a name of the dispatch chain that the specification lists
as recognised, fails on the empty value: the call does not return a store, it ends at `first()`
of the empty token list. For every other command of the chain but `text-align-all` the call
fails if and only if the command is not one of the names of the chain, and then with the fatal
unknown-property failure, which no name of the chain ever gives; every attribute name the
specification lists as recognised is a name of the chain. -/
theorem parse_textAlign_fails_recognised (E : KoSvgText.Enumerators) (H : ParseHelpers)
    (context : SvgLoadingContext) (s : KoSvgTextProperties) :
    ("text-align" ∈ recognisedCommands ∧ "text-align" ∈ specListedCommands
        ∧ parseSvgTextAttribute E H context s "text-align" ""
          = Except.error ParseFailure.emptyList
        ∧ ¬ ∃ r, parseSvgTextAttribute E H context s "text-align" "" = Except.ok r)
      ∧ (∀ command value, command ≠ "text-align" → command ≠ "text-align-all" →
          ((¬ ∃ r, parseSvgTextAttribute E H context s command value = Except.ok r)
            ↔ command ∉ recognisedCommands))
      ∧ (∀ command value, parseSvgTextAttribute E H context s command value
            = Except.error ParseFailure.unknownProperty
          ↔ command ∉ recognisedCommands)
      ∧ (∀ name ∈ specListedCommands, name ∈ recognisedCommands) := by
  refine ⟨⟨by decide, by decide, rfl, ?_⟩, ?_, ?_, ?_⟩
  · rintro ⟨r, hr⟩
    have h : parseSvgTextAttribute E H context s "text-align" ""
        = Except.error ParseFailure.emptyList := rfl
    rw [h] at hr
    cases hr
  · intro command value h1 h2
    constructor
    · intro hno hmem
      exact hno (parse_completes E H context s command value hmem h1 h2)
    · rintro hmem ⟨r, hr⟩
      rw [parse_unrecognised E H context s command value hmem] at hr
      cases hr
  · intro command value
    refine ⟨?_, parse_unrecognised E H context s command value⟩
    intro h hmem
    exact parse_recognised E H context s command value hmem h
  · decide

end KoSvgTextProperties

/-! ## The parser: values without a token -/

namespace KoSvgTextProperties

open PropertyId

/-- C31: `parseSvgTextAttribute` with the command `text-align` (or `text-align-all`) and the
empty value, or a value of blanks only, does not complete: the value has no token, and the
branch takes `first()` of the empty token list. With every other command of the dispatch chain
the call completes for every value. -/
theorem parse_textAlign_emptyList (E : KoSvgText.Enumerators) (H : ParseHelpers)
    (context : SvgLoadingContext) (s : KoSvgTextProperties) :
    parseSvgTextAttribute E H context s "text-align" ""
        = Except.error ParseFailure.emptyList
    ∧ parseSvgTextAttribute E H context s "text-align" "   "
        = Except.error ParseFailure.emptyList
    ∧ parseSvgTextAttribute E H context s "text-align-all" ""
        = Except.error ParseFailure.emptyList
    ∧ (∀ command ∈ recognisedCommands, command ≠ "text-align" → command ≠ "text-align-all" →
        ∀ value, ∃ r, parseSvgTextAttribute E H context s command value = Except.ok r) :=
  ⟨rfl, rfl, rfl, fun command hmem h1 h2 value =>
    parse_completes E H context s command value hmem h1 h2⟩

end KoSvgTextProperties

/-! ## The serializer against the parser: font-synthesis, overflow, text-align-last -/

namespace KoSvgTextProperties

open PropertyId

/-- C32: the store with the four synthesis properties all true is written as
`font-synthesis="weight style small-caps position"`; parsing that value on an empty store
stores true for weight and position and false for style and small caps, because the parser
stores false at the tokens `style` and `small-caps`: the round trip does not restore the four
Booleans. -/
theorem fontSynthesis_roundTrip_fails (E : KoSvgText.Enumerators) (H : ParseHelpers)
    (W : WriteHelpers) (context : SvgLoadingContext) :
    ∃ r : KoSvgTextProperties,
      convertToSvgTextAttributes E H W
          ((((empty.setProperty FontSynthesisBoldId (QVariant.bool true)).setProperty
            FontSynthesisItalicId (QVariant.bool true)).setProperty
            FontSynthesisSmallCapsId (QVariant.bool true)).setProperty
            FontSynthesisSuperSubId (QVariant.bool true))
        = [("font-synthesis", "weight style small-caps position")]
      ∧ parseSvgTextAttribute E H context empty "font-synthesis"
          "weight style small-caps position" = Except.ok r
      ∧ r.properties FontSynthesisBoldId = some (QVariant.bool true)
      ∧ r.properties FontSynthesisSuperSubId = some (QVariant.bool true)
      ∧ r.properties FontSynthesisItalicId = some (QVariant.bool false)
      ∧ r.properties FontSynthesisSmallCapsId = some (QVariant.bool false) :=
  ⟨_, rfl, rfl, rfl, rfl, rfl, rfl⟩

/-- C33: the store with `TextOverFlowId` = visible is written as `overflow="visible"` and
`text-overflow="clip"`; parsing the two on an empty store in the key order of the map,
`overflow` first, ends with `TextOverFlowId` = clip, because `text-overflow` overwrites what
`overflow` stored. For clip and for ellipse the two attributes parse back to the stored
value. -/
theorem overflow_roundTrip_fails :
    ∃ r1 r2 : KoSvgTextProperties,
      convertToSvgTextAttributes KoSvgText.Enumerators.sample ParseHelpers.sample
          WriteHelpers.sample
          (empty.setProperty TextOverFlowId
            (QVariant.int KoSvgText.Enumerators.sample.OverFlowVisible))
        = [("overflow", "visible"), ("text-overflow", "clip")]
      ∧ parseSvgTextAttribute KoSvgText.Enumerators.sample ParseHelpers.sample {} empty
          "overflow" "visible" = Except.ok r1
      ∧ parseSvgTextAttribute KoSvgText.Enumerators.sample ParseHelpers.sample {} r1
          "text-overflow" "clip" = Except.ok r2
      ∧ r2.properties TextOverFlowId
          = some (QVariant.int KoSvgText.Enumerators.sample.OverFlowClip)
      ∧ r2.properties TextOverFlowId
          ≠ some (QVariant.int KoSvgText.Enumerators.sample.OverFlowVisible)
      ∧ convertToSvgTextAttributes KoSvgText.Enumerators.sample ParseHelpers.sample
          WriteHelpers.sample
          (empty.setProperty TextOverFlowId
            (QVariant.int KoSvgText.Enumerators.sample.OverFlowClip))
        = [("overflow", "clip"), ("text-overflow", "clip")]
      ∧ (∃ c1 c2 : KoSvgTextProperties,
          parseSvgTextAttribute KoSvgText.Enumerators.sample ParseHelpers.sample {} empty
            "overflow" "clip" = Except.ok c1
          ∧ parseSvgTextAttribute KoSvgText.Enumerators.sample ParseHelpers.sample {} c1
            "text-overflow" "clip" = Except.ok c2
          ∧ c2.properties TextOverFlowId
            = some (QVariant.int KoSvgText.Enumerators.sample.OverFlowClip))
      ∧ convertToSvgTextAttributes KoSvgText.Enumerators.sample ParseHelpers.sample
          WriteHelpers.sample
          (empty.setProperty TextOverFlowId
            (QVariant.int KoSvgText.Enumerators.sample.OverFlowEllipse))
        = [("overflow", "visible"), ("text-overflow", "ellipse")]
      ∧ (∃ e1 e2 : KoSvgTextProperties,
          parseSvgTextAttribute KoSvgText.Enumerators.sample ParseHelpers.sample {} empty
            "overflow" "visible" = Except.ok e1
          ∧ parseSvgTextAttribute KoSvgText.Enumerators.sample ParseHelpers.sample {} e1
            "text-overflow" "ellipse" = Except.ok e2
          ∧ e2.properties TextOverFlowId
            = some (QVariant.int KoSvgText.Enumerators.sample.OverFlowEllipse)) :=
  ⟨_, _, rfl, rfl, rfl, rfl, by decide, rfl, ⟨_, _, rfl, rfl, rfl⟩, rfl,
    ⟨_, _, rfl, rfl, rfl⟩⟩

/-- C34: parsing `text-align-last` alone on an empty store stores `TextAlignLastId` and no
`TextAlignAllId`, and `convertParagraphProperties` writes nothing for that store: the
`text-align-last` insertion is inside the test for `TextAlignAllId`. In the other direction, a
store with `TextAlignAllId` = start and no `TextAlignLastId` is written with a
`text-align-last` attribute. -/
theorem textAlignLast_not_written (E : KoSvgText.Enumerators) (H : ParseHelpers)
    (W : WriteHelpers) (context : SvgLoadingContext) (value : String) :
    (∃ r : KoSvgTextProperties,
      parseSvgTextAttribute E H context empty "text-align-last" value = Except.ok r
      ∧ r.properties TextAlignLastId = some (QVariant.int (H.parseTextAlign value))
      ∧ r.properties TextAlignAllId = none
      ∧ convertParagraphProperties E H W r = [])
    ∧ (empty.setProperty TextAlignAllId
        (QVariant.int KoSvgText.Enumerators.sample.AlignStart)).properties TextAlignLastId
        = none
    ∧ QMap.value (convertParagraphProperties KoSvgText.Enumerators.sample H W
        (empty.setProperty TextAlignAllId
          (QVariant.int KoSvgText.Enumerators.sample.AlignStart))) "text-align-last"
        = some (W.writeTextAlign 0) :=
  ⟨⟨_, rfl, rfl, rfl, rfl⟩, rfl, rfl⟩

end KoSvgTextProperties

/-! ## The serializer against the parser: hanging-punctuation -/

namespace KoSvgTextProperties

open PropertyId

/-- A turn of the `hanging-punctuation` loop keeps "force only with end". -/
theorem parseHangingPunctuationStep_force (hang : KoSvgText.HangingPunctuations)
    (param : String) (h : hang.hangForce = true → hang.hangEnd = true) :
    (parseHangingPunctuationStep hang param).hangForce = true →
      (parseHangingPunctuationStep hang param).hangEnd = true := by
  unfold parseHangingPunctuationStep
  split_ifs <;> simp_all

/-- The `hanging-punctuation` loop keeps "force only with end". -/
theorem parseHangingPunctuationLoop_force (params : List String)
    (hang : KoSvgText.HangingPunctuations) (h : hang.hangForce = true → hang.hangEnd = true) :
    (params.foldl parseHangingPunctuationStep hang).hangForce = true →
      (params.foldl parseHangingPunctuationStep hang).hangEnd = true := by
  induction params generalizing hang with
  | nil => simpa using h
  | cons p ps ih =>
    rw [List.foldl_cons]
    exact ih _ (parseHangingPunctuationStep_force hang p h)

/-- The `hanging-punctuation` block reads the stored flags only. -/
theorem hangingPunctuationAttribute_of (s : KoSvgTextProperties)
    (h : KoSvgText.HangingPunctuations)
    (hs : s.properties HangingPunctuationId = some (QVariant.hangingPunctuations h)) :
    hangingPunctuationAttribute s
      = hangingPunctuationAttribute
          (empty.setProperty HangingPunctuationId (QVariant.hangingPunctuations h)) := by
  simp [hangingPunctuationAttribute, hasProperty, property, hs, setProperty_properties]

/-- C35: every value that parsing `hanging-punctuation` stores has the force flag only
together with the end flag; and for a store that holds a non-empty flag set `h` with that
property, `convertToSvgTextAttributes` writes a `hanging-punctuation` value, and parsing that
value on an empty store stores exactly `h`. -/
theorem hangingPunctuation_roundTrip (E : KoSvgText.Enumerators) (H : ParseHelpers)
    (W : WriteHelpers) (context : SvgLoadingContext) :
    (∀ (s : KoSvgTextProperties) (value : String),
      ∃ (r : KoSvgTextProperties) (h : KoSvgText.HangingPunctuations),
        parseSvgTextAttribute E H context s "hanging-punctuation" value = Except.ok r
        ∧ r.properties HangingPunctuationId = some (QVariant.hangingPunctuations h)
        ∧ (h.hangForce = true → h.hangEnd = true))
    ∧ (∀ (s : KoSvgTextProperties) (h : KoSvgText.HangingPunctuations),
        s.properties HangingPunctuationId = some (QVariant.hangingPunctuations h) →
        (h.hangFirst || h.hangLast || h.hangEnd || h.hangForce) = true →
        (h.hangForce = true → h.hangEnd = true) →
        ∃ (text : String) (r : KoSvgTextProperties),
          QMap.value (convertToSvgTextAttributes E H W s) "hanging-punctuation" = some text
          ∧ parseSvgTextAttribute E H context empty "hanging-punctuation" text = Except.ok r
          ∧ r.properties HangingPunctuationId = some (QVariant.hangingPunctuations h)) := by
  constructor
  · intro s value
    refine ⟨_, (QString.splitSkipEmptyParts value " ").foldl parseHangingPunctuationStep {},
      rfl, by simp [setProperty_properties], ?_⟩
    exact parseHangingPunctuationLoop_force _ _ (by simp)
  · intro s h hs hne hfe
    have hval : QMap.value (convertToSvgTextAttributes E H W s) "hanging-punctuation"
        = hangingPunctuationAttribute s := by
      rw [convertToSvgTextAttributes_value]
      simp [attributeInsertions, List.lookup]
    rw [hval, hangingPunctuationAttribute_of s h hs]
    obtain ⟨f, l, e, fo⟩ := h
    cases f <;> cases l <;> cases e <;> cases fo <;> simp at hne hfe <;>
      exact ⟨_, _, rfl, rfl, rfl⟩

end KoSvgTextProperties

/-! ## The parser: a font-variant token that is not in the table -/

namespace KoSvgTextProperties

open PropertyId

/-- C36: a `font-variant` token that is not a key of the feature-name table is read as the
feature with the number 0 (what `QMap::value` returns for a missing key); with
`FontVariantNormal` as the first enumerator that is `FontVariantNormal`, so the token resets
the sub-properties like the token `normal`. `small-caps  oldstyle-nums` splits into `small-caps`, the empty token and
`oldstyle-nums`; parsing it on an empty store ends with `FontVariantCapsId` = normal, while
parsing `small-caps oldstyle-nums` ends with `FontVariantCapsId` = small caps. Likewise
`font-variant-caps="bogus"` turns a stored small caps into normal. -/
theorem parse_fontVariant_unknownToken_resets :
    (∀ (E : KoSvgText.Enumerators) (H : ParseHelpers) (command : String)
        (s : KoSvgTextProperties) (f : String),
      H.fontVariantStrings.lookup ((QString.split f "(").headD "") = none →
      parseFontVariantStep E H command s f = parseFontVariantFeature E command s 0)
    ∧ ∃ r r2 r3 : KoSvgTextProperties,
      QString.split "small-caps  oldstyle-nums" " " = ["small-caps", "", "oldstyle-nums"]
      ∧ ParseHelpers.sample.fontVariantStrings.lookup "" = none
      ∧ ParseHelpers.sample.fontVariantStrings.lookup "bogus" = none
      ∧ parseSvgTextAttribute KoSvgText.Enumerators.sample ParseHelpers.sample {} empty
          "font-variant" "small-caps  oldstyle-nums" = Except.ok r
      ∧ r.properties FontVariantCapsId
          = some (QVariant.int KoSvgText.Enumerators.sample.FontVariantNormal)
      ∧ parseSvgTextAttribute KoSvgText.Enumerators.sample ParseHelpers.sample {} empty
          "font-variant" "small-caps oldstyle-nums" = Except.ok r2
      ∧ r2.properties FontVariantCapsId
          = some (QVariant.int KoSvgText.Enumerators.sample.SmallCaps)
      ∧ r.properties FontVariantCapsId ≠ r2.properties FontVariantCapsId
      ∧ parseSvgTextAttribute KoSvgText.Enumerators.sample ParseHelpers.sample {}
          (empty.setProperty FontVariantCapsId
            (QVariant.int KoSvgText.Enumerators.sample.SmallCaps))
          "font-variant-caps" "bogus" = Except.ok r3
      ∧ r3.properties FontVariantCapsId
          = some (QVariant.int KoSvgText.Enumerators.sample.FontVariantNormal) :=
  ⟨fun E H command s f h => by
      unfold parseFontVariantStep featureMapValue
      rw [h]
      rfl,
    _, _, _, by decide, rfl, rfl, rfl, rfl, rfl, rfl, by decide, rfl, rfl⟩

end KoSvgTextProperties

/-! ## Rebuilding a child from its own properties -/

namespace KoSvgTextProperties

open PropertyId

/-- C39: for a child and a parent that both hold `TextDecorationLineId` = underline, a value
that Qt's comparison `equals` finds equal to itself, the own properties of the child are
empty, and inheriting from the parent into them leaves `TextDecorationLineId` absent (the id
is not inheritable), while inheriting from the parent into the child itself keeps the child's
entry: the two stores differ. -/
theorem ownProperties_inheritFrom_fails (E : KoSvgText.Enumerators)
    (metrics : KoSvgTextProperties → ℚ) (equals : QVariant → QVariant → Bool)
    (hequals : equals (QVariant.textDecorations { underline := true })
      (QVariant.textDecorations { underline := true }) = true) :
    (ownProperties equals
        (empty.setProperty TextDecorationLineId
          (QVariant.textDecorations { underline := true }))
        (empty.setProperty TextDecorationLineId
          (QVariant.textDecorations { underline := true })) false).keys = []
    ∧ (inheritFrom E metrics
        (ownProperties equals
          (empty.setProperty TextDecorationLineId
            (QVariant.textDecorations { underline := true }))
          (empty.setProperty TextDecorationLineId
            (QVariant.textDecorations { underline := true })) false)
        (empty.setProperty TextDecorationLineId
          (QVariant.textDecorations { underline := true })) false).properties
          TextDecorationLineId = none
    ∧ (inheritFrom E metrics
        (empty.setProperty TextDecorationLineId
          (QVariant.textDecorations { underline := true }))
        (empty.setProperty TextDecorationLineId
          (QVariant.textDecorations { underline := true })) false).properties
          TextDecorationLineId
        = some (QVariant.textDecorations { underline := true }) := by
  have hown : ownProperties equals
      (empty.setProperty TextDecorationLineId
        (QVariant.textDecorations { underline := true }))
      (empty.setProperty TextDecorationLineId
        (QVariant.textDecorations { underline := true })) false = empty := by
    ext1
    funext id
    rw [ownProperties_properties]
    by_cases hid : id = TextDecorationLineId
    · subst hid
      simp [setProperty_properties, empty, hasProperty, property, hequals]
    · simp [setProperty_properties, empty, hid]
  rw [hown]
  exact ⟨by decide, rfl, rfl⟩

/-- Witness of C39: the comparison that is equality of the tagged values. -/
theorem ownProperties_inheritFrom_fails_witness :
    ((fun a b : QVariant => a == b) (QVariant.textDecorations { underline := true })
        (QVariant.textDecorations { underline := true }) = true)
    ∧ (inheritFrom KoSvgText.Enumerators.sample (fun _ => 0)
        (ownProperties (fun a b : QVariant => a == b)
          (empty.setProperty TextDecorationLineId
            (QVariant.textDecorations { underline := true }))
          (empty.setProperty TextDecorationLineId
            (QVariant.textDecorations { underline := true })) false)
        (empty.setProperty TextDecorationLineId
          (QVariant.textDecorations { underline := true })) false).properties
          TextDecorationLineId = none :=
  ⟨by decide,
    (ownProperties_inheritFrom_fails KoSvgText.Enumerators.sample (fun _ => 0)
      (fun a b : QVariant => a == b) (by decide)).2.1⟩

end KoSvgTextProperties

/-! ## The supported XML attributes against the parser -/

namespace KoSvgTextProperties

open PropertyId

/-- C40: `supportedXmlAttributes()` holds the name `glyph-orientation-horizontal`, which the
dispatch chain of `parseSvgTextAttribute` does not compare with, so parsing it with any value
ends in the fatal unknown-property branch; every other name of the list is a command of the
chain and does not end there. -/
theorem supportedXmlAttributes_unknown (E : KoSvgText.Enumerators) (H : ParseHelpers)
    (context : SvgLoadingContext) (s : KoSvgTextProperties) (value : String) :
    "glyph-orientation-horizontal" ∈ supportedXmlAttributes
    ∧ parseSvgTextAttribute E H context s "glyph-orientation-horizontal" value
        = Except.error ParseFailure.unknownProperty
    ∧ (∀ name ∈ supportedXmlAttributes, name ≠ "glyph-orientation-horizontal" →
        name ∈ recognisedCommands
        ∧ parseSvgTextAttribute E H context s name value
          ≠ Except.error ParseFailure.unknownProperty) := by
  refine ⟨by decide, rfl, ?_⟩
  intro name hname hne
  have hmem : name ∈ recognisedCommands := by
    revert name
    decide
  exact ⟨hmem, parse_recognised E H context s name value hmem⟩

end KoSvgTextProperties

/-! ## Relative-unit resolution: running it twice -/

namespace KoSvgTextProperties

open PropertyId

/-- A converted length is absolute. -/
theorem convertToAbsolute_unit (l : KoSvgText.CssLengthPercentage) (a b : ℚ) :
    (l.convertToAbsolute a b).unit = KoSvgText.UnitType.Absolute := by
  unfold KoSvgText.CssLengthPercentage.convertToAbsolute
  split <;> rfl

/-- Converting an absolute length changes nothing. -/
theorem convertToAbsolute_of_absolute (l : KoSvgText.CssLengthPercentage) (a b : ℚ)
    (h : l.unit = KoSvgText.UnitType.Absolute) : l.convertToAbsolute a b = l := by
  obtain ⟨v, u⟩ := l
  simp only at h
  subst h
  rfl

/-- Converting a converted length changes nothing. -/
theorem convertToAbsolute_twice (l : KoSvgText.CssLengthPercentage) (a b c d : ℚ) :
    (l.convertToAbsolute a b).convertToAbsolute c d = l.convertToAbsolute a b :=
  convertToAbsolute_of_absolute _ c d (convertToAbsolute_unit l a b)

/-- A turn of the resolution loop at an entry that is neither a plain length (under a key
other than `FontSizeId`) nor an auto-length: the key decides. -/
theorem resolveStep_other (us ux : ℚ) (j : PropertyId) (v : QVariant)
    (hc1 : (v.canConvertCssLengthPercentage && j != FontSizeId) = false)
    (hc2 : v.canConvertAutoLengthPercentage = false) :
    (resolveStep us ux (empty.setProperty j v) j).properties j
      = if (j == LineHeightId) = true then
          (if (!v.valueLineHeightInfo.isNormal && !v.valueLineHeightInfo.isNumber) = true
            then some (QVariant.lineHeight { v.valueLineHeightInfo with
              length := v.valueLineHeightInfo.length.convertToAbsolute us ux })
            else some v)
        else if (j == TabSizeId) = true then
          (if (!v.valueTabSizeInfo.isNumber) = true
            then some (QVariant.tabSize { v.valueTabSizeInfo with
              length := v.valueTabSizeInfo.length.convertToAbsolute us ux })
            else some v)
        else if (j == TextIndentId) = true then
          some (QVariant.textIndent
            (if (v.valueTextIndentInfo.length.unit != KoSvgText.UnitType.Percentage) = true
              then { v.valueTextIndentInfo with
                length := v.valueTextIndentInfo.length.convertToAbsolute us ux }
              else v.valueTextIndentInfo))
        else some v := by
  have hpe : (empty.setProperty j v).property j QVariant.invalid = v := by
    simp [property, setProperty_properties]
  simp only [resolveStep, hpe, hc1, hc2, Bool.false_eq_true, if_false]
  split_ifs <;> simp [setProperty_properties]

/-- A turn of the resolution loop changes nothing at an entry that a turn of the loop has
written. -/
theorem resolveStep_twice (us ux us2 ux2 : ℚ) (acc A : KoSvgTextProperties) (j : PropertyId)
    (hp : acc.hasProperty j = true)
    (h : A.properties j = (resolveStep us ux acc j).properties j) :
    (resolveStep us2 ux2 A j).properties j = A.properties j := by
  obtain ⟨v, hv⟩ : ∃ v, acc.properties j = some v := by
    obtain h0 | ⟨v, h0⟩ := Option.eq_none_or_eq_some (acc.properties j)
    · simp [hasProperty, h0] at hp
    · exact ⟨v, h0⟩
  have key : ∀ w : QVariant, A.properties j = some w →
      (resolveStep us2 ux2 (empty.setProperty j w) j).properties j = some w →
      (resolveStep us2 ux2 A j).properties j = A.properties j := by
    intro w hw hfix
    rw [hw, ← hfix]
    apply resolveStep_local
    simp [hw, setProperty_properties]
  have hstep : (resolveStep us ux acc j).properties j
      = (resolveStep us ux (empty.setProperty j v) j).properties j := by
    apply resolveStep_local
    simp [hv, setProperty_properties]
  rw [hstep] at h
  have hpe : ∀ w : QVariant, (empty.setProperty j w).property j QVariant.invalid = w := by
    intro w
    simp [property, setProperty_properties]
  by_cases hc1 : (v.canConvertCssLengthPercentage && j != FontSizeId) = true
  · have h1 : (resolveStep us ux (empty.setProperty j v) j).properties j
        = some (QVariant.lengthPercentage
            (v.valueCssLengthPercentage.convertToAbsolute us ux)) := by
      simp only [resolveStep, hpe, hc1, if_true, setProperty_properties]
    rw [h1] at h
    apply key _ h
    have hj : (j != FontSizeId) = true := by
      simp only [Bool.and_eq_true] at hc1
      exact hc1.2
    simp only [resolveStep, hpe, QVariant.canConvertCssLengthPercentage, hj, Bool.and_self,
      if_true, setProperty_properties, QVariant.valueCssLengthPercentage,
      convertToAbsolute_twice]
  · have hc1f : (v.canConvertCssLengthPercentage && j != FontSizeId) = false := by
      simpa using hc1
    by_cases hc2 : v.canConvertAutoLengthPercentage = true
    · cases v <;> simp [QVariant.canConvertAutoLengthPercentage] at hc2
      rename_i a
      by_cases ha : a.isAuto = true
      · have h1 : (resolveStep us ux (empty.setProperty j (QVariant.autoLengthPercentage a))
            j).properties j = some (QVariant.autoLengthPercentage a) := by
          simp [resolveStep, hpe, QVariant.canConvertCssLengthPercentage,
            QVariant.canConvertAutoLengthPercentage, QVariant.valueAutoLengthPercentage, ha,
            setProperty_properties]
        rw [h1] at h
        apply key _ h
        simp [resolveStep, hpe, QVariant.canConvertCssLengthPercentage,
          QVariant.canConvertAutoLengthPercentage, QVariant.valueAutoLengthPercentage, ha,
          setProperty_properties]
      · have h1 : (resolveStep us ux (empty.setProperty j (QVariant.autoLengthPercentage a))
            j).properties j = some (QVariant.autoLengthPercentage
              { a with length := a.length.convertToAbsolute us ux }) := by
          simp [resolveStep, hpe, QVariant.canConvertCssLengthPercentage,
            QVariant.canConvertAutoLengthPercentage, QVariant.valueAutoLengthPercentage, ha,
            setProperty_properties]
        rw [h1] at h
        apply key _ h
        simp [resolveStep, hpe, QVariant.canConvertCssLengthPercentage,
          QVariant.canConvertAutoLengthPercentage, QVariant.valueAutoLengthPercentage, ha,
          setProperty_properties, convertToAbsolute_twice]
    · have hc2f : v.canConvertAutoLengthPercentage = false := by simpa using hc2
      have eL : ∀ l, (QVariant.lineHeight l).valueLineHeightInfo = l := fun _ => rfl
      have eT : ∀ l, (QVariant.tabSize l).valueTabSizeInfo = l := fun _ => rfl
      have eI : ∀ l, (QVariant.textIndent l).valueTextIndentInfo = l := fun _ => rfl
      rw [resolveStep_other us ux j v hc1f hc2f] at h
      have h2 := resolveStep_other us2 ux2 j v hc1f hc2f
      generalize v.valueLineHeightInfo = L at h h2
      generalize v.valueTabSizeInfo = T at h h2
      generalize v.valueTextIndentInfo = I at h h2
      split_ifs at h with k1 hl k2 ht k3 hu
      · apply key _ h
        rw [resolveStep_other us2 ux2 j
          (QVariant.lineHeight { L with length := L.length.convertToAbsolute us ux }) rfl rfl]
        simp only [k1, if_true, eL, hl, convertToAbsolute_twice]
      · apply key _ h
        rw [h2]
        simp only [k1, if_true, hl, if_false, Bool.false_eq_true]
      · apply key _ h
        rw [resolveStep_other us2 ux2 j
          (QVariant.tabSize { T with length := T.length.convertToAbsolute us ux }) rfl rfl]
        simp only [k1, k2, if_true, if_false, Bool.false_eq_true, eT, ht,
          convertToAbsolute_twice]
      · apply key _ h
        rw [h2]
        simp only [k1, k2, if_true, ht, if_false, Bool.false_eq_true]
      · apply key _ h
        rw [resolveStep_other us2 ux2 j
          (QVariant.textIndent { I with length := I.length.convertToAbsolute us ux }) rfl rfl]
        have hu2 : ((I.length.convertToAbsolute us ux).unit
            != KoSvgText.UnitType.Percentage) = true := by
          rw [convertToAbsolute_unit]; decide
        simp only [k1, k2, k3, if_true, if_false, Bool.false_eq_true, eI, hu2,
          convertToAbsolute_twice]
      · apply key _ h
        rw [resolveStep_other us2 ux2 j (QVariant.textIndent I) rfl rfl]
        simp only [k1, k2, k3, if_true, if_false, Bool.false_eq_true, eI, hu]
      · apply key _ h
        rw [h2]
        simp only [k1, k2, k3, if_false, Bool.false_eq_true]

end KoSvgTextProperties

namespace KoSvgTextProperties

open PropertyId

/-- What a turn of the resolution loop leaves at an entry of a key other than `FontSizeId`: a
plain length, the length of an auto-length that is not auto, of a line height that is a
length, of a tab size that is a length, and of a text indent that is no percentage, is
absolute. -/
theorem resolveStep_absolute (us ux : ℚ) (acc : KoSvgTextProperties) (j : PropertyId)
    (hj : j ≠ FontSizeId) (hp : acc.hasProperty j = true) :
    (∀ l, (resolveStep us ux acc j).properties j = some (QVariant.lengthPercentage l) →
      l.unit = KoSvgText.UnitType.Absolute)
    ∧ (∀ a, (resolveStep us ux acc j).properties j = some (QVariant.autoLengthPercentage a) →
      a.isAuto = false → a.length.unit = KoSvgText.UnitType.Absolute)
    ∧ (j = LineHeightId →
      ∀ L, (resolveStep us ux acc j).properties j = some (QVariant.lineHeight L) →
        L.isNormal = false → L.isNumber = false → L.length.unit = KoSvgText.UnitType.Absolute)
    ∧ (j = TabSizeId →
      ∀ T, (resolveStep us ux acc j).properties j = some (QVariant.tabSize T) →
        T.isNumber = false → T.length.unit = KoSvgText.UnitType.Absolute)
    ∧ (j = TextIndentId →
      ∀ I, (resolveStep us ux acc j).properties j = some (QVariant.textIndent I) →
        I.length.unit ≠ KoSvgText.UnitType.Percentage →
        I.length.unit = KoSvgText.UnitType.Absolute) := by
  obtain ⟨v, hv⟩ : ∃ v, acc.properties j = some v := by
    obtain h0 | ⟨v, h0⟩ := Option.eq_none_or_eq_some (acc.properties j)
    · simp [hasProperty, h0] at hp
    · exact ⟨v, h0⟩
  have hstep : (resolveStep us ux acc j).properties j
      = (resolveStep us ux (empty.setProperty j v) j).properties j := by
    apply resolveStep_local
    simp [hv, setProperty_properties]
  rw [hstep]
  have hpe : ∀ w : QVariant, (empty.setProperty j w).property j QVariant.invalid = w := by
    intro w
    simp [property, setProperty_properties]
  have hjb : (j != FontSizeId) = true := by simpa using hj
  by_cases hc1 : v.canConvertCssLengthPercentage = true
  · have h1 : (resolveStep us ux (empty.setProperty j v) j).properties j
        = some (QVariant.lengthPercentage
            (v.valueCssLengthPercentage.convertToAbsolute us ux)) := by
      simp only [resolveStep, hpe, hc1, hjb, Bool.and_self, if_true, setProperty_properties]
    rw [h1]
    refine ⟨?_, ?_, ?_, ?_, ?_⟩
    · intro l hl
      have e : v.valueCssLengthPercentage.convertToAbsolute us ux = l := by simpa using hl
      rw [← e]
      exact convertToAbsolute_unit _ _ _
    · intro a ha; simp at ha
    · intro _ L hL; simp at hL
    · intro _ T hT; simp at hT
    · intro _ I hI; simp at hI
  · have hc1f : (v.canConvertCssLengthPercentage && j != FontSizeId) = false := by
      simp [hc1]
    have hnl : ∀ l, v ≠ QVariant.lengthPercentage l := by
      intro l hl
      apply hc1
      rw [hl]
      rfl
    by_cases hc2 : v.canConvertAutoLengthPercentage = true
    · cases v <;> simp [QVariant.canConvertAutoLengthPercentage] at hc2
      rename_i a0
      have h1 : (resolveStep us ux (empty.setProperty j (QVariant.autoLengthPercentage a0))
          j).properties j
          = some (QVariant.autoLengthPercentage
              (if a0.isAuto = true then a0
                else { a0 with length := a0.length.convertToAbsolute us ux })) := by
        by_cases ha : a0.isAuto = true <;>
          simp [resolveStep, hpe, QVariant.canConvertCssLengthPercentage,
            QVariant.canConvertAutoLengthPercentage, QVariant.valueAutoLengthPercentage, ha,
            setProperty_properties]
      rw [h1]
      refine ⟨?_, ?_, ?_, ?_, ?_⟩
      · intro l hl; simp at hl
      · intro a ha hna
        have e : (if a0.isAuto = true then a0
            else { a0 with length := a0.length.convertToAbsolute us ux }) = a := by
          simpa using ha
        by_cases h0 : a0.isAuto = true
        · simp only [h0, if_true] at e
          rw [← e, h0] at hna
          exact absurd hna (by decide)
        · simp only [h0, if_false] at e
          rw [← e]
          exact convertToAbsolute_unit _ _ _
      · intro _ L hL; simp at hL
      · intro _ T hT; simp at hT
      · intro _ I hI; simp at hI
    · have hc2f : v.canConvertAutoLengthPercentage = false := by simpa using hc2
      have hna : ∀ a, v ≠ QVariant.autoLengthPercentage a := by
        intro a ha
        apply hc2
        rw [ha]
        rfl
      rw [resolveStep_other us ux j v hc1f hc2f]
      generalize hL0 : v.valueLineHeightInfo = L0
      generalize hT0 : v.valueTabSizeInfo = T0
      generalize v.valueTextIndentInfo = I0
      refine ⟨?_, ?_, ?_, ?_, ?_⟩
      · intro l hl
        split_ifs at hl <;> simp at hl
        all_goals exact absurd hl (hnl l)
      · intro a ha
        split_ifs at ha <;> simp at ha
        all_goals exact absurd ha (hna a)
      · intro hk L hL hn1 hn2
        have k1 : (j == LineHeightId) = true := by simpa using hk
        simp only [k1, if_true] at hL
        split_ifs at hL with hl
        · have e : ({ L0 with length := L0.length.convertToAbsolute us ux }
              : KoSvgText.LineHeightInfo) = L := by simpa using hL
          rw [← e]
          exact convertToAbsolute_unit _ _ _
        · have e : v = QVariant.lineHeight L := by simpa using hL
          rw [e] at hL0
          have e2 : L = L0 := hL0
          rw [← e2, hn1, hn2] at hl
          exact absurd rfl hl
      · intro hk T hT hn
        have k2 : (j == TabSizeId) = true := by simpa using hk
        have k1 : (j == LineHeightId) = false := by rw [hk]; rfl
        simp only [k1, k2, if_true, if_false, Bool.false_eq_true] at hT
        split_ifs at hT with ht
        · have e : ({ T0 with length := T0.length.convertToAbsolute us ux }
              : KoSvgText.TabSizeInfo) = T := by simpa using hT
          rw [← e]
          exact convertToAbsolute_unit _ _ _
        · have e : v = QVariant.tabSize T := by simpa using hT
          rw [e] at hT0
          have e2 : T = T0 := hT0
          rw [← e2, hn] at ht
          exact absurd rfl ht
      · intro hk I hI hn
        have k3 : (j == TextIndentId) = true := by simpa using hk
        have k1 : (j == LineHeightId) = false := by rw [hk]; rfl
        have k2 : (j == TabSizeId) = false := by rw [hk]; rfl
        simp only [k1, k2, k3, if_true, if_false, Bool.false_eq_true] at hI
        by_cases hu : (I0.length.unit != KoSvgText.UnitType.Percentage) = true
        · simp only [hu, if_true] at hI
          have e : ({ I0 with length := I0.length.convertToAbsolute us ux }
              : KoSvgText.TextIndentInfo) = I := by simpa using hI
          rw [← e]
          exact convertToAbsolute_unit _ _ _
        · simp only [hu, if_false, Bool.false_eq_true] at hI
          have e : I0 = I := by simpa using hI
          rw [e] at hu
          exact absurd (by simpa using hn) hu

/-- C37: with a fixed font-metrics lookup, `resolveRelativeValues(fontSize, xHeight)` followed
by `resolveRelativeValues(fontSize2, xHeight2)` yields the same store as the first call alone.
After the first call the font size is an absolute length, and under every other key a plain
length, the length of an auto-length that is not auto, of a line height that is a length, of a
tab size that is a length and of a text indent that is no percentage is absolute. -/
theorem resolveRelativeValues_idempotent (E : KoSvgText.Enumerators)
    (metrics : KoSvgTextProperties → ℚ) (s : KoSvgTextProperties)
    (fontSize xHeight fontSize2 xHeight2 : ℚ) :
    resolveRelativeValues E metrics (resolveRelativeValues E metrics s fontSize xHeight)
        fontSize2 xHeight2
      = resolveRelativeValues E metrics s fontSize xHeight
    ∧ (∃ l, (resolveRelativeValues E metrics s fontSize xHeight).properties FontSizeId
          = some (QVariant.lengthPercentage l) ∧ l.unit = KoSvgText.UnitType.Absolute)
    ∧ (∀ j, j ≠ FontSizeId →
        (∀ l, (resolveRelativeValues E metrics s fontSize xHeight).properties j
            = some (QVariant.lengthPercentage l) →
          l.unit = KoSvgText.UnitType.Absolute)
        ∧ (∀ a, (resolveRelativeValues E metrics s fontSize xHeight).properties j
            = some (QVariant.autoLengthPercentage a) →
          a.isAuto = false → a.length.unit = KoSvgText.UnitType.Absolute)
        ∧ (j = LineHeightId →
          ∀ L, (resolveRelativeValues E metrics s fontSize xHeight).properties j
              = some (QVariant.lineHeight L) →
            L.isNormal = false → L.isNumber = false →
            L.length.unit = KoSvgText.UnitType.Absolute)
        ∧ (j = TabSizeId →
          ∀ T, (resolveRelativeValues E metrics s fontSize xHeight).properties j
              = some (QVariant.tabSize T) →
            T.isNumber = false → T.length.unit = KoSvgText.UnitType.Absolute)
        ∧ (j = TextIndentId →
          ∀ I, (resolveRelativeValues E metrics s fontSize xHeight).properties j
              = some (QVariant.textIndent I) →
            I.length.unit ≠ KoSvgText.UnitType.Percentage →
            I.length.unit = KoSvgText.UnitType.Absolute)) := by
  have hfs1 := resolveRelativeValues_fontSize E metrics s fontSize xHeight
  refine ⟨?_, ⟨_, hfs1, convertToAbsolute_unit _ _ _⟩, ?_⟩
  · apply KoSvgTextProperties.ext
    funext j
    by_cases hj : j = FontSizeId
    · subst hj
      rw [resolveRelativeValues_fontSize, fontSize_of_length E _ _ hfs1,
        convertToAbsolute_twice, hfs1]
    · by_cases hp : s.hasProperty j = true
      · have hp1 : (resolveRelativeValues E metrics s fontSize xHeight).hasProperty j = true := by
          rw [resolveRelativeValues_hasProperty]
          simp [hp]
        rw [resolveRelativeValues_properties E metrics _ fontSize2 xHeight2 j hj hp1]
        exact resolveStep_twice _ _ _ _ s _ j hp
          (resolveRelativeValues_properties E metrics s fontSize xHeight j hj hp)
      · have hp1 : (resolveRelativeValues E metrics s fontSize xHeight).hasProperty j
            = false := by
          rw [resolveRelativeValues_hasProperty]
          simp [hp, hj]
        have hp2 : (resolveRelativeValues E metrics
            (resolveRelativeValues E metrics s fontSize xHeight) fontSize2 xHeight2).hasProperty j
            = false := by
          rw [resolveRelativeValues_hasProperty]
          simp [hp1, hj]
        have e1 : (resolveRelativeValues E metrics s fontSize xHeight).properties j = none := by
          simpa [hasProperty] using hp1
        have e2 : (resolveRelativeValues E metrics
            (resolveRelativeValues E metrics s fontSize xHeight) fontSize2 xHeight2).properties j
            = none := by
          simpa [hasProperty] using hp2
        rw [e1, e2]
  · intro j hj
    by_cases hp : s.hasProperty j = true
    · rw [resolveRelativeValues_properties E metrics s fontSize xHeight j hj hp]
      exact resolveStep_absolute _ _ s j hj hp
    · have hp1 : (resolveRelativeValues E metrics s fontSize xHeight).hasProperty j
          = false := by
        rw [resolveRelativeValues_hasProperty]
        simp [hp, hj]
      have e1 : (resolveRelativeValues E metrics s fontSize xHeight).properties j = none := by
        simpa [hasProperty] using hp1
      rw [e1]
      simp

/-- C38: after `resolveRelativeValues` the store holds `FontSizeId` with an absolute length,
which is the default 12.0 when the store held no `FontSizeId`; so after
`inheritFrom(parent, true)` the child has `FontSizeId`, also when neither child nor parent
had one (then it is 12.0). -/
theorem resolveRelativeValues_writes_fontSize (E : KoSvgText.Enumerators)
    (metrics : KoSvgTextProperties → ℚ) :
    (∀ (s : KoSvgTextProperties) (fontSize xHeight : ℚ),
      ∃ l, (resolveRelativeValues E metrics s fontSize xHeight).properties FontSizeId
          = some (QVariant.lengthPercentage l)
        ∧ l.unit = KoSvgText.UnitType.Absolute
        ∧ (s.hasProperty FontSizeId = false →
            l = { value := 12, unit := KoSvgText.UnitType.Absolute }))
    ∧ (∀ child parent : KoSvgTextProperties,
        (inheritFrom E metrics child parent true).hasProperty FontSizeId = true)
    ∧ (inheritFrom E metrics empty empty true).properties FontSizeId
        = some (QVariant.lengthPercentage { value := 12, unit := KoSvgText.UnitType.Absolute }) := by
  refine ⟨?_, ?_, ?_⟩
  · intro s fontSize xHeight
    refine ⟨_, resolveRelativeValues_fontSize E metrics s fontSize xHeight,
      convertToAbsolute_unit _ _ _, ?_⟩
    intro h
    rw [fontSize_absent E s h]
    rfl
  · intro child parent
    simp only [inheritFrom, if_true]
    rw [resolveRelativeValues_hasProperty]
    simp
  · rfl

end KoSvgTextProperties
